import Mathlib

/-!
# ModbeeMPPT: power domains, true battery voltage, SOC, statistics, configuration, loop,
start-up and clamping setters

Shallow embedding of `lib/ModbeeMPPT/src/ModbeeMpptAPI.cpp`,
`lib/ModbeeMPPT/src/ModbeeMpptConfig.cpp`, `lib/ModbeeMPPT/src/ModbeeMPPT.cpp`,
`ModbeeMpptLog::loadStatsToAPI` and of the parts of `lib/bq25798/BQ25798.cpp` they
read or call.

Modelling conventions
* C `float` values are exact rationals (`ℚ`); the literals `0.1f`, `0.001f`, ...
  are the rationals they denote.  Rounding is therefore not modelled.
* The values returned by the driver's ADC getters during one call (one
  statistics tick, one loop pass) are collected in an `AdcReadings` record (one
  snapshot).
* `unsigned long` (32 bit on the ESP32-C3 target) is a `Nat` below `2^32`;
  subtraction wraps modulo `2^32`.
* Member functions take the members they use as an explicit state and return the
  new state; results of I2C and file-system operations are parameters.
-/

namespace ModbeeMppt

/-! ## Data model -/

/-- Power measurement structure (`modbee_power_data_t`, ModbeeMpptAPI.h). -/
structure modbee_power_data_t where
  voltage : ℚ
  current : ℚ
  power : ℚ
  valid : Bool
deriving DecidableEq

/-- One snapshot of what the driver getters `getADCVBUS`, `getADCIBUS`,
`getADCVBAT`, `getADCIBAT`, `getADCVSYS`, `getADCVAC1`, `getADCVAC2` return. -/
structure AdcReadings where
  vbus : ℚ
  ibus : ℚ
  vbat : ℚ
  ibat : ℚ
  vsys : ℚ
  vac1 : ℚ
  vac2 : ℚ
deriving DecidableEq

/-! ## Power domain calculator (ModbeeMpptAPI.cpp, lines 192-324) -/

/-- Embedding of `ModbeeMpptAPI::getVbusPower`. -/
def getVbusPower (adc : AdcReadings) : modbee_power_data_t :=
  { voltage := adc.vbus
    current := adc.ibus
    power := adc.vbus * adc.ibus
    valid := decide (adc.vbus > 1/10) }

/-- Embedding of `ModbeeMpptAPI::getBatteryPower`. -/
def getBatteryPower (adc : AdcReadings) : modbee_power_data_t :=
  { voltage := adc.vbat
    current := adc.ibat
    power := adc.vbat * adc.ibat
    valid := decide (adc.vbat > 1/10) }

/-- Embedding of `ModbeeMpptAPI::getSystemPower`. -/
def getSystemPower (adc : AdcReadings) : modbee_power_data_t :=
  let data : modbee_power_data_t := { voltage := 0, current := 0, power := 0, valid := false }
  let data := { data with voltage := adc.vsys }
  let data := { data with valid := decide (data.voltage > 1/10) }
  if !data.valid then data
  else
    let ibus_current := adc.ibus
    let vbus_voltage := adc.vbus
    let ibat_current := adc.ibat
    let vbat_voltage := adc.vbat
    let input_power := ibus_current * vbus_voltage
    let battery_power := ibat_current * vbat_voltage
    let available_power := input_power - battery_power
    let data := { data with current := available_power / data.voltage }
    let data := { data with power := data.current * data.voltage }
    if data.current < 0 then { data with current := 0, power := 0 }
    else data

/-- The divisors of the float divisions that `getSystemPower` executes on the
path it takes: the single `available_power / data.voltage`, reached only after
the `!data.valid` early return. -/
def getSystemPower_divisors (adc : AdcReadings) : List ℚ :=
  if !decide (adc.vsys > 1/10) then [] else [adc.vsys]

/-- Body shared by `getVAC1Power` and `getVAC2Power`, which differ only in the
ADC channel read into `data.voltage` (`getADCVAC1` / `getADCVAC2`). -/
def vacPower (v_ac : ℚ) (adc : AdcReadings) : modbee_power_data_t :=
  let data : modbee_power_data_t := { voltage := 0, current := 0, power := 0, valid := false }
  let data := { data with voltage := v_ac }
  let data := { data with valid := decide (data.voltage > 1/10) }
  if !data.valid then data
  else
    let vbus_voltage := adc.vbus
    let ibus_current := adc.ibus
    if vbus_voltage > 1/10 ∧ ibus_current > 1/1000 then
      let voltage_ratio := data.voltage / vbus_voltage
      let data := { data with current := ibus_current * voltage_ratio }
      { data with power := data.voltage * data.current }
    else
      { data with current := 0, power := 0 }

/-- Embedding of `ModbeeMpptAPI::getVAC1Power`. -/
def getVAC1Power (adc : AdcReadings) : modbee_power_data_t := vacPower adc.vac1 adc

/-- Embedding of `ModbeeMpptAPI::getVAC2Power`. -/
def getVAC2Power (adc : AdcReadings) : modbee_power_data_t := vacPower adc.vac2 adc

/-- Embedding of `ModbeeMpptAPI::clampValue`. -/
def clampValue (value min_val max_val : ℚ) : ℚ :=
  if value < min_val then min_val
  else if value > max_val then max_val
  else value

/-- Embedding of `ModbeeMpptAPI::getEfficiency`. -/
def getEfficiency (adc : AdcReadings) : ℚ :=
  let input := getVbusPower adc
  let battery := getBatteryPower adc
  let system := getSystemPower adc
  if input.power ≤ 1/10 then 0
  else
    let total_output_power := system.power
    let total_output_power :=
      if battery.power > 0 then total_output_power + battery.power else total_output_power
    let efficiency := (total_output_power / input.power) * 100
    clampValue efficiency 0 100

/-- The divisors of every float division executed by one call of
`getEfficiency`: those of the nested `getSystemPower` call, then the divisor of
`total_output_power / input.power`, reached only after the `input.power <= 0.1f`
early return. -/
def getEfficiency_divisors (adc : AdcReadings) : List ℚ :=
  getSystemPower_divisors adc ++
    (if (getVbusPower adc).power ≤ 1/10 then [] else [(getVbusPower adc).power])

/-- The snapshot of the power-balance scenario. -/
def scenarioReadings : AdcReadings :=
  { vbus := 20, ibus := 1, vbat := 13, ibat := 1/2, vsys := 12, vac1 := 0, vac2 := 0 }

/-! ## Driver conversions (BQ25798.cpp) -/

/-- Embedding of `BQ25798::getMinSystemV`: `reg` is the byte read from
`BQ25798_REG_MINIMAL_SYSTEM_VOLTAGE`; `readRegisterBits(.., 6, 0)` keeps its low
six bits, `(reg >> 0) & ((1 << 6) - 1)`, written here as `reg % 64`. -/
def getMinSystemV (reg : Nat) : ℚ :=
  let reg_value := reg % 64
  ((reg_value : ℚ) * (1/4)) + 5/2

/-- Embedding of `BQ25798::getChargeLimitV`: `reg` is the 16-bit word read from
`BQ25798_REG_CHARGE_VOLTAGE_LIMIT`; `readRegisterBits16(.., 11, 0)` keeps its low
eleven bits, `(reg >> 0) & ((1 << 11) - 1)`, written here as `reg % 2048`. -/
def getChargeLimitV (reg : Nat) : ℚ :=
  let reg_value := reg % 2048
  (reg_value : ℚ) * (1/100)

/-- Embedding of `BQ25798::getADCVBAT`: `value` is the 16-bit word read from
`BQ25798_REG_VBAT_ADC`; the mask `value & 0x7FFF` is written as `value % 32768`. -/
def getADCVBAT (value : Nat) : ℚ :=
  ((value % 32768 : Nat) : ℚ) * (1/1000)

/-! ## True battery voltage state machine (ModbeeMpptAPI.cpp, lines 481-567) -/

/-- The enum `TrueBatteryVoltageState` (ModbeeMpptAPI.h). -/
inductive TrueBatteryVoltageState where
  | TBVS_IDLE
  | TBVS_DISABLE_CHARGING
  | TBVS_WAIT_CHARGE_STOP
  | TBVS_FORCE_DISCHARGE
  | TBVS_WAIT_STABILIZE
  | TBVS_READ_VOLTAGE
  | TBVS_WAIT_BEFORE_RESTORE
  | TBVS_RESTORE
deriving DecidableEq, Repr

open TrueBatteryVoltageState

/-- The TBV members of `ModbeeMpptAPI` together with the one charger register bit
the state machine reads and writes (`hw_force_batt_discharge`, bit 6 of
`BQ25798_REG_CHARGER_CONTROL_0`, accessed through `getForceBattDischarge` /
`setForceBattDischarge`; the I2C transfer is taken to succeed). -/
structure TbvMachine where
  _tbv_state : TrueBatteryVoltageState
  _tbv_timer : Nat
  _tbv_original_charge_state : Bool
  _tbv_original_discharge_state : Bool
  _tbv_last_reading : ℚ
  _tbv_reading_valid : Bool
  hw_force_batt_discharge : Bool
deriving DecidableEq

/-- Subtraction of two `unsigned long` values (32 bit, wrapping). -/
def ulongSub (a b : Nat) : Nat := (a + 4294967296 - b) % 4294967296

/-- Embedding of `ModbeeMpptAPI::updateTrueBatteryVoltage`; `millis` is the value
returned by `millis()`. -/
def updateTrueBatteryVoltage (m : TbvMachine) (millis : Nat) : TbvMachine :=
  if m._tbv_state = TBVS_IDLE then
    { m with _tbv_reading_valid := false
             _tbv_state := TBVS_DISABLE_CHARGING
             _tbv_timer := millis }
  else m

/-- Embedding of `ModbeeMpptAPI::update`; `currentTime` is the value returned by
`millis()` and `adcvbat` is what `getADCVBAT()` would return during this call. -/
def update (m : TbvMachine) (currentTime : Nat) (adcvbat : ℚ) : TbvMachine :=
  match m._tbv_state with
  | TBVS_IDLE => m
  | TBVS_DISABLE_CHARGING =>
      { m with _tbv_original_discharge_state := m.hw_force_batt_discharge
               _tbv_state := TBVS_WAIT_CHARGE_STOP
               _tbv_timer := currentTime }
  | TBVS_WAIT_CHARGE_STOP =>
      if ulongSub currentTime m._tbv_timer ≥ 50 then
        { m with _tbv_state := TBVS_FORCE_DISCHARGE
                 _tbv_timer := currentTime }
      else m
  | TBVS_FORCE_DISCHARGE =>
      { m with hw_force_batt_discharge := true
               _tbv_state := TBVS_WAIT_STABILIZE
               _tbv_timer := currentTime }
  | TBVS_WAIT_STABILIZE =>
      if ulongSub currentTime m._tbv_timer ≥ 400 then
        { m with _tbv_state := TBVS_READ_VOLTAGE }
      else m
  | TBVS_READ_VOLTAGE =>
      { m with _tbv_last_reading := adcvbat
               _tbv_reading_valid := true
               _tbv_state := TBVS_WAIT_BEFORE_RESTORE
               _tbv_timer := currentTime }
  | TBVS_WAIT_BEFORE_RESTORE =>
      if ulongSub currentTime m._tbv_timer ≥ 50 then
        { m with _tbv_state := TBVS_RESTORE }
      else m
  | TBVS_RESTORE =>
      { m with hw_force_batt_discharge := m._tbv_original_discharge_state
               _tbv_state := TBVS_IDLE }

/-- One `update()` call as seen from outside: the clock value and the battery
ADC reading available during the call. -/
structure UpdateCall where
  now : Nat
  adcvbat : ℚ
deriving DecidableEq

/-- A sequence of `update()` calls, oldest first. -/
def runUpdates (m : TbvMachine) (calls : List UpdateCall) : TbvMachine :=
  calls.foldl (fun acc c => update acc c.now c.adcvbat) m

/-- The defined sequence of the state machine: the state that follows each
state. -/
def nextInSequence : TrueBatteryVoltageState → TrueBatteryVoltageState
  | TBVS_IDLE => TBVS_DISABLE_CHARGING
  | TBVS_DISABLE_CHARGING => TBVS_WAIT_CHARGE_STOP
  | TBVS_WAIT_CHARGE_STOP => TBVS_FORCE_DISCHARGE
  | TBVS_FORCE_DISCHARGE => TBVS_WAIT_STABILIZE
  | TBVS_WAIT_STABILIZE => TBVS_READ_VOLTAGE
  | TBVS_READ_VOLTAGE => TBVS_WAIT_BEFORE_RESTORE
  | TBVS_WAIT_BEFORE_RESTORE => TBVS_RESTORE
  | TBVS_RESTORE => TBVS_IDLE

/-! ## Battery state estimator (ModbeeMpptAPI.cpp, lines 498-506, 590-617, 1069-1086, 1311-1319) -/

/-- The enum `modbee_charge_state_t` (ModbeeMpptAPI.h). -/
inductive modbee_charge_state_t where
  | MODBEE_CHARGE_NOT_CHARGING
  | MODBEE_CHARGE_TRICKLE
  | MODBEE_CHARGE_PRECHARGE
  | MODBEE_CHARGE_FAST_CC
  | MODBEE_CHARGE_TAPER_CV
  | MODBEE_CHARGE_RESERVED
  | MODBEE_CHARGE_TOPOFF
  | MODBEE_CHARGE_DONE
deriving DecidableEq, Repr

open modbee_charge_state_t

/-- The `charge_state` field decoded by `ModbeeMpptAPI::getStatus1` from the
byte `reg` returned by `getChargerStatus1()`: `(reg >> 5) & 0x07`, the enum
values being numbered 0 to 7. -/
def getStatus1_charge_state (reg : Nat) : modbee_charge_state_t :=
  match (reg / 32) % 8 with
  | 0 => MODBEE_CHARGE_NOT_CHARGING
  | 1 => MODBEE_CHARGE_TRICKLE
  | 2 => MODBEE_CHARGE_PRECHARGE
  | 3 => MODBEE_CHARGE_FAST_CC
  | 4 => MODBEE_CHARGE_TAPER_CV
  | 5 => MODBEE_CHARGE_RESERVED
  | 6 => MODBEE_CHARGE_TOPOFF
  | _ => MODBEE_CHARGE_DONE

/-- Embedding of `ModbeeMpptAPI::isCharging`; `status1` is the byte returned by
`getChargerStatus1()`. -/
def isCharging (status1 : Nat) : Bool :=
  match getStatus1_charge_state status1 with
  | MODBEE_CHARGE_TRICKLE => true
  | MODBEE_CHARGE_PRECHARGE => true
  | MODBEE_CHARGE_FAST_CC => true
  | MODBEE_CHARGE_TAPER_CV => true
  | MODBEE_CHARGE_TOPOFF => true
  | MODBEE_CHARGE_NOT_CHARGING => false
  | MODBEE_CHARGE_DONE => false
  | MODBEE_CHARGE_RESERVED => false

/-- Embedding of `ModbeeMpptAPI::getTrueBatteryVoltage` with explicit state
passing: the returned pair is the result and the object state after the call.
`status1` is the byte returned by `getChargerStatus1()` and `adcvbat` is what
`getADCVBAT()` returns during the call. -/
def getTrueBatteryVoltage (m : TbvMachine) (status1 : Nat) (adcvbat : ℚ) : ℚ × TbvMachine :=
  if isCharging status1 then (m._tbv_last_reading, m)
  else (adcvbat, m)

/-- The battery range members of `ModbeeMpptAPI` used for the SOC. -/
structure BatteryRange where
  _battery_min_voltage : ℚ
  _battery_max_voltage : ℚ
deriving DecidableEq

/-- Embedding of `ModbeeMpptAPI::calculateBatterySOC`. -/
def calculateBatterySOC (cfg : BatteryRange) (voltage : ℚ) : ℚ :=
  if voltage < cfg._battery_min_voltage then 0
  else if voltage > cfg._battery_max_voltage then 100
  else
    let range := cfg._battery_max_voltage - cfg._battery_min_voltage
    let position := voltage - cfg._battery_min_voltage
    (position / range) * 100

/-- Embedding of `ModbeeMpptAPI::getActualBatterySOC`. -/
def getActualBatterySOC (cfg : BatteryRange) (m : TbvMachine) (status1 : Nat) (adcvbat : ℚ) : ℚ :=
  let true_voltage := (getTrueBatteryVoltage m status1 adcvbat).1
  calculateBatterySOC cfg true_voltage

/-- Embedding of `ModbeeMpptAPI::getUsableBatterySOC`; `min_system_voltage` and
`charge_voltage` are what `getMinSystemV()` and `getChargeLimitV()` return
during the call. -/
def getUsableBatterySOC (m : TbvMachine) (status1 : Nat) (adcvbat : ℚ)
    (min_system_voltage charge_voltage : ℚ) : ℚ :=
  let true_voltage := (getTrueBatteryVoltage m status1 adcvbat).1
  if true_voltage < min_system_voltage then 0
  else if true_voltage > charge_voltage then 100
  else
    let usable_range := charge_voltage - min_system_voltage
    let usable_position := true_voltage - min_system_voltage
    (usable_position / usable_range) * 100

/-- The divisors of the float divisions that `getUsableBatterySOC` executes on
the path it takes: `usable_position / usable_range`, reached when neither early
return is taken. -/
def getUsableBatterySOC_divisors (m : TbvMachine) (status1 : Nat) (adcvbat : ℚ)
    (min_system_voltage charge_voltage : ℚ) : List ℚ :=
  let true_voltage := (getTrueBatteryVoltage m status1 adcvbat).1
  if true_voltage < min_system_voltage then []
  else if true_voltage > charge_voltage then []
  else [charge_voltage - min_system_voltage]

/-- The object state right after the constructor `ModbeeMpptAPI::ModbeeMpptAPI`,
with the charger's forced-discharge bit as found. -/
def initialTbv (hw_force : Bool) : TbvMachine :=
  { _tbv_state := TBVS_IDLE
    _tbv_timer := 0
    _tbv_original_charge_state := false
    _tbv_original_discharge_state := false
    _tbv_last_reading := 0
    _tbv_reading_valid := false
    hw_force_batt_discharge := hw_force }

/-- A snapshot in which the battery takes more power than the input delivers. -/
def deficitReadings : AdcReadings :=
  { vbus := 5, ibus := 0, vbat := 12, ibat := 1, vsys := 12, vac1 := 0, vac2 := 0 }

/-- The snapshot of the VAC scenario: both AC inputs at the VBUS voltage. -/
def vacScenarioReadings : AdcReadings :=
  { vbus := 20, ibus := 2, vbat := 13, ibat := 1/2, vsys := 12, vac1 := 20, vac2 := 20 }

/-- A machine in the middle of a cycle, waiting for the charge path to stop. -/
def waitingMachine : TbvMachine :=
  { _tbv_state := TBVS_WAIT_CHARGE_STOP
    _tbv_timer := 1000
    _tbv_original_charge_state := false
    _tbv_original_discharge_state := false
    _tbv_last_reading := 64/5
    _tbv_reading_valid := false
    hw_force_batt_discharge := false }

/-- Eight `update()` calls made every 80 ms, spanning 560 ms. -/
def slowPollCalls : List UpdateCall :=
  [⟨0, 12⟩, ⟨80, 12⟩, ⟨160, 12⟩, ⟨240, 12⟩, ⟨320, 12⟩, ⟨400, 12⟩, ⟨480, 12⟩, ⟨560, 12⟩]

/-- The default LiFePO4 4S range set by the constructor. -/
def defaultRange : BatteryRange :=
  { _battery_min_voltage := 10, _battery_max_voltage := 73/5 }

/-- Seven `update()` calls that meet the three waits exactly. -/
def promptCalls : List UpdateCall :=
  [⟨0, 13⟩, ⟨50, 13⟩, ⟨51, 13⟩, ⟨451, 13⟩, ⟨452, 64/5⟩, ⟨502, 13⟩, ⟨503, 13⟩]

/-! ## Battery type (ModbeeMpptAPI.cpp, lines 422-459) -/

/-- The enum `modbee_battery_type_t` (ModbeeMpptAPI.h). -/
inductive modbee_battery_type_t where
  | MODBEE_BATTERY_LIFEPO4
  | MODBEE_BATTERY_LIPO
  | MODBEE_BATTERY_LEAD_ACID
  | MODBEE_BATTERY_CUSTOM
deriving DecidableEq, Repr

open modbee_battery_type_t

/-- The macro `MODBEE_LIFEPO4_MIN_VOLTAGE` (`2.5f`). -/
def MODBEE_LIFEPO4_MIN_VOLTAGE : ℚ := 5/2
/-- The macro `MODBEE_LIFEPO4_MAX_VOLTAGE` (`3.65f`). -/
def MODBEE_LIFEPO4_MAX_VOLTAGE : ℚ := 73/20
/-- The macro `MODBEE_LIPO_MIN_VOLTAGE` (`2.8f`). -/
def MODBEE_LIPO_MIN_VOLTAGE : ℚ := 14/5
/-- The macro `MODBEE_LIPO_MAX_VOLTAGE` (`4.2f`). -/
def MODBEE_LIPO_MAX_VOLTAGE : ℚ := 21/5
/-- The macro `MODBEE_LEAD_ACID_MIN_VOLTAGE` (`1.8f`). -/
def MODBEE_LEAD_ACID_MIN_VOLTAGE : ℚ := 9/5
/-- The macro `MODBEE_LEAD_ACID_MAX_VOLTAGE` (`2.4f`). -/
def MODBEE_LEAD_ACID_MAX_VOLTAGE : ℚ := 12/5

/-- The per-cell limits chosen by the first `switch` of
`ModbeeMpptAPI::setBatteryType`, `none` for its `default: return false`. -/
def cellLimits : modbee_battery_type_t → Option (ℚ × ℚ)
  | MODBEE_BATTERY_LIFEPO4 => some (MODBEE_LIFEPO4_MIN_VOLTAGE, MODBEE_LIFEPO4_MAX_VOLTAGE)
  | MODBEE_BATTERY_LIPO => some (MODBEE_LIPO_MIN_VOLTAGE, MODBEE_LIPO_MAX_VOLTAGE)
  | MODBEE_BATTERY_LEAD_ACID => some (MODBEE_LEAD_ACID_MIN_VOLTAGE, MODBEE_LEAD_ACID_MAX_VOLTAGE)
  | MODBEE_BATTERY_CUSTOM => none

/-- Embedding of `ModbeeMpptAPI::setBatteryType` with explicit state passing:
the result and the battery range after the call.  `cell_count` is the `uint8_t`
argument and `setCellCount_ok` is what the driver call
`_bq25798.setCellCount(..)` returns (success of the I2C write). -/
def setBatteryType (cfg : BatteryRange) (type : modbee_battery_type_t) (cell_count : Nat)
    (setCellCount_ok : Bool) : Bool × BatteryRange :=
  if cell_count = 0 ∨ cell_count > 4 then (false, cfg)
  else
    match cellLimits type with
    | none => (false, cfg)
    | some (cell_min, cell_max) =>
      let cfg : BatteryRange :=
        { _battery_min_voltage := cell_min * (cell_count : ℚ)
          _battery_max_voltage := cell_max * (cell_count : ℚ) }
      if cell_count = 1 ∨ cell_count = 2 ∨ cell_count = 3 ∨ cell_count = 4 then
        (setCellCount_ok, cfg)
      else (false, cfg)

/-! ## Driver ADC conversions used by the statistics (BQ25798.cpp, lines 1815-1838) -/

/-- Embedding of `BQ25798::getADCIBUS`: `value` is the 16-bit word read from
`BQ25798_REG_IBUS_ADC`, reinterpreted by the cast `(int16_t)value` as a two's
complement number. -/
def getADCIBUS (value : Nat) : ℚ :=
  let signed_value : Int :=
    if value % 65536 < 32768 then (value % 65536 : Nat) else (value % 65536 : Nat) - 65536
  (signed_value : ℚ) * (1/1000)

/-- Embedding of `BQ25798::getADCVBUS`: `value` is the 16-bit word read from
`BQ25798_REG_VBUS_ADC`; the mask `value & 0x7FFF` is written as `value % 32768`. -/
def getADCVBUS (value : Nat) : ℚ :=
  ((value % 32768 : Nat) : ℚ) * (1/1000)

/-! ## Energy and peak statistics (ModbeeMpptAPI.cpp, lines 43-190) -/

/-- The statistics members of `ModbeeMpptAPI`, with the function-local
`static int sysPeakDebounce` of `updateStats`. -/
structure Stats where
  _vin1PeakPower : ℚ
  _vin1TotalEnergyWh : ℚ
  _vin2PeakPower : ℚ
  _vin2TotalEnergyWh : ℚ
  _vbusPeakPower : ℚ
  _vbusTotalEnergyWh : ℚ
  _batteryPeakPower : ℚ
  _batteryTotalEnergyWh : ℚ
  _systemPeakPower : ℚ
  _systemTotalEnergyWh : ℚ
  _lastStatsUpdateMs : Nat
  _batteryPeakChargeAmps : ℚ
  _batteryPeakDischargeAmps : ℚ
  _batteryAmpHoursCharge : ℚ
  _batteryAmpHoursDischarge : ℚ
  _batteryPeakDischargePower : ℚ
  _batteryWattHoursDischarge : ℚ
  sysPeakDebounce : Int
deriving DecidableEq

/-- Embedding of `ModbeeMpptAPI::updateStats`; `now` is the value returned by
`millis()` and `adc` the snapshot read by the power getters during the call.
Every member is assigned from the values the statements of the function
compute for it, in source order. -/
def updateStats (s : Stats) (now : Nat) (adc : AdcReadings) : Stats :=
  let dt_hours : ℚ := ((ulongSub now s._lastStatsUpdateMs : Nat) : ℚ) / 3600000
  let vin1_power := (getVAC1Power adc).power
  let vin2_power := (getVAC2Power adc).power
  let vbus_power := (getVbusPower adc).power
  let bat_power := (getBatteryPower adc).power
  let bat_current := (getBatteryPower adc).current
  let sys_power := (getSystemPower adc).power
  let bat_power_discharge := (getBatteryPower adc).power
  let bat_current_discharge := (getBatteryPower adc).current
  { _lastStatsUpdateMs := now
    -- VIN1
    _vin1PeakPower := if vin1_power > s._vin1PeakPower then vin1_power else s._vin1PeakPower
    _vin1TotalEnergyWh := s._vin1TotalEnergyWh + vin1_power * dt_hours
    -- VIN2
    _vin2PeakPower := if vin2_power > s._vin2PeakPower then vin2_power else s._vin2PeakPower
    _vin2TotalEnergyWh := s._vin2TotalEnergyWh + vin2_power * dt_hours
    -- VBUS
    _vbusPeakPower := if vbus_power > s._vbusPeakPower then vbus_power else s._vbusPeakPower
    _vbusTotalEnergyWh := s._vbusTotalEnergyWh + vbus_power * dt_hours
    -- BAT
    _batteryPeakPower :=
      if bat_power > s._batteryPeakPower then bat_power else s._batteryPeakPower
    _batteryTotalEnergyWh :=
      if bat_current > 0 then s._batteryTotalEnergyWh + bat_power * dt_hours
      else s._batteryTotalEnergyWh
    _batteryWattHoursDischarge :=
      if bat_current < 0 then s._batteryWattHoursDischarge + (-bat_power) * dt_hours
      else s._batteryWattHoursDischarge
    -- SYS (VSYS), debounced peak
    sysPeakDebounce :=
      if sys_power > s._systemPeakPower then
        (if s.sysPeakDebounce + 1 ≥ 3 then 0 else s.sysPeakDebounce + 1)
      else 0
    _systemPeakPower :=
      if sys_power > s._systemPeakPower then
        (if s.sysPeakDebounce + 1 ≥ 3 then sys_power else s._systemPeakPower)
      else s._systemPeakPower
    _systemTotalEnergyWh := s._systemTotalEnergyWh + sys_power * dt_hours
    -- battery charge / discharge amps
    _batteryPeakChargeAmps :=
      if bat_current > 0 then
        (if bat_current > s._batteryPeakChargeAmps then bat_current else s._batteryPeakChargeAmps)
      else s._batteryPeakChargeAmps
    _batteryAmpHoursCharge :=
      if bat_current > 0 then s._batteryAmpHoursCharge + bat_current * dt_hours
      else s._batteryAmpHoursCharge
    _batteryPeakDischargeAmps :=
      if bat_current > 0 then s._batteryPeakDischargeAmps
      else if bat_current < 0 then
        (if -bat_current > s._batteryPeakDischargeAmps then -bat_current
          else s._batteryPeakDischargeAmps)
      else s._batteryPeakDischargeAmps
    _batteryAmpHoursDischarge :=
      if bat_current > 0 then s._batteryAmpHoursDischarge
      else if bat_current < 0 then s._batteryAmpHoursDischarge + (-bat_current) * dt_hours
      else s._batteryAmpHoursDischarge
    -- battery discharge power
    _batteryPeakDischargePower :=
      if bat_current_discharge < 0 then
        (if -bat_power_discharge > s._batteryPeakDischargePower then -bat_power_discharge
          else s._batteryPeakDischargePower)
      else s._batteryPeakDischargePower }

/-- One `updateStats()` call as seen from outside: the clock value and the
snapshot of readings during the call. -/
structure StatsTick where
  now : Nat
  adc : AdcReadings
deriving DecidableEq

/-- A sequence of `updateStats()` calls, oldest first, with no other call in
between. -/
def runStats (s : Stats) (ticks : List StatsTick) : Stats :=
  ticks.foldl (fun acc t => updateStats acc t.now t.adc) s

/-- Embedding of `ModbeeMpptAPI::resetVin1Stats` (the trailing
`statsLog.saveStatsFromAPI()` only reads the members through the getters). -/
def resetVin1Stats (s : Stats) : Stats :=
  { s with _vin1PeakPower := 0, _vin1TotalEnergyWh := 0 }

/-- Embedding of `ModbeeMpptAPI::resetVin2Stats`. -/
def resetVin2Stats (s : Stats) : Stats :=
  { s with _vin2PeakPower := 0, _vin2TotalEnergyWh := 0 }

/-- Embedding of `ModbeeMpptAPI::resetVbusStats`. -/
def resetVbusStats (s : Stats) : Stats :=
  { s with _vbusPeakPower := 0, _vbusTotalEnergyWh := 0 }

/-- Embedding of `ModbeeMpptAPI::resetBatteryStats`. -/
def resetBatteryStats (s : Stats) : Stats :=
  { s with _batteryPeakPower := 0, _batteryTotalEnergyWh := 0 }

/-- Embedding of `ModbeeMpptAPI::resetSystemStats`. -/
def resetSystemStats (s : Stats) : Stats :=
  { s with _systemPeakPower := 0, _systemTotalEnergyWh := 0 }

/-- Embedding of `ModbeeMpptAPI::resetBatteryAmpStats`. -/
def resetBatteryAmpStats (s : Stats) : Stats :=
  { s with _batteryPeakChargeAmps := 0
           _batteryPeakDischargeAmps := 0
           _batteryAmpHoursCharge := 0
           _batteryAmpHoursDischarge := 0 }

/-- Embedding of `ModbeeMpptAPI::resetBatteryDischargePowerStats`. -/
def resetBatteryDischargePowerStats (s : Stats) : Stats :=
  { s with _batteryPeakDischargePower := 0, _batteryWattHoursDischarge := 0 }

/-- The statistics right after the constructor, at clock value `millis`. -/
def initialStats (millis : Nat) : Stats :=
  { _vin1PeakPower := 0, _vin1TotalEnergyWh := 0
    _vin2PeakPower := 0, _vin2TotalEnergyWh := 0
    _vbusPeakPower := 0, _vbusTotalEnergyWh := 0
    _batteryPeakPower := 0, _batteryTotalEnergyWh := 0
    _systemPeakPower := 0, _systemTotalEnergyWh := 0
    _lastStatsUpdateMs := millis
    _batteryPeakChargeAmps := 0, _batteryPeakDischargeAmps := 0
    _batteryAmpHoursCharge := 0, _batteryAmpHoursDischarge := 0
    _batteryPeakDischargePower := 0, _batteryWattHoursDischarge := 0
    sysPeakDebounce := 0 }

/-- A tick snapshot with the battery charging at 2 A. -/
def chargingReadings : AdcReadings :=
  { vbus := 20, ibus := 2, vbat := 13, ibat := 2, vsys := 13, vac1 := 20, vac2 := 0 }

/-- A tick snapshot with the battery discharging at 1.5 A and no input. -/
def dischargingReadings : AdcReadings :=
  { vbus := 0, ibus := 0, vbat := 12, ibat := -3/2, vsys := 12, vac1 := 0, vac2 := 0 }

/-- A tick snapshot with reverse input current: VBUS ADC word 12000 (12.0 V) and
IBUS ADC word 0xFE0C (-500 mA in two's complement). -/
def reverseCurrentReadings : AdcReadings :=
  { vbus := getADCVBUS 12000, ibus := getADCIBUS 65036, vbat := 12, ibat := 0, vsys := 12
    vac1 := 0, vac2 := 0 }

/-- A tick snapshot whose system power is 24 W (`vbus = 12`, `ibus = 2`, idle
battery). -/
def loadReadings : AdcReadings :=
  { vbus := 12, ibus := 2, vbat := 12, ibat := 0, vsys := 12, vac1 := 0, vac2 := 0 }

/-- A tick snapshot whose system power is 0 W (no input, idle battery). -/
def idleReadings : AdcReadings :=
  { vbus := 0, ibus := 0, vbat := 12, ibat := 0, vsys := 12, vac1 := 0, vac2 := 0 }

/-! ## Configuration store (ModbeeMpptConfig.cpp, lines 67-103, 145-186, 289-476) -/

/-- The struct `ModbeeMpptConfigData` (ModbeeMpptConfig.h); the enum members other
than `battery_type` are kept as their numeric values. -/
structure ModbeeMpptConfigData where
  battery_type : modbee_battery_type_t
  battery_cell_count : Nat
  charge_voltage : ℚ
  charge_current : ℚ
  min_system_voltage : ℚ
  termination_current : ℚ
  recharge_threshold : ℚ
  precharge_current : ℚ
  precharge_voltage_threshold : Nat
  input_voltage_limit : ℚ
  input_current_limit : ℚ
  vac_ovp_threshold : ℚ
  fast_charge_timer_enable : Bool
  fast_charge_timer : Nat
  precharge_timer_enable : Bool
  precharge_timer : Nat
  topoff_timer : Nat
  mppt_voc_percent : Nat
  mppt_voc_delay : Nat
  mppt_voc_rate : Nat
  mppt_enable : Bool
  pfm_forward_enable : Bool
  ooa_forward_enable : Bool
  battery_check_interval : Nat
  soc_check_interval : Nat
  config_apply_interval : Nat
deriving DecidableEq

/-- The members of `ModbeeMpptConfig`. -/
structure ModbeeMpptConfig where
  data : ModbeeMpptConfigData
  _initialized : Bool
deriving DecidableEq

/-- The values assigned by `ModbeeMpptConfig::setDefaults`. -/
def setDefaults : ModbeeMpptConfigData :=
  { battery_type := MODBEE_BATTERY_LIPO
    battery_cell_count := 3
    charge_voltage := 63/5
    charge_current := 1
    min_system_voltage := 10
    termination_current := 3/25
    recharge_threshold := 2/5
    precharge_current := 1/5
    precharge_voltage_threshold := 3
    input_voltage_limit := 22
    input_current_limit := 3
    vac_ovp_threshold := 26
    fast_charge_timer_enable := true
    fast_charge_timer := 2
    precharge_timer_enable := true
    precharge_timer := 0
    topoff_timer := 1
    mppt_voc_percent := 5
    mppt_voc_delay := 1
    mppt_voc_rate := 0
    mppt_enable := true
    pfm_forward_enable := false
    ooa_forward_enable := true
    battery_check_interval := 30000
    soc_check_interval := 60000
    config_apply_interval := 300000 }

/-- Embedding of `ModbeeMpptConfig::validateBatteryConfig`. -/
def validateBatteryConfig (data : ModbeeMpptConfigData) : Bool :=
  if data.battery_cell_count < 1 ∨ data.battery_cell_count > 4 then false
  else if data.charge_voltage < 3 ∨ data.charge_voltage > 94/5 then false
  else if data.charge_current < 1/10 ∨ data.charge_current > 5 then false
  else if data.min_system_voltage < 2 ∨ data.min_system_voltage > 94/5 then false
  else true

/-- Embedding of `ModbeeMpptConfig::validateChargingConfig`. -/
def validateChargingConfig (data : ModbeeMpptConfigData) : Bool :=
  if data.termination_current < 1/25 ∨ data.termination_current > 1 then false
  else if data.recharge_threshold < 1/20 ∨ data.recharge_threshold > 4/5 then false
  else if data.precharge_current < 1/25 ∨ data.precharge_current > 2 then false
  else true

/-- Embedding of `ModbeeMpptConfig::validateInputConfig`. -/
def validateInputConfig (data : ModbeeMpptConfigData) : Bool :=
  if data.input_voltage_limit < 18/5 ∨ data.input_voltage_limit > 22 then false
  else if data.input_current_limit < 1/10 ∨ data.input_current_limit > 13/4 then false
  else if data.vac_ovp_threshold < 6 ∨ data.vac_ovp_threshold > 26 then false
  else true

/-- Embedding of `ModbeeMpptConfig::validateTimerConfig`. -/
def validateTimerConfig (_data : ModbeeMpptConfigData) : Bool := true

/-- Embedding of `ModbeeMpptConfig::validateIntervalConfig`. -/
def validateIntervalConfig (data : ModbeeMpptConfigData) : Bool :=
  if data.battery_check_interval < 1000 ∨ data.battery_check_interval > 300000 then false
  else if data.soc_check_interval < 5000 ∨ data.soc_check_interval > 600000 then false
  else if data.config_apply_interval < 1000 ∨ data.config_apply_interval > 600000 then false
  else true

/-- Embedding of `ModbeeMpptConfig::validateConfig`. -/
def validateConfig (data : ModbeeMpptConfigData) : Bool :=
  validateBatteryConfig data && validateChargingConfig data && validateInputConfig data &&
    validateTimerConfig data && validateIntervalConfig data

/-- Embedding of `ModbeeMpptConfig::saveConfig`; `write_ok` stands for the
success of building the JSON document and writing the file. -/
def saveConfig (c : ModbeeMpptConfig) (write_ok : Bool) : Bool :=
  if !c._initialized then false
  else if !validateConfig c.data then false
  else write_ok

namespace ModbeeMpptConfig

/-- Embedding of `ModbeeMpptConfig::setBatteryType`. -/
def setBatteryType (c : ModbeeMpptConfig) (type : modbee_battery_type_t) (cell_count : Nat) :
    Bool × ModbeeMpptConfig :=
  if cell_count < 1 ∨ cell_count > 4 then (false, c)
  else (true, { c with data := { c.data with battery_type := type
                                             battery_cell_count := cell_count } })

/-- Embedding of `ModbeeMpptConfig::setChargeVoltage`. -/
def setChargeVoltage (c : ModbeeMpptConfig) (voltage : ℚ) : Bool × ModbeeMpptConfig :=
  if voltage < 3 ∨ voltage > 94/5 then (false, c)
  else (true, { c with data := { c.data with charge_voltage := voltage } })

/-- Embedding of `ModbeeMpptConfig::setChargeCurrent`. -/
def setChargeCurrent (c : ModbeeMpptConfig) (current : ℚ) : Bool × ModbeeMpptConfig :=
  if current < 1/10 ∨ current > 5 then (false, c)
  else (true, { c with data := { c.data with charge_current := current } })

/-- Embedding of `ModbeeMpptConfig::setTerminationCurrent`. -/
def setTerminationCurrent (c : ModbeeMpptConfig) (current : ℚ) : Bool × ModbeeMpptConfig :=
  if current < 1/25 ∨ current > 1 then (false, c)
  else (true, { c with data := { c.data with termination_current := current } })

/-- Embedding of `ModbeeMpptConfig::setRechargeThreshold`. -/
def setRechargeThreshold (c : ModbeeMpptConfig) (threshold : ℚ) : Bool × ModbeeMpptConfig :=
  if threshold < 1/20 ∨ threshold > 4/5 then (false, c)
  else (true, { c with data := { c.data with recharge_threshold := threshold } })

/-- Embedding of `ModbeeMpptConfig::setPrechargeCurrent`. -/
def setPrechargeCurrent (c : ModbeeMpptConfig) (current : ℚ) : Bool × ModbeeMpptConfig :=
  if current < 1/25 ∨ current > 2 then (false, c)
  else (true, { c with data := { c.data with precharge_current := current } })

/-- Embedding of `ModbeeMpptConfig::setInputLimits`. -/
def setInputLimits (c : ModbeeMpptConfig) (voltage_limit current_limit : ℚ) :
    Bool × ModbeeMpptConfig :=
  if voltage_limit < 18/5 ∨ voltage_limit > 22 then (false, c)
  else if current_limit < 1/10 ∨ current_limit > 13/4 then (false, c)
  else (true, { c with data := { c.data with input_voltage_limit := voltage_limit
                                             input_current_limit := current_limit } })

/-- Embedding of `ModbeeMpptConfig::setVACOVP`. -/
def setVACOVP (c : ModbeeMpptConfig) (threshold : ℚ) : Bool × ModbeeMpptConfig :=
  if threshold < 6 ∨ threshold > 26 then (false, c)
  else (true, { c with data := { c.data with vac_ovp_threshold := threshold } })

/-- Embedding of `ModbeeMpptConfig::setLoopIntervals`. -/
def setLoopIntervals (c : ModbeeMpptConfig) (battery_check soc_check : Nat) :
    Bool × ModbeeMpptConfig :=
  if battery_check < 1000 ∨ battery_check > 300000 then (false, c)
  else if soc_check < 5000 ∨ soc_check > 600000 then (false, c)
  else (true, { c with data := { c.data with battery_check_interval := battery_check
                                             soc_check_interval := soc_check } })

/-- Embedding of `ModbeeMpptConfig::updateChargeVoltage`. -/
def updateChargeVoltage (c : ModbeeMpptConfig) (voltage : ℚ) (write_ok : Bool) :
    Bool × ModbeeMpptConfig :=
  if voltage < 8 ∨ voltage > 22 then (false, c)
  else
    let c := { c with data := { c.data with charge_voltage := voltage } }
    (saveConfig c write_ok, c)

/-- Embedding of `ModbeeMpptConfig::updateChargeCurrent`. -/
def updateChargeCurrent (c : ModbeeMpptConfig) (current : ℚ) (write_ok : Bool) :
    Bool × ModbeeMpptConfig :=
  if current < 1/10 ∨ current > 5 then (false, c)
  else
    let c := { c with data := { c.data with charge_current := current } }
    (saveConfig c write_ok, c)

/-- Embedding of `ModbeeMpptConfig::updateTerminationCurrent`. -/
def updateTerminationCurrent (c : ModbeeMpptConfig) (current : ℚ) (write_ok : Bool) :
    Bool × ModbeeMpptConfig :=
  if current < 1/20 ∨ current > 1 then (false, c)
  else
    let c := { c with data := { c.data with termination_current := current } }
    (saveConfig c write_ok, c)

/-- Embedding of `ModbeeMpptConfig::updateInputCurrentLimit`. -/
def updateInputCurrentLimit (c : ModbeeMpptConfig) (current : ℚ) (write_ok : Bool) :
    Bool × ModbeeMpptConfig :=
  if current < 1/2 ∨ current > 5 then (false, c)
  else
    let c := { c with data := { c.data with input_current_limit := current } }
    (saveConfig c write_ok, c)

/-- Embedding of `ModbeeMpptConfig::updateBatteryCheckInterval`. -/
def updateBatteryCheckInterval (c : ModbeeMpptConfig) (interval : Nat) (write_ok : Bool) :
    Bool × ModbeeMpptConfig :=
  if interval < 1000 ∨ interval > 300000 then (false, c)
  else
    let c := { c with data := { c.data with battery_check_interval := interval } }
    (saveConfig c write_ok, c)

/-- Embedding of `ModbeeMpptConfig::updateSOCCheckInterval`. -/
def updateSOCCheckInterval (c : ModbeeMpptConfig) (interval : Nat) (write_ok : Bool) :
    Bool × ModbeeMpptConfig :=
  if interval < 5000 ∨ interval > 600000 then (false, c)
  else
    let c := { c with data := { c.data with soc_check_interval := interval } }
    (saveConfig c write_ok, c)

/-- Embedding of `ModbeeMpptConfig::updateConfigApplyInterval`. -/
def updateConfigApplyInterval (c : ModbeeMpptConfig) (interval : Nat) (write_ok : Bool) :
    Bool × ModbeeMpptConfig :=
  if interval < 1000 ∨ interval > 600000 then (false, c)
  else
    let c := { c with data := { c.data with config_apply_interval := interval } }
    (saveConfig c write_ok, c)

end ModbeeMpptConfig

/-- The configuration object after a successful `begin()` that found no file:
the defaults, initialised. -/
def defaultConfig : ModbeeMpptConfig :=
  { data := setDefaults, _initialized := true }

/-! ## Control loop (ModbeeMPPT.cpp, lines 102-205; ModbeeMpptAPI.cpp, lines 995-1026;
ModbeeMpptWebServer.cpp, lines 62-87, 473-479, 495-571) -/

/-- The macro `MODBEE_MIN_BATTERY_VOLTAGE` (`2.5f`). -/
def MODBEE_MIN_BATTERY_VOLTAGE : ℚ := 5/2
/-- The macro `MODBEE_MAX_BATTERY_VOLTAGE` (`18.8f`). -/
def MODBEE_MAX_BATTERY_VOLTAGE : ℚ := 94/5

/-- The members of `ModbeeMPPT` and of its `api` and `config` objects that the
loop reads or writes, the function-local `static` timestamps of `loop()` and of
`ModbeeMpptWebServer::loop()` (`lastBroadcast`), and the charger's charge-enable
bit.  LED and power-save members are left out; the web-server flags
(`_webServerEnabled`, `_webServer`, `_wifiActive`), which the button handler and
the network events write, are read through `LoopInput`. -/
structure ModbeeMPPT where
  tbv : TbvMachine
  range : BatteryRange
  stats : Stats
  config : ModbeeMpptConfig
  hw_charge_enable : Bool
  _batteryPresent : Bool
  _batteryCheckInterval : Nat
  _socCheckInterval : Nat
  _ledUpdateInterval : Nat
  _criticalSettingsUpdateInterval : Nat
  _configApplyInterval : Nat
  _lowPowerBootMode : Bool
  _lowPowerSocThreshold : ℚ
  _cachedSOC : ℚ
  lastBatteryCheck : Nat
  lastSOCCheck : Nat
  lastLEDUpdate : Nat
  lastCriticalSettingsUpdate : Nat
  lastConfigApply : Nat
  lastStatsUpdate : Nat
  lastStatsSave : Nat
  lastBroadcast : Nat
deriving DecidableEq

/-- What one pass of `loop()` reads from outside: the clock at the top of the
pass and inside the three API calls that read it themselves, the charger status
byte seen by `isCharging()`, the ADC snapshot, the battery voltage read while
`detectBatteryConnected` forces discharge, and the outcome of the I2C write of
`setCellCount` during a configuration re-apply.  For the trailing web-server
call: `webServerRuns` says that this pass reaches the broadcast test of
`ModbeeMpptWebServer::loop()` (`_webServerEnabled && _webServer` in `loop()`,
then `isWebServerEnabled()` and `_wifiActive` after the auto-start),
`broadcastMillis` and `broadcastDoneMillis` are the two `millis()` values read
there, `webSocketCount` is `_webSocket.count()` in `broadcastData()`, and
`broadcastVbat` is the battery voltage read while the `detectBatteryConnected`
call of `getSystemData()` forces discharge. -/
structure LoopInput where
  currentTime : Nat
  statsMillis : Nat
  updateMillis : Nat
  tbvMillis : Nat
  status1 : Nat
  adc : AdcReadings
  detectVbat : ℚ
  setCellCount_ok : Bool
  webServerRuns : Bool
  broadcastMillis : Nat
  broadcastDoneMillis : Nat
  webSocketCount : Nat
  broadcastVbat : ℚ
deriving DecidableEq

/-- Embedding of `ModbeeMpptAPI::detectBatteryConnected`: forced discharge is
switched on, `vbat` is read, forced discharge is switched off. -/
def detectBatteryConnected (tbv : TbvMachine) (vbat : ℚ) : Bool × TbvMachine :=
  let tbv := { tbv with hw_force_batt_discharge := true }
  let batteryVoltageRange :=
    decide (vbat > MODBEE_MIN_BATTERY_VOLTAGE ∧ vbat < MODBEE_MAX_BATTERY_VOLTAGE)
  let tbv := { tbv with hw_force_batt_discharge := false }
  (batteryVoltageRange, tbv)

/-- Lines 119-123 of `loop()`: the per-second statistics tick, then
`api.update()`. -/
def loop_statsAndUpdate (m : ModbeeMPPT) (inp : LoopInput) : ModbeeMPPT :=
  let m :=
    if ulongSub inp.currentTime m.lastStatsUpdate ≥ 1000 then
      { m with lastStatsUpdate := inp.currentTime
               stats := updateStats m.stats inp.statsMillis inp.adc }
    else m
  { m with tbv := update m.tbv inp.updateMillis inp.adc.vbat }

/-- Lines 126-138 of `loop()`: the battery-presence check. -/
def loop_batteryCheck (m : ModbeeMPPT) (inp : LoopInput) : ModbeeMPPT :=
  if ulongSub inp.currentTime m.lastBatteryCheck ≥ m._batteryCheckInterval then
    let m := { m with lastBatteryCheck := inp.currentTime }
    if !isCharging inp.status1 then
      let r := detectBatteryConnected m.tbv inp.detectVbat
      let m := { m with _batteryPresent := r.1, tbv := r.2 }
      if m._batteryPresent then { m with hw_charge_enable := true } else m
    else m
  else m

/-- Lines 144-154 of `loop()`: the SOC refresh. -/
def loop_socCheck (m : ModbeeMPPT) (inp : LoopInput) : ModbeeMPPT :=
  if ulongSub inp.currentTime m.lastSOCCheck ≥ m._socCheckInterval then
    let m := { m with lastSOCCheck := inp.currentTime }
    let m :=
      if isCharging inp.status1 then
        { m with tbv := updateTrueBatteryVoltage m.tbv inp.tbvMillis }
      else m
    { m with _cachedSOC := getActualBatterySOC m.range m.tbv inp.status1 inp.adc.vbat }
  else m

/-- Lines 157-160 of `loop()`: the LED refresh (`updateLEDs()` touches only LED
members). -/
def loop_ledUpdate (m : ModbeeMPPT) (inp : LoopInput) : ModbeeMPPT :=
  if ulongSub inp.currentTime m.lastLEDUpdate ≥ m._ledUpdateInterval then
    { m with lastLEDUpdate := inp.currentTime }
  else m

/-- Lines 163-177 of `loop()`: the low-power-boot arbitration. -/
def loop_lowPowerBoot (m : ModbeeMPPT) (inp : LoopInput) : ModbeeMPPT :=
  if m._lowPowerBootMode then
    if isCharging inp.status1 then
      if m._cachedSOC > m._lowPowerSocThreshold + 3 then { m with _lowPowerBootMode := false }
      else m
    else m
  else m

/-- Lines 181-184 of `loop()`: re-application of the critical settings
(`applyCriticalSettings()` writes ADC, watchdog, HIZ, backup, PWM, ICO and
discharge-sense settings, none of which is a member of `ModbeeMPPT`). -/
def loop_criticalSettings (m : ModbeeMPPT) (inp : LoopInput) : ModbeeMPPT :=
  if ulongSub inp.currentTime m.lastCriticalSettingsUpdate ≥ m._criticalSettingsUpdateInterval
  then { m with lastCriticalSettingsUpdate := inp.currentTime }
  else m

/-- The part of `ModbeeMpptConfig::applyToMPPT` that changes modelled state: after
the `validateConfig()` gate, `api.setBatteryType(..)` replaces the battery
range; the other calls write charger settings only. -/
def applyToMPPT (m : ModbeeMPPT) (setCellCount_ok : Bool) : ModbeeMPPT :=
  if !validateConfig m.config.data then m
  else
    { m with range := (setBatteryType m.range m.config.data.battery_type
                        m.config.data.battery_cell_count setCellCount_ok).2 }

/-- Lines 187-190 of `loop()`: re-application of the user configuration. -/
def loop_configApply (m : ModbeeMPPT) (inp : LoopInput) : ModbeeMPPT :=
  if ulongSub inp.currentTime m.lastConfigApply ≥ m._configApplyInterval then
    applyToMPPT { m with lastConfigApply := inp.currentTime } inp.setCellCount_ok
  else m

/-- Lines 193-196 of `loop()`: the statistics save (`saveStatsFromAPI()` only
reads the statistics). -/
def loop_statsSave (m : ModbeeMPPT) (inp : LoopInput) : ModbeeMPPT :=
  if ulongSub inp.currentTime m.lastStatsSave ≥ 300000 then
    { m with lastStatsSave := inp.currentTime }
  else m

/-- Lines 199-201 of `loop()` with `ModbeeMpptWebServer::loop`
(ModbeeMpptWebServer.cpp, lines 62-87), `broadcastData` (lines 473-479) and the
one call of `getSystemData` that writes (line 561): when the pass reaches the
broadcast test and more than 1000 ms have passed since `lastBroadcast`,
`broadcastData()` runs and `lastBroadcast` is set; with at least one web-socket
client `getSystemData()` calls `api.detectBatteryConnected()`, whose result only
goes into the JSON document.  The other calls of `getSystemData()` read. -/
def loop_webServer (m : ModbeeMPPT) (inp : LoopInput) : ModbeeMPPT :=
  if inp.webServerRuns then
    if ulongSub inp.broadcastMillis m.lastBroadcast > 1000 then
      let m :=
        if inp.webSocketCount > 0 then
          { m with tbv := (detectBatteryConnected m.tbv inp.broadcastVbat).2 }
        else m
      { m with lastBroadcast := inp.broadcastDoneMillis }
    else m
  else m

/-- Embedding of `ModbeeMPPT::loop`: the blocks in source order.  The trailing
`powerSave.loop()` touches none of the members kept here (its button handler
writes the web-server flags that the next pass reads through `LoopInput`). -/
def loop (m : ModbeeMPPT) (inp : LoopInput) : ModbeeMPPT :=
  let m := loop_statsAndUpdate m inp
  let m := loop_batteryCheck m inp
  let m := loop_socCheck m inp
  let m := loop_ledUpdate m inp
  let m := loop_lowPowerBoot m inp
  let m := loop_criticalSettings m inp
  let m := loop_configApply m inp
  let m := loop_statsSave m inp
  loop_webServer m inp

/-- A sequence of passes of `loop()`, oldest first. -/
def runLoop (m : ModbeeMPPT) (inps : List LoopInput) : ModbeeMPPT :=
  inps.foldl loop m

/-- A controller in low-power boot with threshold 5 %, the default LiFePO4 4S
range, a stored true-voltage reading of 10.276 V (6 %), the TBV machine waiting
for the battery voltage to settle, and a cached SOC of 3 %. -/
def lowPowerController : ModbeeMPPT :=
  { tbv := { _tbv_state := TBVS_WAIT_STABILIZE
             _tbv_timer := 900
             _tbv_original_charge_state := false
             _tbv_original_discharge_state := false
             _tbv_last_reading := 2569/250
             _tbv_reading_valid := false
             hw_force_batt_discharge := true }
    range := defaultRange
    stats := initialStats 0
    config := defaultConfig
    hw_charge_enable := true
    _batteryPresent := true
    _batteryCheckInterval := 30000
    _socCheckInterval := 60000
    _ledUpdateInterval := 1000
    _criticalSettingsUpdateInterval := 60000
    _configApplyInterval := 300000
    _lowPowerBootMode := true
    _lowPowerSocThreshold := 5
    _cachedSOC := 3
    lastBatteryCheck := 0
    lastSOCCheck := 0
    lastLEDUpdate := 0
    lastCriticalSettingsUpdate := 0
    lastConfigApply := 0
    lastStatsUpdate := 0
    lastStatsSave := 0
    lastBroadcast := 0 }

/-- A pass at clock value `t` while fast charging (status byte `0x60`) with the
battery ADC at `vbat` and the web server not running. -/
def chargingPass (t : Nat) (vbat : ℚ) : LoopInput :=
  { currentTime := t, statsMillis := t, updateMillis := t, tbvMillis := t
    status1 := 96
    adc := { vbus := 20, ibus := 1, vbat := vbat, ibat := 1/2, vsys := 12, vac1 := 20, vac2 := 0 }
    detectVbat := vbat
    setCellCount_ok := true
    webServerRuns := false
    broadcastMillis := t, broadcastDoneMillis := t
    webSocketCount := 0
    broadcastVbat := vbat }

/-- Embedding of `ModbeeMpptAPI::setSystemPeakPower` (stats restoration setter). -/
def setSystemPeakPower (s : Stats) (p : ℚ) : Stats :=
  { s with _systemPeakPower := p }

/-- A tick snapshot whose system power is `p` watts (`vbus = p`, `ibus = 1`, idle
battery, `vsys = 12`). -/
def systemPowerReadings (p : ℚ) : AdcReadings :=
  { vbus := p, ibus := 1, vbat := 12, ibat := 0, vsys := 12, vac1 := 0, vac2 := 0 }

/-- The number of transitions that separate a state from Idle along the defined
sequence. -/
def stepsToIdle : TrueBatteryVoltageState → Nat
  | TBVS_IDLE => 0
  | TBVS_DISABLE_CHARGING => 7
  | TBVS_WAIT_CHARGE_STOP => 6
  | TBVS_FORCE_DISCHARGE => 5
  | TBVS_WAIT_STABILIZE => 4
  | TBVS_READ_VOLTAGE => 3
  | TBVS_WAIT_BEFORE_RESTORE => 2
  | TBVS_RESTORE => 1

/-- What holds of the forced-discharge bit during a cycle that started with the
bit at `hw0`: untouched up to the ForceDischarge step, asserted from that step
until the Restore step, and back at `hw0` afterwards. -/
def dischargeInvariant (hw0 : Bool) (m : TbvMachine) : Prop :=
  match m._tbv_state with
  | TBVS_IDLE => m.hw_force_batt_discharge = hw0
  | TBVS_DISABLE_CHARGING => m.hw_force_batt_discharge = hw0
  | TBVS_WAIT_CHARGE_STOP =>
      m.hw_force_batt_discharge = hw0 ∧ m._tbv_original_discharge_state = hw0
  | TBVS_FORCE_DISCHARGE =>
      m.hw_force_batt_discharge = hw0 ∧ m._tbv_original_discharge_state = hw0
  | TBVS_WAIT_STABILIZE =>
      m.hw_force_batt_discharge = true ∧ m._tbv_original_discharge_state = hw0
  | TBVS_READ_VOLTAGE =>
      m.hw_force_batt_discharge = true ∧ m._tbv_original_discharge_state = hw0
  | TBVS_WAIT_BEFORE_RESTORE =>
      m.hw_force_batt_discharge = true ∧ m._tbv_original_discharge_state = hw0
  | TBVS_RESTORE =>
      m.hw_force_batt_discharge = true ∧ m._tbv_original_discharge_state = hw0

/-- The call that certainly ends a wait of the machine: 400 ms (modulo `2^32`)
after its timer. -/
def advancingCall (m : TbvMachine) : UpdateCall :=
  { now := (m._tbv_timer + 400) % 4294967296, adcvbat := 0 }

/-- The calls that bring the machine to Idle from a state `n` transitions away:
each one is made 400 ms after the timer left by the previous one. -/
def completionCalls : Nat → TbvMachine → List UpdateCall
  | 0, _ => []
  | n + 1, m =>
      advancingCall m ::
        completionCalls n (update m (advancingCall m).now (advancingCall m).adcvbat)

/-- A machine at the start of a cycle with the timer just before the counter
wraps. -/
def wrappingMachine : TbvMachine :=
  { _tbv_state := TBVS_WAIT_CHARGE_STOP
    _tbv_timer := 4294967290
    _tbv_original_charge_state := false
    _tbv_original_discharge_state := false
    _tbv_last_reading := 64/5
    _tbv_reading_valid := false
    hw_force_batt_discharge := false }

/-- What holds of the stored reading during a cycle requested while the stored
reading was `prev`: up to the ReadVoltage step the reading is still `prev` and
marked invalid, afterwards the reading is marked valid. -/
def readingInvariant (prev : ℚ) (m : TbvMachine) : Prop :=
  match m._tbv_state with
  | TBVS_DISABLE_CHARGING => m._tbv_last_reading = prev ∧ m._tbv_reading_valid = false
  | TBVS_WAIT_CHARGE_STOP => m._tbv_last_reading = prev ∧ m._tbv_reading_valid = false
  | TBVS_FORCE_DISCHARGE => m._tbv_last_reading = prev ∧ m._tbv_reading_valid = false
  | TBVS_WAIT_STABILIZE => m._tbv_last_reading = prev ∧ m._tbv_reading_valid = false
  | TBVS_READ_VOLTAGE => m._tbv_last_reading = prev ∧ m._tbv_reading_valid = false
  | TBVS_WAIT_BEFORE_RESTORE => m._tbv_reading_valid = true
  | TBVS_RESTORE => m._tbv_reading_valid = true
  | TBVS_IDLE => m._tbv_reading_valid = true

/-- The first five of the prompt calls: they take a fresh cycle through its
ReadVoltage step (battery ADC at 12.8 V) into WaitBeforeRestore. -/
def firstFiveCalls : List UpdateCall :=
  [⟨0, 13⟩, ⟨50, 13⟩, ⟨51, 13⟩, ⟨451, 13⟩, ⟨452, 64/5⟩]

/-- A controller that is charging, with charge enable set, at the start of a TBV
cycle. -/
def chargingController : ModbeeMPPT :=
  { lowPowerController with
    tbv := updateTrueBatteryVoltage (initialTbv false) 0
    hw_charge_enable := true }

/-- A pass at clock value `t` while the charger reports "not charging" (status
byte `0x00`) with the battery ADC at `vbat` and the web server not running. -/
def notChargingPass (t : Nat) (vbat : ℚ) : LoopInput :=
  { currentTime := t, statsMillis := t, updateMillis := t, tbvMillis := t
    status1 := 0
    adc := { vbus := 0, ibus := 0, vbat := vbat, ibat := -1/2, vsys := 12, vac1 := 0, vac2 := 0 }
    detectVbat := vbat
    setCellCount_ok := true
    webServerRuns := false
    broadcastMillis := t, broadcastDoneMillis := t
    webSocketCount := 0
    broadcastVbat := vbat }

/-- The record `ModbeeMpptStats` that `loadStats` fills from the statistics
file. -/
structure ModbeeMpptStats where
  vin1TotalEnergyWh : ℚ
  vin1PeakPower : ℚ
  vin2TotalEnergyWh : ℚ
  vin2PeakPower : ℚ
  vbusTotalEnergyWh : ℚ
  vbusPeakPower : ℚ
  batteryTotalEnergyWh : ℚ
  batteryPeakPower : ℚ
  batteryPeakChargeAmps : ℚ
  batteryPeakDischargeAmps : ℚ
  batteryAmpHoursCharge : ℚ
  batteryAmpHoursDischarge : ℚ
  batteryPeakDischargePower : ℚ
  batteryWattHoursDischarge : ℚ
  systemTotalEnergyWh : ℚ
  systemPeakPower : ℚ
deriving DecidableEq

/-- Embedding of `ModbeeMpptLog::loadStatsToAPI`; `file` is what `loadStats`
produced (`none` when it returned false).  Each API setter is a plain member
assignment. -/
def loadStatsToAPI (s : Stats) (file : Option ModbeeMpptStats) : Stats :=
  match file with
  | none => s
  | some f =>
    { s with _vin1TotalEnergyWh := f.vin1TotalEnergyWh
             _vin1PeakPower := f.vin1PeakPower
             _vin2TotalEnergyWh := f.vin2TotalEnergyWh
             _vin2PeakPower := f.vin2PeakPower
             _vbusTotalEnergyWh := f.vbusTotalEnergyWh
             _vbusPeakPower := f.vbusPeakPower
             _batteryTotalEnergyWh := f.batteryTotalEnergyWh
             _batteryPeakPower := f.batteryPeakPower
             _batteryAmpHoursCharge := f.batteryAmpHoursCharge
             _batteryAmpHoursDischarge := f.batteryAmpHoursDischarge
             _batteryPeakChargeAmps := f.batteryPeakChargeAmps
             _batteryPeakDischargeAmps := f.batteryPeakDischargeAmps
             _batteryWattHoursDischarge := f.batteryWattHoursDischarge
             _batteryPeakDischargePower := f.batteryPeakDischargePower
             _systemTotalEnergyWh := f.systemTotalEnergyWh
             _systemPeakPower := f.systemPeakPower }

/-- The state right after the constructors `ModbeeMPPT::ModbeeMPPT`,
`ModbeeMpptAPI::ModbeeMpptAPI` and `ModbeeMpptConfig::ModbeeMpptConfig`, with the
charger bits as found, the clock at `millis` and the `static` timestamps of
`loop()` at their initial 0. -/
def constructed (hw_force hw_charge : Bool) (millis : Nat) : ModbeeMPPT :=
  { tbv := initialTbv hw_force
    range := defaultRange
    stats := initialStats millis
    config := { data := setDefaults, _initialized := false }
    hw_charge_enable := hw_charge
    _batteryPresent := false
    _batteryCheckInterval := 30000
    _socCheckInterval := 60000
    _ledUpdateInterval := 1000
    _criticalSettingsUpdateInterval := 60000
    _configApplyInterval := 300000
    _lowPowerBootMode := false
    _lowPowerSocThreshold := 5
    _cachedSOC := 0
    lastBatteryCheck := 0
    lastSOCCheck := 0
    lastLEDUpdate := 0
    lastCriticalSettingsUpdate := 0
    lastConfigApply := 0
    lastStatsUpdate := 0
    lastStatsSave := 0
    lastBroadcast := 0 }

/-- What one call of `ModbeeMPPT::begin` reads from outside: the outcome of
`_bq25798.begin()`, the `config` object as `config.begin()` leaves it (defaults or
the loaded file), the outcome of the I2C write of `setCellCount`, the battery
voltage read while `detectBatteryConnected` forces discharge, the charger status
byte, the battery ADC value read by `getActualBatterySOC`, the clock inside
`updateTrueBatteryVoltage`, and the statistics file. -/
structure BeginInput where
  bq_begin_ok : Bool
  configAfterBegin : ModbeeMpptConfig
  setCellCount_ok : Bool
  detectVbat : ℚ
  status1 : Nat
  adcvbat : ℚ
  tbvMillis : Nat
  statsFile : Option ModbeeMpptStats

/-- Embedding of `ModbeeMPPT::begin`, statements in source order; the result is
the return value and the state after the call.  Radio, LED and power-save calls
touch none of the members kept here. -/
def begin (m : ModbeeMPPT) (inp : BeginInput) : Bool × ModbeeMPPT :=
  if !inp.bq_begin_ok then (false, m)
  else
    let m := { m with config := inp.configAfterBegin }
    let m := { m with _batteryCheckInterval := m.config.data.battery_check_interval
                      _socCheckInterval := m.config.data.soc_check_interval
                      _ledUpdateInterval := 1000 }
    let m := applyToMPPT m inp.setCellCount_ok
    let r := detectBatteryConnected m.tbv inp.detectVbat
    let m := { m with _batteryPresent := r.1, tbv := r.2 }
    let bootSoc := getActualBatterySOC m.range m.tbv inp.status1 inp.adcvbat
    let m := { m with _cachedSOC := bootSoc }
    let flatOrMissing := (!m._batteryPresent) || decide (bootSoc < m._lowPowerSocThreshold)
    let m :=
      if flatOrMissing then { m with hw_charge_enable := true, _lowPowerBootMode := true }
      else { m with hw_charge_enable := m._batteryPresent }
    let m := { m with tbv := updateTrueBatteryVoltage m.tbv inp.tbvMillis }
    let m := { m with stats := loadStatsToAPI m.stats inp.statsFile }
    (true, m)

/-- A valid configuration with the three scheduler intervals changed from their
defaults: battery check every 10 s, SOC refresh every 20 s, configuration
re-apply every 60 s. -/
def fastIntervalsConfig : ModbeeMpptConfig :=
  { data := { setDefaults with battery_check_interval := 10000
                               soc_check_interval := 20000
                               config_apply_interval := 60000 }
    _initialized := true }

/-- A boot with `fastIntervalsConfig` loaded, a 13 V battery, the charger not
charging and no statistics file. -/
def fastIntervalsBoot : BeginInput :=
  { bq_begin_ok := true
    configAfterBegin := fastIntervalsConfig
    setCellCount_ok := true
    detectVbat := 13
    status1 := 0
    adcvbat := 13
    tbvMillis := 0
    statsFile := none }

/-! ## Clamping setters (ModbeeMpptAPI.cpp, lines 656-722; BQ25798.cpp, lines 88-420)

A driver setter is embedded up to its register write: the result is the return
value and the field value handed to the write routine, `none` when the range
test returns false before any write.  `write_ok` is the outcome of the I2C
write.  The integer casts truncate, which is the floor for the non-negative
quotients that pass the range test. -/

namespace BQ25798

/-- Embedding of `BQ25798::setMinSystemV` (range test `voltage < 5/2 || voltage > 16`,
write through `writeRegisterBits`). -/
def setMinSystemV (voltage : ℚ) (write_ok : Bool) : Bool × Option Nat :=
  if voltage < 5/2 ∨ voltage > 16 then (false, none)
  else
    let reg_value := Int.toNat ⌊(voltage - 5/2) / (1/4)⌋ % 256
    let reg_value := if reg_value > 63 then 63 else reg_value
    (write_ok, some reg_value)

/-- Embedding of `BQ25798::setChargeLimitV` (range test `voltage < 3 || voltage > 94/5`,
write through `writeRegisterBits16`). -/
def setChargeLimitV (voltage : ℚ) (write_ok : Bool) : Bool × Option Nat :=
  if voltage < 3 ∨ voltage > 94/5 then (false, none)
  else
    let reg_value := Int.toNat ⌊voltage / (1/100)⌋ % 65536
    let reg_value := if reg_value > 2047 then 2047 else reg_value
    (write_ok, some reg_value)

/-- Embedding of `BQ25798::setChargeLimitA` (range test `current < 1/20 || current > 5`,
write through `writeRegisterBits16`). -/
def setChargeLimitA (current : ℚ) (write_ok : Bool) : Bool × Option Nat :=
  if current < 1/20 ∨ current > 5 then (false, none)
  else
    let reg_value := Int.toNat ⌊current / (1/100)⌋ % 65536
    let reg_value := if reg_value > 511 then 511 else reg_value
    (write_ok, some reg_value)

/-- Embedding of `BQ25798::setInputLimitV` (range test `voltage < 18/5 || voltage > 22`,
write through `writeRegister`). -/
def setInputLimitV (voltage : ℚ) (write_ok : Bool) : Bool × Option Nat :=
  if voltage < 18/5 ∨ voltage > 22 then (false, none)
  else
    let reg_value := Int.toNat ⌊voltage / (1/10)⌋ % 256
    (write_ok, some reg_value)

/-- Embedding of `BQ25798::setInputLimitA` (range test `current < 1/10 || current > 33/10`,
write through `writeRegisterBits16`). -/
def setInputLimitA (current : ℚ) (write_ok : Bool) : Bool × Option Nat :=
  if current < 1/10 ∨ current > 33/10 then (false, none)
  else
    let reg_value := Int.toNat ⌊current / (1/100)⌋ % 65536
    let reg_value := if reg_value > 511 then 511 else reg_value
    (write_ok, some reg_value)

/-- Embedding of `BQ25798::setPrechargeLimitA` (range test `current < 1/25 || current > 2`,
write through `writeRegisterBits`). -/
def setPrechargeLimitA (current : ℚ) (write_ok : Bool) : Bool × Option Nat :=
  if current < 1/25 ∨ current > 2 then (false, none)
  else
    let reg_value := Int.toNat ⌊current / (1/25)⌋ % 256
    let reg_value := if reg_value > 63 then 63 else reg_value
    (write_ok, some reg_value)

/-- Embedding of `BQ25798::setTerminationA` (range test `current < 1/25 || current > 1`,
write through `writeRegisterBits`). -/
def setTerminationA (current : ℚ) (write_ok : Bool) : Bool × Option Nat :=
  if current < 1/25 ∨ current > 1 then (false, none)
  else
    let reg_value := Int.toNat ⌊current / (1/25)⌋ % 256
    let reg_value := if reg_value > 31 then 31 else reg_value
    (write_ok, some reg_value)

/-- Embedding of `BQ25798::setRechargeThreshOffsetV` (range test `voltage < 1/20 || voltage > 4/5`,
write through `writeRegisterBits`). -/
def setRechargeThreshOffsetV (voltage : ℚ) (write_ok : Bool) : Bool × Option Nat :=
  if voltage < 1/20 ∨ voltage > 4/5 then (false, none)
  else
    let reg_value := Int.toNat ⌊(voltage - 1/20) / (1/20)⌋ % 256
    let reg_value := if reg_value > 15 then 15 else reg_value
    (write_ok, some reg_value)

end BQ25798

/-- The macro `MODBEE_MIN_CHARGE_VOLTAGE` (`3.0f`). -/
def MODBEE_MIN_CHARGE_VOLTAGE : ℚ := 3

/-- The macro `MODBEE_MAX_CHARGE_VOLTAGE` (`18.8f`). -/
def MODBEE_MAX_CHARGE_VOLTAGE : ℚ := 94/5

/-- The macro `MODBEE_MIN_CHARGE_CURRENT` (`0.0f`). -/
def MODBEE_MIN_CHARGE_CURRENT : ℚ := 0

/-- The macro `MODBEE_MAX_CHARGE_CURRENT` (`5.0f`). -/
def MODBEE_MAX_CHARGE_CURRENT : ℚ := 5

/-- The macro `MODBEE_MIN_INPUT_VOLTAGE` (`3.6f`). -/
def MODBEE_MIN_INPUT_VOLTAGE : ℚ := 18/5

/-- The macro `MODBEE_MAX_INPUT_VOLTAGE` (`22.0f`). -/
def MODBEE_MAX_INPUT_VOLTAGE : ℚ := 22

/-- Embedding of `ModbeeMpptAPI::setChargeVoltage`. -/
def setChargeVoltage (voltage : ℚ) (write_ok : Bool) : Bool × Option Nat :=
  let clamped := clampValue voltage MODBEE_MIN_CHARGE_VOLTAGE MODBEE_MAX_CHARGE_VOLTAGE
  BQ25798.setChargeLimitV clamped write_ok

/-- Embedding of `ModbeeMpptAPI::setChargeCurrent`. -/
def setChargeCurrent (current : ℚ) (write_ok : Bool) : Bool × Option Nat :=
  let clamped := clampValue current MODBEE_MIN_CHARGE_CURRENT MODBEE_MAX_CHARGE_CURRENT
  BQ25798.setChargeLimitA clamped write_ok

/-- Embedding of `ModbeeMpptAPI::setTerminationCurrent`. -/
def setTerminationCurrent (current : ℚ) (write_ok : Bool) : Bool × Option Nat :=
  let clamped := clampValue current (1/25) 1
  BQ25798.setTerminationA clamped write_ok

/-- Embedding of `ModbeeMpptAPI::setRechargeThreshold`. -/
def setRechargeThreshold (offset : ℚ) (write_ok : Bool) : Bool × Option Nat :=
  let clamped := clampValue offset (1/20) (4/5)
  BQ25798.setRechargeThreshOffsetV clamped write_ok

/-- Embedding of `ModbeeMpptAPI::setPrechargeCurrent`. -/
def setPrechargeCurrent (current : ℚ) (write_ok : Bool) : Bool × Option Nat :=
  let clamped := clampValue current (1/25) 2
  BQ25798.setPrechargeLimitA clamped write_ok

/-- Embedding of `ModbeeMpptAPI::setInputCurrentLimit`. -/
def setInputCurrentLimit (current : ℚ) (write_ok : Bool) : Bool × Option Nat :=
  let clamped := clampValue current (1/10) (33/10)
  BQ25798.setInputLimitA clamped write_ok

/-- Embedding of `ModbeeMpptAPI::setMinSystemVoltage`. -/
def setMinSystemVoltage (voltage : ℚ) (write_ok : Bool) : Bool × Option Nat :=
  let clamped := clampValue voltage (5/2) 16
  BQ25798.setMinSystemV clamped write_ok

/-- Embedding of `ModbeeMpptAPI::setInputVoltageLimit`. -/
def setInputVoltageLimit (voltage : ℚ) (write_ok : Bool) : Bool × Option Nat :=
  let clamped := clampValue voltage MODBEE_MIN_INPUT_VOLTAGE MODBEE_MAX_INPUT_VOLTAGE
  BQ25798.setInputLimitV clamped write_ok

/-! ## Theorems -/

/-- Normal form of `getSystemPower` on the early-return path. -/
theorem getSystemPower_of_invalid (adc : AdcReadings) (hv : adc.vsys ≤ 1/10) :
    getSystemPower adc = { voltage := adc.vsys, current := 0, power := 0, valid := false } := by
  have hnv : ¬ adc.vsys > 1/10 := not_lt.mpr hv
  simp only [getSystemPower, hnv, decide_False, Bool.not_false, if_true]

/-- Normal form of `getSystemPower` when the computed current is clamped. -/
theorem getSystemPower_of_negative (adc : AdcReadings) (hv : adc.vsys > 1/10)
    (hc : (adc.ibus * adc.vbus - adc.ibat * adc.vbat) / adc.vsys < 0) :
    getSystemPower adc = { voltage := adc.vsys, current := 0, power := 0, valid := true } := by
  simp only [getSystemPower, hv, decide_True, Bool.not_true, Bool.false_eq_true, if_false, hc,
    if_true]

/-- Normal form of `getSystemPower` when the computed current is kept. -/
theorem getSystemPower_of_nonneg (adc : AdcReadings) (hv : adc.vsys > 1/10)
    (hc : ¬ (adc.ibus * adc.vbus - adc.ibat * adc.vbat) / adc.vsys < 0) :
    getSystemPower adc =
      { voltage := adc.vsys
        current := (adc.ibus * adc.vbus - adc.ibat * adc.vbat) / adc.vsys
        power := (adc.ibus * adc.vbus - adc.ibat * adc.vbat) / adc.vsys * adc.vsys
        valid := true } := by
  simp only [getSystemPower, hv, decide_True, Bool.not_true, Bool.false_eq_true, if_false, hc]

/-- C1. `getSystemPower` power balance: with `vsys > 0.1` the sample is valid,
its voltage is `vsys`, and when `available / vsys >= 0` (where
`available = ibus*vbus - ibat*vbat`) the current is `available / vsys` and the
power is `current * vsys = available`; the scenario `vbus=20, ibus=1, vbat=13,
ibat=0.5, vsys=12` gives current `1.125` and power `13.5`; with `vsys <= 0.1`
the sample is invalid with current and power `0`. -/
theorem getSystemPower_power_balance (adc : AdcReadings) :
    (adc.vsys > 1/10 →
      (getSystemPower adc).valid = true ∧ (getSystemPower adc).voltage = adc.vsys ∧
      ((adc.ibus * adc.vbus - adc.ibat * adc.vbat) / adc.vsys ≥ 0 →
        (getSystemPower adc).current = (adc.ibus * adc.vbus - adc.ibat * adc.vbat) / adc.vsys ∧
        (getSystemPower adc).power = (getSystemPower adc).current * adc.vsys ∧
        (getSystemPower adc).power = adc.ibus * adc.vbus - adc.ibat * adc.vbat)) ∧
    (adc.vsys ≤ 1/10 →
      (getSystemPower adc).valid = false ∧ (getSystemPower adc).current = 0 ∧
      (getSystemPower adc).power = 0) ∧
    (adc.vbus = 20 → adc.ibus = 1 → adc.vbat = 13 → adc.ibat = 1/2 → adc.vsys = 12 →
      (getSystemPower adc).current = 9/8 ∧ (getSystemPower adc).power = 27/2) := by
  refine ⟨fun hv => ?_, fun hv => ?_, fun h1 h2 h3 h4 h5 => ?_⟩
  · have hpos : adc.vsys ≠ 0 := by
      intro h0; rw [h0] at hv; norm_num at hv
    refine ⟨?_, ?_, fun hc => ?_⟩
    · by_cases hc : (adc.ibus * adc.vbus - adc.ibat * adc.vbat) / adc.vsys < 0
      · rw [getSystemPower_of_negative adc hv hc]
      · rw [getSystemPower_of_nonneg adc hv hc]
    · by_cases hc : (adc.ibus * adc.vbus - adc.ibat * adc.vbat) / adc.vsys < 0
      · rw [getSystemPower_of_negative adc hv hc]
      · rw [getSystemPower_of_nonneg adc hv hc]
    · rw [getSystemPower_of_nonneg adc hv (not_lt.mpr hc)]
      exact ⟨rfl, rfl, div_mul_cancel₀ _ hpos⟩
  · rw [getSystemPower_of_invalid adc hv]
    exact ⟨rfl, rfl, rfl⟩
  · have hv : adc.vsys > 1/10 := by rw [h5]; norm_num
    have hc : ¬ (adc.ibus * adc.vbus - adc.ibat * adc.vbat) / adc.vsys < 0 := by
      rw [h1, h2, h3, h4, h5]; norm_num
    rw [getSystemPower_of_nonneg adc hv hc, h1, h2, h3, h4, h5]
    constructor <;> norm_num

/-- Witness of C1: the scenario snapshot (valid branch) and a snapshot with
`vsys = 0` (invalid branch). -/
theorem getSystemPower_power_balance_witness :
    ((getSystemPower scenarioReadings).valid = true ∧
      (getSystemPower scenarioReadings).voltage = scenarioReadings.vsys ∧
      (getSystemPower scenarioReadings).current =
        (scenarioReadings.ibus * scenarioReadings.vbus -
          scenarioReadings.ibat * scenarioReadings.vbat) / scenarioReadings.vsys ∧
      (getSystemPower scenarioReadings).power = 27/2) ∧
    (getSystemPower { scenarioReadings with vsys := 0 }).valid = false :=
  have hv : scenarioReadings.vsys > 1/10 := by norm_num [scenarioReadings]
  have hc : (scenarioReadings.ibus * scenarioReadings.vbus -
      scenarioReadings.ibat * scenarioReadings.vbat) / scenarioReadings.vsys ≥ 0 := by
    norm_num [scenarioReadings]
  have h := (getSystemPower_power_balance scenarioReadings).1 hv
  ⟨⟨h.1, h.2.1, (h.2.2 hc).1,
      ((getSystemPower_power_balance scenarioReadings).2.2 rfl rfl rfl rfl rfl).2⟩,
    ((getSystemPower_power_balance { scenarioReadings with vsys := 0 }).2.1
      (by norm_num)).1⟩

/-- C2. System current is never negative: `getSystemPower` always returns
`current >= 0` and `power >= 0`, and whenever the power-balance current
`(ibus*vbus - ibat*vbat) / vsys` is negative both are exactly `0`. -/
theorem getSystemPower_never_negative (adc : AdcReadings) :
    0 ≤ (getSystemPower adc).current ∧ 0 ≤ (getSystemPower adc).power ∧
    ((adc.ibus * adc.vbus - adc.ibat * adc.vbat) / adc.vsys < 0 →
      (getSystemPower adc).current = 0 ∧ (getSystemPower adc).power = 0) := by
  by_cases hv : adc.vsys > 1/10
  · by_cases hc : (adc.ibus * adc.vbus - adc.ibat * adc.vbat) / adc.vsys < 0
    · rw [getSystemPower_of_negative adc hv hc]
      exact ⟨le_refl _, le_refl _, fun _ => ⟨rfl, rfl⟩⟩
    · rw [getSystemPower_of_nonneg adc hv hc]
      have hq : 0 ≤ (adc.ibus * adc.vbus - adc.ibat * adc.vbat) / adc.vsys := not_lt.mp hc
      have hs : (0 : ℚ) ≤ adc.vsys := by
        have : (0 : ℚ) < 1/10 := by norm_num
        exact le_of_lt (lt_trans this hv)
      exact ⟨hq, mul_nonneg hq hs, fun h => absurd h hc⟩
  · rw [getSystemPower_of_invalid adc (not_lt.mp hv)]
    exact ⟨le_refl _, le_refl _, fun _ => ⟨rfl, rfl⟩⟩

/-- Witness of C2: with no input power and a charging battery the balance is
negative and the sample is clamped. -/
theorem getSystemPower_never_negative_witness :
    (deficitReadings.ibus * deficitReadings.vbus - deficitReadings.ibat * deficitReadings.vbat)
        / deficitReadings.vsys < 0 ∧
    (getSystemPower deficitReadings).current = 0 ∧ (getSystemPower deficitReadings).power = 0 :=
  have hc : (deficitReadings.ibus * deficitReadings.vbus -
      deficitReadings.ibat * deficitReadings.vbat) / deficitReadings.vsys < 0 := by
    norm_num [deficitReadings]
  ⟨hc, (getSystemPower_never_negative deficitReadings).2.2 hc⟩

/-- Normal form of the VAC sample on the early-return path. -/
theorem vacPower_of_invalid (v_ac : ℚ) (adc : AdcReadings) (hv : v_ac ≤ 1/10) :
    vacPower v_ac adc = { voltage := v_ac, current := 0, power := 0, valid := false } := by
  have hnv : ¬ v_ac > 1/10 := not_lt.mpr hv
  simp only [vacPower, hnv, decide_False, Bool.not_false, if_true]

/-- Normal form of the VAC sample when the current is inferred. -/
theorem vacPower_of_inferred (v_ac : ℚ) (adc : AdcReadings) (hv : v_ac > 1/10)
    (hb : adc.vbus > 1/10 ∧ adc.ibus > 1/1000) :
    vacPower v_ac adc =
      { voltage := v_ac
        current := adc.ibus * (v_ac / adc.vbus)
        power := v_ac * (adc.ibus * (v_ac / adc.vbus))
        valid := true } := by
  simp only [vacPower, hv, decide_True, Bool.not_true, Bool.false_eq_true, if_false, hb,
    and_self, if_true]

/-- Normal form of the VAC sample when the current is not inferred. -/
theorem vacPower_of_not_inferred (v_ac : ℚ) (adc : AdcReadings) (hv : v_ac > 1/10)
    (hb : ¬ (adc.vbus > 1/10 ∧ adc.ibus > 1/1000)) :
    vacPower v_ac adc = { voltage := v_ac, current := 0, power := 0, valid := true } := by
  simp only [vacPower, hv, decide_True, Bool.not_true, Bool.false_eq_true, if_false, hb]

/-- The three statements of the VAC inference for one channel. -/
theorem vacPower_inference (v_ac : ℚ) (adc : AdcReadings) (hv : v_ac > 1/10) :
    (adc.vbus > 1/10 ∧ adc.ibus > 1/1000 →
      (vacPower v_ac adc).current = adc.ibus * (v_ac / adc.vbus) ∧
      (vacPower v_ac adc).power = v_ac * (vacPower v_ac adc).current) ∧
    (¬ (adc.vbus > 1/10 ∧ adc.ibus > 1/1000) →
      (vacPower v_ac adc).current = 0 ∧ (vacPower v_ac adc).power = 0) ∧
    (v_ac = adc.vbus → adc.ibus > 1/1000 →
      (vacPower v_ac adc).current = adc.ibus ∧
      (vacPower v_ac adc).power = adc.vbus * adc.ibus) := by
  refine ⟨fun hb => ?_, fun hb => ?_, fun he hi => ?_⟩
  · rw [vacPower_of_inferred v_ac adc hv hb]
    exact ⟨rfl, rfl⟩
  · rw [vacPower_of_not_inferred v_ac adc hv hb]
    exact ⟨rfl, rfl⟩
  · have hvb : adc.vbus > 1/10 := he ▸ hv
    have hne : adc.vbus ≠ 0 := by
      intro h0; rw [h0] at hvb; norm_num at hvb
    rw [vacPower_of_inferred v_ac adc hv ⟨hvb, hi⟩, he]
    simp only [div_self hne, mul_one]
    exact ⟨trivial, trivial⟩

/-- C3. VAC current inference, for `getVAC1Power` and `getVAC2Power` alike: with
`v_ac > 0.1`, if `vbus > 0.1` and `ibus > 0.001` then
`current = ibus * (v_ac / vbus)` and `power = v_ac * current`, otherwise both are
`0`; when `v_ac = vbus` the inferred current is `ibus` and the power is
`vbus * ibus` (VAC1 = 20, VBUS = 20, IBUS = 2 gives current 2 and power 40). -/
theorem vac_current_inference (adc : AdcReadings) :
    (adc.vac1 > 1/10 →
      (adc.vbus > 1/10 ∧ adc.ibus > 1/1000 →
        (getVAC1Power adc).current = adc.ibus * (adc.vac1 / adc.vbus) ∧
        (getVAC1Power adc).power = adc.vac1 * (getVAC1Power adc).current) ∧
      (¬ (adc.vbus > 1/10 ∧ adc.ibus > 1/1000) →
        (getVAC1Power adc).current = 0 ∧ (getVAC1Power adc).power = 0) ∧
      (adc.vac1 = adc.vbus → adc.ibus > 1/1000 →
        (getVAC1Power adc).current = adc.ibus ∧
        (getVAC1Power adc).power = adc.vbus * adc.ibus)) ∧
    (adc.vac2 > 1/10 →
      (adc.vbus > 1/10 ∧ adc.ibus > 1/1000 →
        (getVAC2Power adc).current = adc.ibus * (adc.vac2 / adc.vbus) ∧
        (getVAC2Power adc).power = adc.vac2 * (getVAC2Power adc).current) ∧
      (¬ (adc.vbus > 1/10 ∧ adc.ibus > 1/1000) →
        (getVAC2Power adc).current = 0 ∧ (getVAC2Power adc).power = 0) ∧
      (adc.vac2 = adc.vbus → adc.ibus > 1/1000 →
        (getVAC2Power adc).current = adc.ibus ∧
        (getVAC2Power adc).power = adc.vbus * adc.ibus)) ∧
    (adc.vac1 = 20 → adc.vbus = 20 → adc.ibus = 2 →
      (getVAC1Power adc).current = 2 ∧ (getVAC1Power adc).power = 40) := by
  refine ⟨fun hv => vacPower_inference adc.vac1 adc hv,
    fun hv => vacPower_inference adc.vac2 adc hv, fun h1 h2 h3 => ?_⟩
  have hv : adc.vac1 > 1/10 := by rw [h1]; norm_num
  have hi : adc.ibus > 1/1000 := by rw [h3]; norm_num
  have h := (vacPower_inference adc.vac1 adc hv).2.2 (h1.trans h2.symm) hi
  have hc : (getVAC1Power adc).current = adc.ibus := h.1
  have hp : (getVAC1Power adc).power = adc.vbus * adc.ibus := h.2
  rw [hc, hp, h2, h3]
  constructor <;> norm_num

/-- Witness of C3 at the scenario VAC1 = VAC2 = VBUS = 20 V, IBUS = 2 A. -/
theorem vac_current_inference_witness :
    ((getVAC1Power vacScenarioReadings).current = 2 ∧
      (getVAC1Power vacScenarioReadings).power = 40) ∧
    ((getVAC2Power vacScenarioReadings).current = vacScenarioReadings.ibus ∧
      (getVAC2Power vacScenarioReadings).power =
        vacScenarioReadings.vbus * vacScenarioReadings.ibus) ∧
    ((getVAC1Power { vacScenarioReadings with ibus := 0 }).current = 0 ∧
      (getVAC1Power { vacScenarioReadings with ibus := 0 }).power = 0) :=
  ⟨(vac_current_inference vacScenarioReadings).2.2 rfl rfl rfl,
    ((vac_current_inference vacScenarioReadings).2.1
      (by norm_num [vacScenarioReadings])).2.2 rfl (by norm_num [vacScenarioReadings]),
    ((vac_current_inference { vacScenarioReadings with ibus := 0 }).1
      (by norm_num [vacScenarioReadings])).2.1 (by norm_num [vacScenarioReadings])⟩

/-- The value returned by `clampValue` lies between the bounds when they are
ordered, and is `max lo (min value hi)`. -/
theorem clampValue_eq_max_min (value lo hi : ℚ) (h : lo ≤ hi) :
    clampValue value lo hi = max lo (min value hi) := by
  unfold clampValue
  split_ifs with h1 h2
  · have : min value hi ≤ lo := le_trans (min_le_left _ _) (le_of_lt h1)
    exact (max_eq_left this).symm
  · have hm : min value hi = hi := min_eq_right (le_of_lt h2)
    rw [hm]; exact (max_eq_right h).symm
  · have hm : min value hi = value := min_eq_left (not_lt.mp h2)
    rw [hm]; exact (max_eq_right (not_lt.mp h1)).symm

/-- Normal form of `getEfficiency` behind the input-power guard. -/
theorem getEfficiency_of_input (adc : AdcReadings) (hi : ¬ adc.vbus * adc.ibus ≤ 1/10) :
    getEfficiency adc =
      clampValue (((getSystemPower adc).power + max (adc.vbat * adc.ibat) 0)
        / (adc.vbus * adc.ibus) * 100) 0 100 := by
  simp only [getEfficiency, getVbusPower, getBatteryPower, hi, if_false]
  by_cases hb : adc.vbat * adc.ibat > 0
  · simp only [hb, if_true, max_eq_left (le_of_lt hb)]
  · simp only [hb, if_false, max_eq_right (not_lt.mp hb), add_zero]

/-- C4. `getEfficiency` is guarded and clamped: the result lies in `[0, 100]`; it
is `0` whenever `input_power = vbus*ibus <= 0.1`; otherwise it is
`100 * (system_power + max(battery_power, 0)) / input_power` clamped to
`[0, 100]`; and no division executed by the call has a divisor `<= 0.1`. -/
theorem getEfficiency_guarded_clamped (adc : AdcReadings) :
    (0 ≤ getEfficiency adc ∧ getEfficiency adc ≤ 100) ∧
    (adc.vbus * adc.ibus ≤ 1/10 → getEfficiency adc = 0) ∧
    (adc.vbus * adc.ibus > 1/10 →
      getEfficiency adc =
        max 0 (min (100 * ((getSystemPower adc).power + max (adc.vbat * adc.ibat) 0)
          / (adc.vbus * adc.ibus)) 100)) ∧
    (∀ d ∈ getEfficiency_divisors adc, d > 1/10) := by
  have h0 : adc.vbus * adc.ibus ≤ 1/10 → getEfficiency adc = 0 := by
    intro hi
    simp only [getEfficiency, getVbusPower, hi, if_true]
  have h1 : adc.vbus * adc.ibus > 1/10 →
      getEfficiency adc =
        max 0 (min (100 * ((getSystemPower adc).power + max (adc.vbat * adc.ibat) 0)
          / (adc.vbus * adc.ibus)) 100) := by
    intro hi
    rw [getEfficiency_of_input adc (not_le.mpr hi), clampValue_eq_max_min _ _ _ (by norm_num)]
    congr 2
    ring
  refine ⟨?_, h0, h1, ?_⟩
  · by_cases hi : adc.vbus * adc.ibus ≤ 1/10
    · rw [h0 hi]; norm_num
    · rw [h1 (not_le.mp hi)]
      exact ⟨le_max_left _ _, max_le (by norm_num) (min_le_right _ _)⟩
  · intro d hd
    simp only [getEfficiency_divisors, getSystemPower_divisors, getVbusPower,
      List.mem_append] at hd
    rcases hd with hd | hd
    · by_cases hv : adc.vsys > 1/10
      · simp only [hv, decide_True, Bool.not_true, Bool.false_eq_true, if_false,
          List.mem_singleton] at hd
        rw [hd]; exact hv
      · simp only [hv, decide_False, Bool.not_false, if_true, List.not_mem_nil] at hd
    · by_cases hi : adc.vbus * adc.ibus ≤ 1/10
      · simp only [hi, if_true, List.not_mem_nil] at hd
      · simp only [hi, if_false, List.mem_singleton] at hd
        rw [hd]; exact not_le.mp hi

/-- Witness of C4: the scenario snapshot passes the guard, and a snapshot with
no input current is stopped by it. -/
theorem getEfficiency_guarded_clamped_witness :
    getEfficiency scenarioReadings =
      max 0 (min (100 * ((getSystemPower scenarioReadings).power +
        max (scenarioReadings.vbat * scenarioReadings.ibat) 0)
          / (scenarioReadings.vbus * scenarioReadings.ibus)) 100) ∧
    getEfficiency deficitReadings = 0 ∧
    (∀ d ∈ getEfficiency_divisors scenarioReadings, d > 1/10) :=
  ⟨(getEfficiency_guarded_clamped scenarioReadings).2.2.1 (by norm_num [scenarioReadings]),
    (getEfficiency_guarded_clamped deficitReadings).2.1 (by norm_num [deficitReadings]),
    (getEfficiency_guarded_clamped scenarioReadings).2.2.2⟩

/-- C5. `updateTrueBatteryVoltage` starts a cycle only from Idle: in Idle it sets
the state to DisableCharging, `reading_valid` to false and the timer to now,
leaving `last_reading` (and everything else) unchanged; in every other state it
is a no-op; calling it twice in a row has the same effect as calling it once. -/
theorem updateTrueBatteryVoltage_only_from_idle (m : TbvMachine) (now later : Nat) :
    (m._tbv_state = TBVS_IDLE →
      (updateTrueBatteryVoltage m now)._tbv_state = TBVS_DISABLE_CHARGING ∧
      (updateTrueBatteryVoltage m now)._tbv_reading_valid = false ∧
      (updateTrueBatteryVoltage m now)._tbv_timer = now ∧
      (updateTrueBatteryVoltage m now)._tbv_last_reading = m._tbv_last_reading ∧
      (updateTrueBatteryVoltage m now)._tbv_original_discharge_state =
        m._tbv_original_discharge_state ∧
      (updateTrueBatteryVoltage m now).hw_force_batt_discharge = m.hw_force_batt_discharge) ∧
    (m._tbv_state ≠ TBVS_IDLE → updateTrueBatteryVoltage m now = m) ∧
    updateTrueBatteryVoltage (updateTrueBatteryVoltage m now) later =
      updateTrueBatteryVoltage m now := by
  refine ⟨fun h => ?_, fun h => ?_, ?_⟩
  · simp only [updateTrueBatteryVoltage, h, if_true, and_self]
  · simp only [updateTrueBatteryVoltage, h, if_false]
  · by_cases h : m._tbv_state = TBVS_IDLE
    · simp [updateTrueBatteryVoltage, h]
    · simp only [updateTrueBatteryVoltage, h, if_false]

/-- Witness of C5: a request from the freshly constructed (Idle) object starts a
cycle, a request during a cycle changes nothing. -/
theorem updateTrueBatteryVoltage_only_from_idle_witness :
    (updateTrueBatteryVoltage (initialTbv false) 7)._tbv_state = TBVS_DISABLE_CHARGING ∧
    updateTrueBatteryVoltage waitingMachine 7 = waitingMachine :=
  ⟨((updateTrueBatteryVoltage_only_from_idle (initialTbv false) 7 8).1 rfl).1,
    (updateTrueBatteryVoltage_only_from_idle waitingMachine 7 8).2.1
      (by simp [waitingMachine])⟩

/-- C6. TBV timed waits: in WaitChargeStop the next state is ForceDischarge if
`now - t >= 50` and nothing changes otherwise; in WaitStabilize it is
ReadVoltage if `now - t >= 400` and nothing changes otherwise; in
WaitBeforeRestore it is Restore if `now - t >= 50` and nothing changes
otherwise; DisableCharging, ForceDischarge, ReadVoltage and Restore advance to
WaitChargeStop, WaitStabilize, WaitBeforeRestore and Idle whatever the time;
`update()` in Idle changes nothing; no other transition exists.  Here `now - t`
is the `unsigned long` difference, equal to the ordinary one when
`t <= now < 2^32`. -/
theorem update_timed_waits (m : TbvMachine) (now : Nat) (adcvbat : ℚ) :
    (m._tbv_state = TBVS_WAIT_CHARGE_STOP →
      (ulongSub now m._tbv_timer ≥ 50 →
        (update m now adcvbat)._tbv_state = TBVS_FORCE_DISCHARGE) ∧
      (¬ ulongSub now m._tbv_timer ≥ 50 → update m now adcvbat = m)) ∧
    (m._tbv_state = TBVS_WAIT_STABILIZE →
      (ulongSub now m._tbv_timer ≥ 400 →
        (update m now adcvbat)._tbv_state = TBVS_READ_VOLTAGE) ∧
      (¬ ulongSub now m._tbv_timer ≥ 400 → update m now adcvbat = m)) ∧
    (m._tbv_state = TBVS_WAIT_BEFORE_RESTORE →
      (ulongSub now m._tbv_timer ≥ 50 →
        (update m now adcvbat)._tbv_state = TBVS_RESTORE) ∧
      (¬ ulongSub now m._tbv_timer ≥ 50 → update m now adcvbat = m)) ∧
    (m._tbv_state = TBVS_DISABLE_CHARGING →
      (update m now adcvbat)._tbv_state = TBVS_WAIT_CHARGE_STOP) ∧
    (m._tbv_state = TBVS_FORCE_DISCHARGE →
      (update m now adcvbat)._tbv_state = TBVS_WAIT_STABILIZE) ∧
    (m._tbv_state = TBVS_READ_VOLTAGE →
      (update m now adcvbat)._tbv_state = TBVS_WAIT_BEFORE_RESTORE) ∧
    (m._tbv_state = TBVS_RESTORE → (update m now adcvbat)._tbv_state = TBVS_IDLE) ∧
    (m._tbv_state = TBVS_IDLE → update m now adcvbat = m) ∧
    ((update m now adcvbat)._tbv_state = m._tbv_state ∨
      (m._tbv_state ≠ TBVS_IDLE ∧
        (update m now adcvbat)._tbv_state = nextInSequence m._tbv_state)) ∧
    (m._tbv_timer ≤ now → now < 4294967296 →
      ulongSub now m._tbv_timer = now - m._tbv_timer) := by
  refine ⟨fun h => ⟨fun ht => ?_, fun ht => ?_⟩, fun h => ⟨fun ht => ?_, fun ht => ?_⟩,
    fun h => ⟨fun ht => ?_, fun ht => ?_⟩, fun h => ?_, fun h => ?_, fun h => ?_, fun h => ?_,
    fun h => ?_, ?_, fun h1 h2 => ?_⟩
  · simp only [update, h, ht, if_true]
  · simp only [update, h, ht, if_false]
  · simp only [update, h, ht, if_true]
  · simp only [update, h, ht, if_false]
  · simp only [update, h, ht, if_true]
  · simp only [update, h, ht, if_false]
  · simp only [update, h]
  · simp only [update, h]
  · simp only [update, h]
  · simp only [update, h]
  · simp only [update, h]
  · cases h : m._tbv_state
    · left; simp only [update, h]
    · right; simp only [update, h, nextInSequence]; simp
    · by_cases ht : ulongSub now m._tbv_timer ≥ 50
      · right; simp only [update, h, ht, if_true, nextInSequence]; simp
      · left; simp only [update, h, ht, if_false]
    · right; simp only [update, h, nextInSequence]; simp
    · by_cases ht : ulongSub now m._tbv_timer ≥ 400
      · right; simp only [update, h, ht, if_true, nextInSequence]; simp
      · left; simp only [update, h, ht, if_false]
    · right; simp only [update, h, nextInSequence]; simp
    · by_cases ht : ulongSub now m._tbv_timer ≥ 50
      · right; simp only [update, h, ht, if_true, nextInSequence]; simp
      · left; simp only [update, h, ht, if_false]
    · right; simp only [update, h, nextInSequence]; simp
  · unfold ulongSub
    omega

/-- Witness of C6: the machine waiting since `t = 1000` stays put at
`now = 1049` and moves to ForceDischarge at `now = 1050`. -/
theorem update_timed_waits_witness :
    update waitingMachine 1049 12 = waitingMachine ∧
    (update waitingMachine 1050 12)._tbv_state = TBVS_FORCE_DISCHARGE ∧
    ulongSub 1050 waitingMachine._tbv_timer = 1050 - waitingMachine._tbv_timer :=
  ⟨((update_timed_waits waitingMachine 1049 12).1 rfl).2 (by decide),
    ((update_timed_waits waitingMachine 1050 12).1 rfl).1 (by decide),
    (update_timed_waits waitingMachine 1050 12).2.2.2.2.2.2.2.2.2
      (by decide) (by decide)⟩

/-- Running two call sequences one after the other. -/
theorem runUpdates_append (m : TbvMachine) (p q : List UpdateCall) :
    runUpdates m (p ++ q) = runUpdates (runUpdates m p) q := by
  simp only [runUpdates, List.foldl_append]

/-- Running a sequence that starts with a given call. -/
theorem runUpdates_cons (m : TbvMachine) (c : UpdateCall) (p : List UpdateCall) :
    runUpdates m (c :: p) = runUpdates (update m c.now c.adcvbat) p := by
  simp only [runUpdates, List.foldl_cons]

/-- Polling during the first 50 ms wait changes nothing. -/
theorem runUpdates_poll_wait_charge_stop (m : TbvMachine) (p : List UpdateCall)
    (hs : m._tbv_state = TBVS_WAIT_CHARGE_STOP)
    (hp : ∀ c ∈ p, ulongSub c.now m._tbv_timer < 50) : runUpdates m p = m := by
  induction p with
  | nil => rfl
  | cons c p ih =>
    have hc : ¬ ulongSub c.now m._tbv_timer ≥ 50 := not_le.mpr (hp c (List.mem_cons_self _ _))
    have hu : update m c.now c.adcvbat = m := by simp only [update, hs, hc, if_false]
    rw [runUpdates_cons, hu]
    exact ih (fun d hd => hp d (List.mem_cons_of_mem _ hd))

/-- Polling during the 400 ms stabilisation wait changes nothing. -/
theorem runUpdates_poll_wait_stabilize (m : TbvMachine) (p : List UpdateCall)
    (hs : m._tbv_state = TBVS_WAIT_STABILIZE)
    (hp : ∀ c ∈ p, ulongSub c.now m._tbv_timer < 400) : runUpdates m p = m := by
  induction p with
  | nil => rfl
  | cons c p ih =>
    have hc : ¬ ulongSub c.now m._tbv_timer ≥ 400 := not_le.mpr (hp c (List.mem_cons_self _ _))
    have hu : update m c.now c.adcvbat = m := by simp only [update, hs, hc, if_false]
    rw [runUpdates_cons, hu]
    exact ih (fun d hd => hp d (List.mem_cons_of_mem _ hd))

/-- Polling during the last 50 ms wait changes nothing. -/
theorem runUpdates_poll_wait_before_restore (m : TbvMachine) (p : List UpdateCall)
    (hs : m._tbv_state = TBVS_WAIT_BEFORE_RESTORE)
    (hp : ∀ c ∈ p, ulongSub c.now m._tbv_timer < 50) : runUpdates m p = m := by
  induction p with
  | nil => rfl
  | cons c p ih =>
    have hc : ¬ ulongSub c.now m._tbv_timer ≥ 50 := not_le.mpr (hp c (List.mem_cons_self _ _))
    have hu : update m c.now c.adcvbat = m := by simp only [update, hs, hc, if_false]
    rw [runUpdates_cons, hu]
    exact ih (fun d hd => hp d (List.mem_cons_of_mem _ hd))

/-- C7 as stated fails: a cycle started from Idle and advanced by eight
`update()` calls whose timestamps increase by 560 ms in total is still in
ReadVoltage, with no valid reading and forced discharge asserted. -/
theorem tbv_cycle_elapsed_time_not_enough :
    (initialTbv false)._tbv_state = TBVS_IDLE ∧
    List.Pairwise (fun a b => a < b) (slowPollCalls.map UpdateCall.now) ∧
    560 - 0 > 500 ∧
    (runUpdates (updateTrueBatteryVoltage (initialTbv false) 0) slowPollCalls)._tbv_state
      = TBVS_READ_VOLTAGE ∧
    (runUpdates (updateTrueBatteryVoltage (initialTbv false) 0)
      slowPollCalls)._tbv_reading_valid = false ∧
    (runUpdates (updateTrueBatteryVoltage (initialTbv false) 0)
      slowPollCalls).hw_force_batt_discharge = true := by
  refine ⟨rfl, by simp [slowPollCalls], by decide, ?_, ?_, ?_⟩ <;>
    simp [runUpdates, slowPollCalls, update, updateTrueBatteryVoltage, initialTbv, ulongSub]

/-- C7 (amended). TBV full cycle: a cycle started from Idle by
`updateTrueBatteryVoltage` and advanced by `update()` calls `c1 .. c7`, with any
number of extra polling calls made while a wait has not elapsed (`p1` after
`c1`, `p2` after `c3`, `p3` after `c5`), where `c2` comes at least 50 ms after
`c1`, `c4` at least 400 ms after `c3` and `c6` at least 50 ms after `c5`, ends in
Idle with `reading_valid = true`, `last_reading` equal to the battery voltage
reported at the ReadVoltage step (`c5`), and the hardware forced-discharge flag
equal to the value captured at the DisableCharging step (`c1`). -/
theorem tbv_full_cycle (m : TbvMachine) (start : Nat) (c1 c2 c3 c4 c5 c6 c7 : UpdateCall)
    (p1 p2 p3 : List UpdateCall)
    (hidle : m._tbv_state = TBVS_IDLE)
    (hp1 : ∀ c ∈ p1, ulongSub c.now c1.now < 50)
    (h2 : ulongSub c2.now c1.now ≥ 50)
    (hp2 : ∀ c ∈ p2, ulongSub c.now c3.now < 400)
    (h4 : ulongSub c4.now c3.now ≥ 400)
    (hp3 : ∀ c ∈ p3, ulongSub c.now c5.now < 50)
    (h6 : ulongSub c6.now c5.now ≥ 50) :
    (runUpdates (updateTrueBatteryVoltage m start)
      (c1 :: p1 ++ c2 :: c3 :: p2 ++ c4 :: c5 :: p3 ++ [c6, c7]))._tbv_state = TBVS_IDLE ∧
    (runUpdates (updateTrueBatteryVoltage m start)
      (c1 :: p1 ++ c2 :: c3 :: p2 ++ c4 :: c5 :: p3 ++ [c6, c7]))._tbv_reading_valid = true ∧
    (runUpdates (updateTrueBatteryVoltage m start)
      (c1 :: p1 ++ c2 :: c3 :: p2 ++ c4 :: c5 :: p3 ++ [c6, c7]))._tbv_last_reading
        = c5.adcvbat ∧
    (runUpdates (updateTrueBatteryVoltage m start)
      (c1 :: p1 ++ c2 :: c3 :: p2 ++ c4 :: c5 :: p3 ++ [c6, c7])).hw_force_batt_discharge
        = (update (updateTrueBatteryVoltage m start) c1.now
            c1.adcvbat)._tbv_original_discharge_state ∧
    (update (updateTrueBatteryVoltage m start) c1.now
        c1.adcvbat)._tbv_original_discharge_state = m.hw_force_batt_discharge := by
  -- the state after the request and the first call
  have e1 : update (updateTrueBatteryVoltage m start) c1.now c1.adcvbat =
      { m with _tbv_reading_valid := false
               _tbv_original_discharge_state := m.hw_force_batt_discharge
               _tbv_state := TBVS_WAIT_CHARGE_STOP
               _tbv_timer := c1.now } := by
    simp only [updateTrueBatteryVoltage, hidle, if_true, update]
  -- first wait
  have w1 := runUpdates_poll_wait_charge_stop
    { m with _tbv_reading_valid := false
             _tbv_original_discharge_state := m.hw_force_batt_discharge
             _tbv_state := TBVS_WAIT_CHARGE_STOP
             _tbv_timer := c1.now } p1 rfl hp1
  -- second wait
  have w2 := runUpdates_poll_wait_stabilize
    { m with _tbv_reading_valid := false
             _tbv_original_discharge_state := m.hw_force_batt_discharge
             hw_force_batt_discharge := true
             _tbv_state := TBVS_WAIT_STABILIZE
             _tbv_timer := c3.now } p2 rfl hp2
  -- third wait
  have w3 := runUpdates_poll_wait_before_restore
    { m with _tbv_reading_valid := true
             _tbv_last_reading := c5.adcvbat
             _tbv_original_discharge_state := m.hw_force_batt_discharge
             hw_force_batt_discharge := true
             _tbv_state := TBVS_WAIT_BEFORE_RESTORE
             _tbv_timer := c5.now } p3 rfl hp3
  have hfinal : runUpdates (updateTrueBatteryVoltage m start)
      (c1 :: p1 ++ c2 :: c3 :: p2 ++ c4 :: c5 :: p3 ++ [c6, c7]) =
      { m with _tbv_reading_valid := true
               _tbv_last_reading := c5.adcvbat
               _tbv_original_discharge_state := m.hw_force_batt_discharge
               hw_force_batt_discharge := m.hw_force_batt_discharge
               _tbv_state := TBVS_IDLE
               _tbv_timer := c5.now } := by
    have s1 : runUpdates (updateTrueBatteryVoltage m start) (c1 :: p1) =
        { m with _tbv_reading_valid := false
                 _tbv_original_discharge_state := m.hw_force_batt_discharge
                 _tbv_state := TBVS_WAIT_CHARGE_STOP
                 _tbv_timer := c1.now } := by
      rw [runUpdates_cons, e1, w1]
    have e3 : update (update
        { m with _tbv_reading_valid := false
                 _tbv_original_discharge_state := m.hw_force_batt_discharge
                 _tbv_state := TBVS_WAIT_CHARGE_STOP
                 _tbv_timer := c1.now } c2.now c2.adcvbat) c3.now c3.adcvbat =
        { m with _tbv_reading_valid := false
                 _tbv_original_discharge_state := m.hw_force_batt_discharge
                 hw_force_batt_discharge := true
                 _tbv_state := TBVS_WAIT_STABILIZE
                 _tbv_timer := c3.now } := by
      simp only [update, h2, if_true]
    have s2 : runUpdates
        { m with _tbv_reading_valid := false
                 _tbv_original_discharge_state := m.hw_force_batt_discharge
                 _tbv_state := TBVS_WAIT_CHARGE_STOP
                 _tbv_timer := c1.now } (c2 :: c3 :: p2) =
        { m with _tbv_reading_valid := false
                 _tbv_original_discharge_state := m.hw_force_batt_discharge
                 hw_force_batt_discharge := true
                 _tbv_state := TBVS_WAIT_STABILIZE
                 _tbv_timer := c3.now } := by
      rw [runUpdates_cons, runUpdates_cons, e3, w2]
    have e5 : update (update
        { m with _tbv_reading_valid := false
                 _tbv_original_discharge_state := m.hw_force_batt_discharge
                 hw_force_batt_discharge := true
                 _tbv_state := TBVS_WAIT_STABILIZE
                 _tbv_timer := c3.now } c4.now c4.adcvbat) c5.now c5.adcvbat =
        { m with _tbv_reading_valid := true
                 _tbv_last_reading := c5.adcvbat
                 _tbv_original_discharge_state := m.hw_force_batt_discharge
                 hw_force_batt_discharge := true
                 _tbv_state := TBVS_WAIT_BEFORE_RESTORE
                 _tbv_timer := c5.now } := by
      simp only [update, h4, if_true]
    have s3 : runUpdates
        { m with _tbv_reading_valid := false
                 _tbv_original_discharge_state := m.hw_force_batt_discharge
                 hw_force_batt_discharge := true
                 _tbv_state := TBVS_WAIT_STABILIZE
                 _tbv_timer := c3.now } (c4 :: c5 :: p3) =
        { m with _tbv_reading_valid := true
                 _tbv_last_reading := c5.adcvbat
                 _tbv_original_discharge_state := m.hw_force_batt_discharge
                 hw_force_batt_discharge := true
                 _tbv_state := TBVS_WAIT_BEFORE_RESTORE
                 _tbv_timer := c5.now } := by
      rw [runUpdates_cons, runUpdates_cons, e5, w3]
    have s4 : runUpdates
        { m with _tbv_reading_valid := true
                 _tbv_last_reading := c5.adcvbat
                 _tbv_original_discharge_state := m.hw_force_batt_discharge
                 hw_force_batt_discharge := true
                 _tbv_state := TBVS_WAIT_BEFORE_RESTORE
                 _tbv_timer := c5.now } [c6, c7] =
        { m with _tbv_reading_valid := true
                 _tbv_last_reading := c5.adcvbat
                 _tbv_original_discharge_state := m.hw_force_batt_discharge
                 hw_force_batt_discharge := m.hw_force_batt_discharge
                 _tbv_state := TBVS_IDLE
                 _tbv_timer := c5.now } := by
      simp only [runUpdates, List.foldl_cons, List.foldl_nil, update, h6, if_true]
    rw [runUpdates_append, runUpdates_append, runUpdates_append, s1, s2, s3, s4]
  rw [hfinal, e1]
  exact ⟨rfl, rfl, rfl, rfl, rfl⟩

/-- Witness of C7 (amended): seven prompt calls, no extra polling; the reading
kept is the one of the fifth call. -/
theorem tbv_full_cycle_witness :
    (runUpdates (updateTrueBatteryVoltage (initialTbv true) 0) promptCalls)._tbv_state
      = TBVS_IDLE ∧
    (runUpdates (updateTrueBatteryVoltage (initialTbv true) 0) promptCalls)._tbv_reading_valid
      = true ∧
    (runUpdates (updateTrueBatteryVoltage (initialTbv true) 0) promptCalls)._tbv_last_reading
      = 64/5 :=
  have h := tbv_full_cycle (initialTbv true) 0 ⟨0, 13⟩ ⟨50, 13⟩ ⟨51, 13⟩ ⟨451, 13⟩ ⟨452, 64/5⟩
    ⟨502, 13⟩ ⟨503, 13⟩ [] [] [] rfl (by simp) (by decide) (by simp) (by decide) (by simp)
    (by decide)
  ⟨h.1, h.2.1, h.2.2.1⟩

/-- C8. `getTrueBatteryVoltage` contract: when `isCharging()` is true the result
is the stored `last_reading`; when it is false the result is the instantaneous
battery-voltage reading, whatever the TBV state and `last_reading` are; the call
changes no TBV field. -/
theorem getTrueBatteryVoltage_contract (m : TbvMachine) (status1 : Nat) (adcvbat : ℚ) :
    (isCharging status1 = true →
      (getTrueBatteryVoltage m status1 adcvbat).1 = m._tbv_last_reading) ∧
    (isCharging status1 = false →
      (getTrueBatteryVoltage m status1 adcvbat).1 = adcvbat) ∧
    (getTrueBatteryVoltage m status1 adcvbat).2 = m := by
  refine ⟨fun h => ?_, fun h => ?_, ?_⟩
  · simp only [getTrueBatteryVoltage, h, if_true]
  · simp [getTrueBatteryVoltage, h]
  · unfold getTrueBatteryVoltage
    split_ifs <;> rfl

/-- Witness of C8: status byte `0x60` (fast charge) returns the stored reading,
status byte `0x00` (not charging) returns the ADC value. -/
theorem getTrueBatteryVoltage_contract_witness :
    (getTrueBatteryVoltage waitingMachine 96 12).1 = waitingMachine._tbv_last_reading ∧
    (getTrueBatteryVoltage waitingMachine 0 12).1 = 12 :=
  ⟨(getTrueBatteryVoltage_contract waitingMachine 96 12).1 (by decide),
    (getTrueBatteryVoltage_contract waitingMachine 0 12).2.1 (by decide)⟩

/-- The three statements of the actual SOC for one voltage. -/
theorem calculateBatterySOC_bounds (cfg : BatteryRange) (voltage : ℚ)
    (hr : cfg._battery_min_voltage < cfg._battery_max_voltage) :
    (0 ≤ calculateBatterySOC cfg voltage ∧ calculateBatterySOC cfg voltage ≤ 100) ∧
    (voltage < cfg._battery_min_voltage → calculateBatterySOC cfg voltage = 0) ∧
    (voltage > cfg._battery_max_voltage → calculateBatterySOC cfg voltage = 100) := by
  have hlow : voltage < cfg._battery_min_voltage → calculateBatterySOC cfg voltage = 0 := by
    intro h
    simp only [calculateBatterySOC, h, if_true]
  have hhigh : voltage > cfg._battery_max_voltage → calculateBatterySOC cfg voltage = 100 := by
    intro h
    have hn : ¬ voltage < cfg._battery_min_voltage := not_lt.mpr (le_of_lt (lt_trans hr h))
    simp only [calculateBatterySOC, hn, if_false, h, if_true]
  refine ⟨?_, hlow, hhigh⟩
  by_cases h1 : voltage < cfg._battery_min_voltage
  · rw [hlow h1]; norm_num
  · by_cases h2 : voltage > cfg._battery_max_voltage
    · rw [hhigh h2]; norm_num
    · simp only [calculateBatterySOC, h1, if_false, h2]
      have hd : 0 < cfg._battery_max_voltage - cfg._battery_min_voltage := sub_pos.mpr hr
      have hn : 0 ≤ voltage - cfg._battery_min_voltage := sub_nonneg.mpr (not_lt.mp h1)
      have hle : voltage - cfg._battery_min_voltage ≤
          cfg._battery_max_voltage - cfg._battery_min_voltage :=
        sub_le_sub_right (not_lt.mp h2) _
      have hq0 : 0 ≤ (voltage - cfg._battery_min_voltage) /
          (cfg._battery_max_voltage - cfg._battery_min_voltage) := div_nonneg hn (le_of_lt hd)
      have hq1 : (voltage - cfg._battery_min_voltage) /
          (cfg._battery_max_voltage - cfg._battery_min_voltage) ≤ 1 :=
        (div_le_one hd).mpr hle
      constructor
      · exact mul_nonneg hq0 (by norm_num)
      · calc (voltage - cfg._battery_min_voltage) /
              (cfg._battery_max_voltage - cfg._battery_min_voltage) * 100
            ≤ 1 * 100 := mul_le_mul_of_nonneg_right hq1 (by norm_num)
          _ = 100 := by norm_num

/-- C9. Actual SOC is always in `[0, 100]`: for every voltage `v` and every
battery range with `min_voltage < max_voltage`, `calculateBatterySOC` and
`getActualBatterySOC` return a value in `[0, 100]`, exactly `0` when
`v < min_voltage` and exactly `100` when `v > max_voltage`. -/
theorem actual_soc_in_range (cfg : BatteryRange) (v : ℚ) (m : TbvMachine) (status1 : Nat)
    (adcvbat : ℚ) (hr : cfg._battery_min_voltage < cfg._battery_max_voltage) :
    ((0 ≤ calculateBatterySOC cfg v ∧ calculateBatterySOC cfg v ≤ 100) ∧
      (v < cfg._battery_min_voltage → calculateBatterySOC cfg v = 0) ∧
      (v > cfg._battery_max_voltage → calculateBatterySOC cfg v = 100)) ∧
    ((0 ≤ getActualBatterySOC cfg m status1 adcvbat ∧
        getActualBatterySOC cfg m status1 adcvbat ≤ 100) ∧
      ((getTrueBatteryVoltage m status1 adcvbat).1 < cfg._battery_min_voltage →
        getActualBatterySOC cfg m status1 adcvbat = 0) ∧
      ((getTrueBatteryVoltage m status1 adcvbat).1 > cfg._battery_max_voltage →
        getActualBatterySOC cfg m status1 adcvbat = 100)) :=
  ⟨calculateBatterySOC_bounds cfg v hr,
    calculateBatterySOC_bounds cfg (getTrueBatteryVoltage m status1 adcvbat).1 hr⟩

/-- Witness of C9: the default 10.0 V .. 14.6 V range with voltages far below
and far above it. -/
theorem actual_soc_in_range_witness :
    calculateBatterySOC defaultRange (-1000) = 0 ∧
    getActualBatterySOC defaultRange waitingMachine 0 1000 = 100 ∧
    (0 ≤ calculateBatterySOC defaultRange 12 ∧ calculateBatterySOC defaultRange 12 ≤ 100) :=
  have hr : defaultRange._battery_min_voltage < defaultRange._battery_max_voltage := by
    norm_num [defaultRange]
  ⟨(actual_soc_in_range defaultRange (-1000) waitingMachine 0 1000 hr).1.2.1
      (by norm_num [defaultRange]),
    (actual_soc_in_range defaultRange 12 waitingMachine 0 1000 hr).2.2.2
      (by simp only [getTrueBatteryVoltage, defaultRange]; norm_num [isCharging,
        getStatus1_charge_state]),
    (actual_soc_in_range defaultRange 12 waitingMachine 0 1000 hr).1.1⟩

/-- C10 as stated fails at two inputs the charger can report.  With the
minimal-system-voltage field at 30 (10.0 V), the charge-voltage-limit field at
500 (5.0 V) and a battery at 7.0 V the voltage is above the charge limit, yet
the result is `0`, not `100`.  With both fields at 10.0 V (30 and 1000) and the
battery at 10.0 V neither early return is taken and the division that is
executed has divisor `0`. -/
theorem getUsableBatterySOC_claim_fails :
    (getMinSystemV 30 = 10 ∧ getChargeLimitV 500 = 5 ∧ getADCVBAT 7000 = 7 ∧
      isCharging 0 = false ∧
      (getTrueBatteryVoltage (initialTbv false) 0 (getADCVBAT 7000)).1 > getChargeLimitV 500 ∧
      getUsableBatterySOC (initialTbv false) 0 (getADCVBAT 7000)
        (getMinSystemV 30) (getChargeLimitV 500) = 0) ∧
    (getChargeLimitV 1000 = 10 ∧ getADCVBAT 10000 = 10 ∧
      getUsableBatterySOC_divisors (initialTbv false) 0 (getADCVBAT 10000)
        (getMinSystemV 30) (getChargeLimitV 1000) = [0]) := by
  have h1 : getMinSystemV 30 = 10 := by norm_num [getMinSystemV]
  have h2 : getChargeLimitV 1000 = 10 := by norm_num [getChargeLimitV]
  have h3 : getADCVBAT 10000 = 10 := by norm_num [getADCVBAT]
  have h4 : isCharging 0 = false := by decide
  have h5 : getChargeLimitV 500 = 5 := by norm_num [getChargeLimitV]
  have h6 : getADCVBAT 7000 = 7 := by norm_num [getADCVBAT]
  refine ⟨⟨h1, h5, h6, h4, ?_, ?_⟩, h2, h3, ?_⟩
  · rw [h5, h6]; simp only [getTrueBatteryVoltage, h4]; norm_num
  · rw [h1, h5, h6]; simp only [getUsableBatterySOC, getTrueBatteryVoltage, h4]; norm_num
  · rw [h1, h2, h3]
    simp [getUsableBatterySOC_divisors, getTrueBatteryVoltage, h4]

/-- C10 (amended). Usable SOC: for every true battery voltage `v` and every pair
`(min_system_voltage, charge_voltage_limit)`, `getUsableBatterySOC` is `0` when
`v < min_system_voltage` and `100` when `v >= min_system_voltage` and
`v > charge_voltage_limit`; whenever
`min_system_voltage < charge_voltage_limit` the result is in `[0, 100]`, it is
`(v - min_system_voltage) / (charge_voltage_limit - min_system_voltage) * 100`
for `min_system_voltage <= v <= charge_voltage_limit`, and every division
executed has a positive divisor. -/
theorem usable_soc_in_range (m : TbvMachine) (status1 : Nat) (adcvbat : ℚ)
    (min_system_voltage charge_voltage : ℚ) :
    ((getTrueBatteryVoltage m status1 adcvbat).1 < min_system_voltage →
      getUsableBatterySOC m status1 adcvbat min_system_voltage charge_voltage = 0) ∧
    (¬ (getTrueBatteryVoltage m status1 adcvbat).1 < min_system_voltage →
      (getTrueBatteryVoltage m status1 adcvbat).1 > charge_voltage →
      getUsableBatterySOC m status1 adcvbat min_system_voltage charge_voltage = 100) ∧
    (min_system_voltage < charge_voltage →
      (0 ≤ getUsableBatterySOC m status1 adcvbat min_system_voltage charge_voltage ∧
        getUsableBatterySOC m status1 adcvbat min_system_voltage charge_voltage ≤ 100) ∧
      (min_system_voltage ≤ (getTrueBatteryVoltage m status1 adcvbat).1 →
        (getTrueBatteryVoltage m status1 adcvbat).1 ≤ charge_voltage →
        getUsableBatterySOC m status1 adcvbat min_system_voltage charge_voltage =
          ((getTrueBatteryVoltage m status1 adcvbat).1 - min_system_voltage) /
            (charge_voltage - min_system_voltage) * 100) ∧
      (∀ d ∈ getUsableBatterySOC_divisors m status1 adcvbat min_system_voltage charge_voltage,
        0 < d)) := by
  have hsoc : getUsableBatterySOC m status1 adcvbat min_system_voltage charge_voltage =
      calculateBatterySOC ⟨min_system_voltage, charge_voltage⟩
        (getTrueBatteryVoltage m status1 adcvbat).1 := rfl
  refine ⟨fun h => ?_, fun h1 h2 => ?_, fun hr => ⟨?_, fun h1 h2 => ?_, fun d hd => ?_⟩⟩
  · simp only [getUsableBatterySOC, h, if_true]
  · simp only [getUsableBatterySOC, h1, if_false, h2, if_true]
  · rw [hsoc]
    exact (calculateBatterySOC_bounds ⟨min_system_voltage, charge_voltage⟩ _ hr).1
  · simp only [getUsableBatterySOC, not_lt.mpr h1, if_false, not_lt.mpr h2]
  · simp only [getUsableBatterySOC_divisors] at hd
    split_ifs at hd with h1 h2
    · simp at hd
    · simp at hd
    · simp only [List.mem_singleton] at hd
      rw [hd]; exact sub_pos.mpr hr

/-- Witness of C10 (amended): minimal system voltage 10.0 V (field 30) and
charge limit 14.6 V (field 1460), not charging, with the battery at 12.3 V,
2.0 V and 20.0 V. -/
theorem usable_soc_in_range_witness :
    getMinSystemV 30 < getChargeLimitV 1460 ∧
    getUsableBatterySOC (initialTbv false) 0 (getADCVBAT 12300)
      (getMinSystemV 30) (getChargeLimitV 1460) =
      ((getTrueBatteryVoltage (initialTbv false) 0 (getADCVBAT 12300)).1 - getMinSystemV 30) /
        (getChargeLimitV 1460 - getMinSystemV 30) * 100 ∧
    getUsableBatterySOC (initialTbv false) 0 (getADCVBAT 2000)
      (getMinSystemV 30) (getChargeLimitV 1460) = 0 ∧
    getUsableBatterySOC (initialTbv false) 0 (getADCVBAT 20000)
      (getMinSystemV 30) (getChargeLimitV 1460) = 100 :=
  have hr : getMinSystemV 30 < getChargeLimitV 1460 := by
    norm_num [getMinSystemV, getChargeLimitV]
  have hc : isCharging 0 = false := by decide
  ⟨hr,
    ((usable_soc_in_range (initialTbv false) 0 (getADCVBAT 12300) (getMinSystemV 30)
      (getChargeLimitV 1460)).2.2 hr).2.1
      (by simp only [getTrueBatteryVoltage, hc]; norm_num [getMinSystemV, getADCVBAT])
      (by simp only [getTrueBatteryVoltage, hc]; norm_num [getChargeLimitV, getADCVBAT]),
    (usable_soc_in_range (initialTbv false) 0 (getADCVBAT 2000) (getMinSystemV 30)
      (getChargeLimitV 1460)).1
      (by simp only [getTrueBatteryVoltage, hc]; norm_num [getMinSystemV, getADCVBAT]),
    (usable_soc_in_range (initialTbv false) 0 (getADCVBAT 20000) (getMinSystemV 30)
      (getChargeLimitV 1460)).2.1
      (by simp only [getTrueBatteryVoltage, hc]; norm_num [getMinSystemV, getADCVBAT])
      (by simp only [getTrueBatteryVoltage, hc]; norm_num [getChargeLimitV, getADCVBAT])⟩

/-- C11. Actual SOC is the linear position in the chemistry range: for
`min_voltage <= v <= max_voltage`,
`calculateBatterySOC(v) = (v - min_voltage) / (max_voltage - min_voltage) * 100`;
`setBatteryType(LiFePO4, 4)` establishes `min = 10.0`, `max = 14.6`, and there a
true voltage of `12.3` gives exactly `50`. -/
theorem actual_soc_linear (cfg : BatteryRange) (v : ℚ) (setCellCount_ok : Bool) :
    (cfg._battery_min_voltage ≤ v → v ≤ cfg._battery_max_voltage →
      calculateBatterySOC cfg v =
        (v - cfg._battery_min_voltage) /
          (cfg._battery_max_voltage - cfg._battery_min_voltage) * 100) ∧
    (setBatteryType cfg MODBEE_BATTERY_LIFEPO4 4 setCellCount_ok).2 =
      { _battery_min_voltage := 10, _battery_max_voltage := 73/5 } ∧
    calculateBatterySOC (setBatteryType cfg MODBEE_BATTERY_LIFEPO4 4 setCellCount_ok).2 (123/10)
      = 50 := by
  have hset : (setBatteryType cfg MODBEE_BATTERY_LIFEPO4 4 setCellCount_ok).2 =
      { _battery_min_voltage := 10, _battery_max_voltage := 73/5 } := by
    simp only [setBatteryType, cellLimits, MODBEE_LIFEPO4_MIN_VOLTAGE,
      MODBEE_LIFEPO4_MAX_VOLTAGE]
    norm_num
  refine ⟨fun h1 h2 => ?_, hset, ?_⟩
  · simp only [calculateBatterySOC, not_lt.mpr h1, if_false, not_lt.mpr h2]
  · rw [hset]
    simp only [calculateBatterySOC]
    norm_num

/-- Witness of C11: the default range at 12.3 V. -/
theorem actual_soc_linear_witness :
    calculateBatterySOC defaultRange (123/10) =
      (123/10 - defaultRange._battery_min_voltage) /
        (defaultRange._battery_max_voltage - defaultRange._battery_min_voltage) * 100 :=
  (actual_soc_linear defaultRange (123/10) true).1 (by norm_num [defaultRange])
    (by norm_num [defaultRange])

/-- C12. `setBatteryType` updates both range endpoints together or not at all:
for `cell_count = 0`, `cell_count > 4` or type Custom it returns false and leaves
`min_voltage` and `max_voltage` unchanged; for a supported type and `cell_count`
in `1..4` it sets `min_voltage` and `max_voltage` to the per-cell limits
(2.5/3.65 LiFePO4, 2.8/4.2 LiPo, 1.8/2.4 lead acid) times `cell_count`, so that
`min_voltage < max_voltage` afterwards. -/
theorem setBatteryType_both_or_none (cfg : BatteryRange) (type : modbee_battery_type_t)
    (cell_count : Nat) (setCellCount_ok : Bool) :
    (cell_count = 0 ∨ cell_count > 4 ∨ type = MODBEE_BATTERY_CUSTOM →
      setBatteryType cfg type cell_count setCellCount_ok = (false, cfg)) ∧
    (1 ≤ cell_count → cell_count ≤ 4 →
      (type = MODBEE_BATTERY_LIFEPO4 →
        (setBatteryType cfg type cell_count setCellCount_ok).2 =
          { _battery_min_voltage := 5/2 * (cell_count : ℚ)
            _battery_max_voltage := 73/20 * (cell_count : ℚ) }) ∧
      (type = MODBEE_BATTERY_LIPO →
        (setBatteryType cfg type cell_count setCellCount_ok).2 =
          { _battery_min_voltage := 14/5 * (cell_count : ℚ)
            _battery_max_voltage := 21/5 * (cell_count : ℚ) }) ∧
      (type = MODBEE_BATTERY_LEAD_ACID →
        (setBatteryType cfg type cell_count setCellCount_ok).2 =
          { _battery_min_voltage := 9/5 * (cell_count : ℚ)
            _battery_max_voltage := 12/5 * (cell_count : ℚ) }) ∧
      (type ≠ MODBEE_BATTERY_CUSTOM →
        (setBatteryType cfg type cell_count setCellCount_ok).1 = setCellCount_ok ∧
        (setBatteryType cfg type cell_count setCellCount_ok).2._battery_min_voltage <
          (setBatteryType cfg type cell_count setCellCount_ok).2._battery_max_voltage)) := by
  refine ⟨fun h => ?_, fun h1 h4 => ?_⟩
  · by_cases hc : cell_count = 0 ∨ cell_count > 4
    · simp only [setBatteryType, hc, if_true]
    · have ht : type = MODBEE_BATTERY_CUSTOM := by
        rcases h with h | h | h
        · exact absurd (Or.inl h) hc
        · exact absurd (Or.inr h) hc
        · exact h
      simp only [setBatteryType, hc, if_false, ht, cellLimits]
  · have hc : ¬ (cell_count = 0 ∨ cell_count > 4) := by omega
    have hsw : cell_count = 1 ∨ cell_count = 2 ∨ cell_count = 3 ∨ cell_count = 4 := by omega
    have hpos : (0 : ℚ) < (cell_count : ℚ) := by exact_mod_cast h1
    refine ⟨fun ht => ?_, fun ht => ?_, fun ht => ?_, fun ht => ?_⟩
    · simp only [setBatteryType, hc, if_false, ht, cellLimits, hsw, if_true,
        MODBEE_LIFEPO4_MIN_VOLTAGE, MODBEE_LIFEPO4_MAX_VOLTAGE]
    · simp only [setBatteryType, hc, if_false, ht, cellLimits, hsw, if_true,
        MODBEE_LIPO_MIN_VOLTAGE, MODBEE_LIPO_MAX_VOLTAGE]
    · simp only [setBatteryType, hc, if_false, ht, cellLimits, hsw, if_true,
        MODBEE_LEAD_ACID_MIN_VOLTAGE, MODBEE_LEAD_ACID_MAX_VOLTAGE]
    · cases type
      · simp only [setBatteryType, hc, if_false, cellLimits, hsw, if_true,
          MODBEE_LIFEPO4_MIN_VOLTAGE, MODBEE_LIFEPO4_MAX_VOLTAGE, true_and]
        nlinarith
      · simp only [setBatteryType, hc, if_false, cellLimits, hsw, if_true,
          MODBEE_LIPO_MIN_VOLTAGE, MODBEE_LIPO_MAX_VOLTAGE, true_and]
        nlinarith
      · simp only [setBatteryType, hc, if_false, cellLimits, hsw, if_true,
          MODBEE_LEAD_ACID_MIN_VOLTAGE, MODBEE_LEAD_ACID_MAX_VOLTAGE, true_and]
        nlinarith
      · exact absurd rfl ht

/-- Witness of C12: five cells are refused, three LiPo cells give 8.4 V .. 12.6 V. -/
theorem setBatteryType_both_or_none_witness :
    setBatteryType defaultRange MODBEE_BATTERY_LIPO 5 true = (false, defaultRange) ∧
    (setBatteryType defaultRange MODBEE_BATTERY_LIPO 3 true).2 =
      { _battery_min_voltage := 14/5 * ((3 : Nat) : ℚ)
        _battery_max_voltage := 21/5 * ((3 : Nat) : ℚ) } :=
  ⟨(setBatteryType_both_or_none defaultRange MODBEE_BATTERY_LIPO 5 true).1
      (Or.inr (Or.inl (by decide))),
    ((setBatteryType_both_or_none defaultRange MODBEE_BATTERY_LIPO 3 true).2
      (by decide) (by decide)).2.1 rfl⟩

/-- C13. Energy integration: in an `updateStats` tick at time `now` with previous
tick time `last`, `elapsed_hours = (now - last) / 3600000` and for each
non-battery rail (VAC1, VAC2, VBUS, System) `total_energy_wh` after the tick is
`total_energy_wh` before the tick plus that rail's power times `elapsed_hours`;
the tick records `now` as the new last-tick time.  Here `now - last` is the
`unsigned long` difference, equal to the ordinary one when `last <= now < 2^32`. -/
theorem updateStats_energy_integration (s : Stats) (now : Nat) (adc : AdcReadings) :
    (updateStats s now adc)._vin1TotalEnergyWh =
      s._vin1TotalEnergyWh +
        (getVAC1Power adc).power * (((ulongSub now s._lastStatsUpdateMs : Nat) : ℚ) / 3600000) ∧
    (updateStats s now adc)._vin2TotalEnergyWh =
      s._vin2TotalEnergyWh +
        (getVAC2Power adc).power * (((ulongSub now s._lastStatsUpdateMs : Nat) : ℚ) / 3600000) ∧
    (updateStats s now adc)._vbusTotalEnergyWh =
      s._vbusTotalEnergyWh +
        (getVbusPower adc).power * (((ulongSub now s._lastStatsUpdateMs : Nat) : ℚ) / 3600000) ∧
    (updateStats s now adc)._systemTotalEnergyWh =
      s._systemTotalEnergyWh +
        (getSystemPower adc).power *
          (((ulongSub now s._lastStatsUpdateMs : Nat) : ℚ) / 3600000) ∧
    (updateStats s now adc)._lastStatsUpdateMs = now ∧
    (s._lastStatsUpdateMs ≤ now → now < 4294967296 →
      ((ulongSub now s._lastStatsUpdateMs : Nat) : ℚ) / 3600000 =
        ((now : ℚ) - (s._lastStatsUpdateMs : ℚ)) / 3600000) := by
  refine ⟨rfl, rfl, rfl, rfl, rfl, fun h1 h2 => ?_⟩
  have hsub : ulongSub now s._lastStatsUpdateMs = now - s._lastStatsUpdateMs := by
    unfold ulongSub; omega
  rw [hsub, Nat.cast_sub h1]

/-- Witness of C13: one hour after construction the elapsed time is one hour. -/
theorem updateStats_energy_integration_witness :
    ((ulongSub 3600000 (initialStats 0)._lastStatsUpdateMs : Nat) : ℚ) / 3600000 =
      (((3600000 : Nat) : ℚ) - (((initialStats 0)._lastStatsUpdateMs : Nat) : ℚ)) / 3600000 :=
  (updateStats_energy_integration (initialStats 0) 3600000 chargingReadings).2.2.2.2.2
    (by decide) (by decide)

/-- The update `if p > old then p else old` is the maximum. -/
theorem ite_gt_eq_max (p old : ℚ) : (if p > old then p else old) = max old p := by
  split_ifs with h
  · exact (max_eq_right (le_of_lt h)).symm
  · exact (max_eq_left (not_lt.mp h)).symm

/-- The elapsed time of a tick is never negative. -/
theorem dt_hours_nonneg (now last : Nat) : (0 : ℚ) ≤ ((ulongSub now last : Nat) : ℚ) / 3600000 :=
  div_nonneg (Nat.cast_nonneg _) (by norm_num)

/-- The power of an inferred VAC sample is never negative. -/
theorem vacPower_power_nonneg (v_ac : ℚ) (adc : AdcReadings) : 0 ≤ (vacPower v_ac adc).power := by
  by_cases hv : v_ac > 1/10
  · by_cases hb : adc.vbus > 1/10 ∧ adc.ibus > 1/1000
    · rw [vacPower_of_inferred v_ac adc hv hb]
      have h1 : (0 : ℚ) < v_ac := lt_trans (by norm_num) hv
      have h2 : (0 : ℚ) < adc.vbus := lt_trans (by norm_num) hb.1
      have h3 : (0 : ℚ) < adc.ibus := lt_trans (by norm_num) hb.2
      exact le_of_lt (mul_pos h1 (mul_pos h3 (div_pos h1 h2)))
    · rw [vacPower_of_not_inferred v_ac adc hv hb]
  · rw [vacPower_of_invalid v_ac adc (not_lt.mp hv)]

/-- The power of the system sample is never negative. -/
theorem getSystemPower_power_nonneg (adc : AdcReadings) : 0 ≤ (getSystemPower adc).power := by
  by_cases hv : adc.vsys > 1/10
  · by_cases hc : (adc.ibus * adc.vbus - adc.ibat * adc.vbat) / adc.vsys < 0
    · rw [getSystemPower_of_negative adc hv hc]
    · rw [getSystemPower_of_nonneg adc hv hc]
      exact mul_nonneg (not_lt.mp hc) (le_of_lt (lt_trans (by norm_num) hv))
  · rw [getSystemPower_of_invalid adc (not_lt.mp hv)]

/-- On the rails other than VBUS the energy total never decreases in a tick (the
battery rail needs a non-negative battery voltage). -/
theorem energy_nondecreasing_other_rails (s : Stats) (now : Nat) (adc : AdcReadings)
    (hvbat : 0 ≤ adc.vbat) :
    s._vin1TotalEnergyWh ≤ (updateStats s now adc)._vin1TotalEnergyWh ∧
    s._vin2TotalEnergyWh ≤ (updateStats s now adc)._vin2TotalEnergyWh ∧
    s._batteryTotalEnergyWh ≤ (updateStats s now adc)._batteryTotalEnergyWh ∧
    s._systemTotalEnergyWh ≤ (updateStats s now adc)._systemTotalEnergyWh := by
  have hdt := dt_hours_nonneg now s._lastStatsUpdateMs
  refine ⟨?_, ?_, ?_, ?_⟩
  · exact le_add_of_nonneg_right (mul_nonneg (vacPower_power_nonneg adc.vac1 adc) hdt)
  · exact le_add_of_nonneg_right (mul_nonneg (vacPower_power_nonneg adc.vac2 adc) hdt)
  · show s._batteryTotalEnergyWh ≤
      (if (getBatteryPower adc).current > 0 then
        s._batteryTotalEnergyWh + (getBatteryPower adc).power *
          (((ulongSub now s._lastStatsUpdateMs : Nat) : ℚ) / 3600000)
      else s._batteryTotalEnergyWh)
    split_ifs with hi
    · have hp : 0 ≤ (getBatteryPower adc).power := mul_nonneg hvbat (le_of_lt hi)
      exact le_add_of_nonneg_right (mul_nonneg hp hdt)
    · exact le_refl _
  · exact le_add_of_nonneg_right (mul_nonneg (getSystemPower_power_nonneg adc) hdt)

/-- C14 fails on the code for the VBUS rail: the driver reports a negative input
current for the IBUS ADC word 0xFE0C (-0.5 A); with VBUS at 12.0 V a tick one
hour after the previous one adds `12 * (-0.5) * 1 = -6` Wh, so the VBUS
`total_energy_wh` goes from `0` to `-6`. -/
theorem vbus_energy_decreases :
    getADCVBUS 12000 = 12 ∧ getADCIBUS 65036 = -1/2 ∧
    (updateStats (initialStats 0) 3600000 reverseCurrentReadings)._vbusTotalEnergyWh = -6 ∧
    (updateStats (initialStats 0) 3600000 reverseCurrentReadings)._vbusTotalEnergyWh <
      (initialStats 0)._vbusTotalEnergyWh := by
  have h1 : getADCVBUS 12000 = 12 := by norm_num [getADCVBUS]
  have h2 : getADCIBUS 65036 = -1/2 := by norm_num [getADCIBUS]
  have h3 : (updateStats (initialStats 0) 3600000 reverseCurrentReadings)._vbusTotalEnergyWh
      = -6 := by
    show (initialStats 0)._vbusTotalEnergyWh + (getVbusPower reverseCurrentReadings).power *
      (((ulongSub 3600000 (initialStats 0)._lastStatsUpdateMs : Nat) : ℚ) / 3600000) = -6
    have hd : ulongSub 3600000 (initialStats 0)._lastStatsUpdateMs = 3600000 := by decide
    rw [hd]
    simp only [getVbusPower, reverseCurrentReadings, h1, h2, initialStats]
    norm_num
  refine ⟨h1, h2, h3, ?_⟩
  rw [h3]
  simp only [initialStats]
  norm_num

/-- The five peaks after one tick. -/
theorem updateStats_peaks (s : Stats) (now : Nat) (adc : AdcReadings) :
    (updateStats s now adc)._vin1PeakPower = max s._vin1PeakPower (getVAC1Power adc).power ∧
    (updateStats s now adc)._vin2PeakPower = max s._vin2PeakPower (getVAC2Power adc).power ∧
    (updateStats s now adc)._vbusPeakPower = max s._vbusPeakPower (getVbusPower adc).power ∧
    (updateStats s now adc)._batteryPeakPower =
      max s._batteryPeakPower (getBatteryPower adc).power ∧
    s._systemPeakPower ≤ (updateStats s now adc)._systemPeakPower := by
  refine ⟨ite_gt_eq_max _ _, ite_gt_eq_max _ _, ite_gt_eq_max _ _, ite_gt_eq_max _ _, ?_⟩
  show s._systemPeakPower ≤
    (if (getSystemPower adc).power > s._systemPeakPower then
      (if s.sysPeakDebounce + 1 ≥ 3 then (getSystemPower adc).power else s._systemPeakPower)
    else s._systemPeakPower)
  split_ifs with h1 h2
  · exact le_of_lt h1
  · exact le_refl _
  · exact le_refl _

/-- C15. `peak_power` never decreases: over every sequence of `updateStats` ticks
with arbitrary readings each rail's `peak_power` after a tick is at least its
value before the tick (hence at least its value before the sequence); for the
non-system rails it equals `max(previous peak, this tick's power)`. -/
theorem peak_power_never_decreases (s : Stats) (ticks : List StatsTick) (now : Nat)
    (adc : AdcReadings) :
    ((updateStats s now adc)._vin1PeakPower = max s._vin1PeakPower (getVAC1Power adc).power ∧
      (updateStats s now adc)._vin2PeakPower = max s._vin2PeakPower (getVAC2Power adc).power ∧
      (updateStats s now adc)._vbusPeakPower = max s._vbusPeakPower (getVbusPower adc).power ∧
      (updateStats s now adc)._batteryPeakPower =
        max s._batteryPeakPower (getBatteryPower adc).power) ∧
    (s._vin1PeakPower ≤ (updateStats s now adc)._vin1PeakPower ∧
      s._vin2PeakPower ≤ (updateStats s now adc)._vin2PeakPower ∧
      s._vbusPeakPower ≤ (updateStats s now adc)._vbusPeakPower ∧
      s._batteryPeakPower ≤ (updateStats s now adc)._batteryPeakPower ∧
      s._systemPeakPower ≤ (updateStats s now adc)._systemPeakPower) ∧
    (s._vin1PeakPower ≤ (runStats s ticks)._vin1PeakPower ∧
      s._vin2PeakPower ≤ (runStats s ticks)._vin2PeakPower ∧
      s._vbusPeakPower ≤ (runStats s ticks)._vbusPeakPower ∧
      s._batteryPeakPower ≤ (runStats s ticks)._batteryPeakPower ∧
      s._systemPeakPower ≤ (runStats s ticks)._systemPeakPower) := by
  have hstep : ∀ (t : Stats) (n : Nat) (r : AdcReadings),
      t._vin1PeakPower ≤ (updateStats t n r)._vin1PeakPower ∧
      t._vin2PeakPower ≤ (updateStats t n r)._vin2PeakPower ∧
      t._vbusPeakPower ≤ (updateStats t n r)._vbusPeakPower ∧
      t._batteryPeakPower ≤ (updateStats t n r)._batteryPeakPower ∧
      t._systemPeakPower ≤ (updateStats t n r)._systemPeakPower := by
    intro t n r
    obtain ⟨h1, h2, h3, h4, h5⟩ := updateStats_peaks t n r
    refine ⟨?_, ?_, ?_, ?_, h5⟩
    · rw [h1]; exact le_max_left _ _
    · rw [h2]; exact le_max_left _ _
    · rw [h3]; exact le_max_left _ _
    · rw [h4]; exact le_max_left _ _
  have hseq : ∀ (l : List StatsTick) (t : Stats),
      t._vin1PeakPower ≤ (runStats t l)._vin1PeakPower ∧
      t._vin2PeakPower ≤ (runStats t l)._vin2PeakPower ∧
      t._vbusPeakPower ≤ (runStats t l)._vbusPeakPower ∧
      t._batteryPeakPower ≤ (runStats t l)._batteryPeakPower ∧
      t._systemPeakPower ≤ (runStats t l)._systemPeakPower := by
    intro l
    induction l with
    | nil => intro t; exact ⟨le_refl _, le_refl _, le_refl _, le_refl _, le_refl _⟩
    | cons c l ih =>
      intro t
      obtain ⟨a1, a2, a3, a4, a5⟩ := hstep t c.now c.adc
      obtain ⟨b1, b2, b3, b4, b5⟩ := ih (updateStats t c.now c.adc)
      have hrun : runStats t (c :: l) = runStats (updateStats t c.now c.adc) l := by
        simp only [runStats, List.foldl_cons]
      rw [hrun]
      exact ⟨le_trans a1 b1, le_trans a2 b2, le_trans a3 b3, le_trans a4 b4, le_trans a5 b5⟩
  obtain ⟨h1, h2, h3, h4, _⟩ := updateStats_peaks s now adc
  exact ⟨⟨h1, h2, h3, h4⟩, hstep s now adc, hseq ticks s⟩

/-- A tick whose system power does not exceed the peak. -/
theorem updateStats_system_no_exceed (s : Stats) (now : Nat) (adc : AdcReadings)
    (h : ¬ (getSystemPower adc).power > s._systemPeakPower) :
    (updateStats s now adc).sysPeakDebounce = 0 ∧
    (updateStats s now adc)._systemPeakPower = s._systemPeakPower := by
  constructor
  · show (if (getSystemPower adc).power > s._systemPeakPower then
      (if s.sysPeakDebounce + 1 ≥ 3 then (0 : Int) else s.sysPeakDebounce + 1) else 0) = 0
    rw [if_neg h]
  · show (if (getSystemPower adc).power > s._systemPeakPower then
      (if s.sysPeakDebounce + 1 ≥ 3 then (getSystemPower adc).power else s._systemPeakPower)
      else s._systemPeakPower) = s._systemPeakPower
    rw [if_neg h]

/-- A tick whose system power exceeds the peak for the first or second time in a
row. -/
theorem updateStats_system_exceed_pending (s : Stats) (now : Nat) (adc : AdcReadings)
    (h : (getSystemPower adc).power > s._systemPeakPower) (hd : ¬ s.sysPeakDebounce + 1 ≥ 3) :
    (updateStats s now adc).sysPeakDebounce = s.sysPeakDebounce + 1 ∧
    (updateStats s now adc)._systemPeakPower = s._systemPeakPower := by
  constructor
  · show (if (getSystemPower adc).power > s._systemPeakPower then
      (if s.sysPeakDebounce + 1 ≥ 3 then (0 : Int) else s.sysPeakDebounce + 1) else 0) = _
    rw [if_pos h, if_neg hd]
  · show (if (getSystemPower adc).power > s._systemPeakPower then
      (if s.sysPeakDebounce + 1 ≥ 3 then (getSystemPower adc).power else s._systemPeakPower)
      else s._systemPeakPower) = s._systemPeakPower
    rw [if_pos h, if_neg hd]

/-- A tick whose system power exceeds the peak with the counter reaching three. -/
theorem updateStats_system_exceed_commit (s : Stats) (now : Nat) (adc : AdcReadings)
    (h : (getSystemPower adc).power > s._systemPeakPower) (hd : s.sysPeakDebounce + 1 ≥ 3) :
    (updateStats s now adc).sysPeakDebounce = 0 ∧
    (updateStats s now adc)._systemPeakPower = (getSystemPower adc).power := by
  constructor
  · show (if (getSystemPower adc).power > s._systemPeakPower then
      (if s.sysPeakDebounce + 1 ≥ 3 then (0 : Int) else s.sysPeakDebounce + 1) else 0) = 0
    rw [if_pos h, if_pos hd]
  · show (if (getSystemPower adc).power > s._systemPeakPower then
      (if s.sysPeakDebounce + 1 ≥ 3 then (getSystemPower adc).power else s._systemPeakPower)
      else s._systemPeakPower) = _
    rw [if_pos h, if_pos hd]

/-- A tick that changes the system peak. -/
theorem updateStats_system_changed (s : Stats) (now : Nat) (adc : AdcReadings)
    (h : (updateStats s now adc)._systemPeakPower ≠ s._systemPeakPower) :
    (getSystemPower adc).power > s._systemPeakPower ∧ s.sysPeakDebounce ≥ 2 ∧
    (updateStats s now adc).sysPeakDebounce = 0 ∧
    (updateStats s now adc)._systemPeakPower = (getSystemPower adc).power := by
  by_cases he : (getSystemPower adc).power > s._systemPeakPower
  · by_cases hd : s.sysPeakDebounce + 1 ≥ 3
    · obtain ⟨h1, h2⟩ := updateStats_system_exceed_commit s now adc he hd
      exact ⟨he, by omega, h1, h2⟩
    · exact absurd (updateStats_system_exceed_pending s now adc he hd).2 h
  · exact absurd (updateStats_system_no_exceed s now adc he).2 h

/-- A tick that leaves the counter positive. -/
theorem updateStats_system_counting (s : Stats) (now : Nat) (adc : AdcReadings)
    (h : (updateStats s now adc).sysPeakDebounce ≥ 1) :
    (getSystemPower adc).power > s._systemPeakPower ∧
    (updateStats s now adc).sysPeakDebounce = s.sysPeakDebounce + 1 ∧
    (updateStats s now adc)._systemPeakPower = s._systemPeakPower := by
  by_cases he : (getSystemPower adc).power > s._systemPeakPower
  · by_cases hd : s.sysPeakDebounce + 1 ≥ 3
    · have h0 := (updateStats_system_exceed_commit s now adc he hd).1
      omega
    · obtain ⟨h1, h2⟩ := updateStats_system_exceed_pending s now adc he hd
      exact ⟨he, h1, h2⟩
  · have h0 := (updateStats_system_no_exceed s now adc he).1
    omega

/-- Two ticks in a row. -/
theorem runStats_two (s : Stats) (a b : StatsTick) :
    runStats s [a, b] = updateStats (updateStats s a.now a.adc) b.now b.adc := rfl

/-- C16. System-rail peak debounce: a tick changes the system `peak_power` only
when its system power exceeds the peak and it is the third consecutive tick to
do so (the two ticks before it exceeded the same, unchanged peak); a single
above-peak sample after a non-exceeding sample or a commit (counter `0`) leaves
the peak unchanged, as does a second one; a tick whose system power does not
exceed the peak resets the counter to `0`; two above-peak samples, a
non-exceeding one and two more above-peak samples commit nothing. -/
theorem system_peak_debounce (s : Stats) (a b c d e : StatsTick) :
    ((updateStats s a.now a.adc)._systemPeakPower ≠ s._systemPeakPower →
      (getSystemPower a.adc).power > s._systemPeakPower ∧ s.sysPeakDebounce ≥ 2 ∧
      (updateStats s a.now a.adc).sysPeakDebounce = 0) ∧
    ((runStats s [a, b, c])._systemPeakPower ≠ (runStats s [a, b])._systemPeakPower →
      (getSystemPower a.adc).power > s._systemPeakPower ∧
      (runStats s [a])._systemPeakPower = s._systemPeakPower ∧
      (getSystemPower b.adc).power > s._systemPeakPower ∧
      (runStats s [a, b])._systemPeakPower = s._systemPeakPower ∧
      (getSystemPower c.adc).power > s._systemPeakPower) ∧
    (¬ (getSystemPower a.adc).power > s._systemPeakPower →
      (updateStats s a.now a.adc).sysPeakDebounce = 0 ∧
      (updateStats s a.now a.adc)._systemPeakPower = s._systemPeakPower) ∧
    (s.sysPeakDebounce = 0 →
      (runStats s [a])._systemPeakPower = s._systemPeakPower ∧
      (runStats s [a, b])._systemPeakPower = s._systemPeakPower) ∧
    (s.sysPeakDebounce = 0 →
      (getSystemPower a.adc).power > s._systemPeakPower →
      (getSystemPower b.adc).power > s._systemPeakPower →
      ¬ (getSystemPower c.adc).power > s._systemPeakPower →
      (getSystemPower d.adc).power > s._systemPeakPower →
      (getSystemPower e.adc).power > s._systemPeakPower →
      (runStats s [a, b, c, d, e])._systemPeakPower = s._systemPeakPower) := by
  refine ⟨fun h => ?_, fun h => ?_, fun h => updateStats_system_no_exceed s a.now a.adc h,
    fun h0 => ?_, fun h0 ha hb hc hd he => ?_⟩
  · obtain ⟨h1, h2, h3, _⟩ := updateStats_system_changed s a.now a.adc h
    exact ⟨h1, h2, h3⟩
  · -- the third tick changed the peak, so the counter stood at two before it
    have h3 := updateStats_system_changed (runStats s [a, b]) c.now c.adc h
    have h2 := updateStats_system_counting (updateStats s a.now a.adc) b.now b.adc
      (by have := h3.2.1; rw [runStats_two] at this; omega)
    have h1 := updateStats_system_counting s a.now a.adc
      (by have := h3.2.1; rw [runStats_two] at this; omega)
    have e1 : (runStats s [a])._systemPeakPower = s._systemPeakPower := h1.2.2
    have e2 : (runStats s [a, b])._systemPeakPower = s._systemPeakPower := by
      rw [runStats_two, h2.2.2, h1.2.2]
    refine ⟨h1.1, e1, ?_, e2, ?_⟩
    · have := h2.1; rw [h1.2.2] at this; exact this
    · have := h3.1; rw [e2] at this; exact this
  · -- from counter zero neither the first nor the second tick can commit
    have e1 : (updateStats s a.now a.adc)._systemPeakPower = s._systemPeakPower := by
      by_contra hne
      have := (updateStats_system_changed s a.now a.adc hne).2.1
      omega
    have hd1 : (updateStats s a.now a.adc).sysPeakDebounce ≤ 1 := by
      by_cases hp : (updateStats s a.now a.adc).sysPeakDebounce ≥ 1
      · have := (updateStats_system_counting s a.now a.adc hp).2.1
        omega
      · omega
    refine ⟨e1, ?_⟩
    rw [runStats_two]
    by_contra hne
    have := (updateStats_system_changed (updateStats s a.now a.adc) b.now b.adc
      (by rw [e1]; exact hne)).2.1
    omega
  · -- step through the five ticks
    obtain ⟨d1, p1⟩ := updateStats_system_exceed_pending s a.now a.adc ha (by omega)
    obtain ⟨d2, p2⟩ := updateStats_system_exceed_pending (updateStats s a.now a.adc) b.now b.adc
      (by rw [p1]; exact hb) (by omega)
    obtain ⟨d3, p3⟩ := updateStats_system_no_exceed
      (updateStats (updateStats s a.now a.adc) b.now b.adc) c.now c.adc
      (by rw [p2, p1]; exact hc)
    obtain ⟨d4, p4⟩ := updateStats_system_exceed_pending
      (updateStats (updateStats (updateStats s a.now a.adc) b.now b.adc) c.now c.adc)
      d.now d.adc (by rw [p3, p2, p1]; exact hd) (by omega)
    obtain ⟨_, p5⟩ := updateStats_system_exceed_pending
      (updateStats (updateStats (updateStats (updateStats s a.now a.adc) b.now b.adc)
        c.now c.adc) d.now d.adc)
      e.now e.adc (by rw [p4, p3, p2, p1]; exact he) (by omega)
    show (updateStats (updateStats (updateStats (updateStats (updateStats s a.now a.adc)
      b.now b.adc) c.now c.adc) d.now d.adc) e.now e.adc)._systemPeakPower = _
    rw [p5, p4, p3, p2, p1]

/-- Witness of C16: from the constructed statistics (peak 0, counter 0) two 24 W
ticks, a 0 W tick and two more 24 W ticks leave the peak at 0. -/
theorem system_peak_debounce_witness :
    (runStats (initialStats 0)
      [⟨1000, loadReadings⟩, ⟨2000, loadReadings⟩, ⟨3000, idleReadings⟩,
        ⟨4000, loadReadings⟩, ⟨5000, loadReadings⟩])._systemPeakPower
      = (initialStats 0)._systemPeakPower ∧
    (runStats (initialStats 0) [⟨1000, loadReadings⟩])._systemPeakPower
      = (initialStats 0)._systemPeakPower ∧
    (updateStats (initialStats 0) 3000 idleReadings).sysPeakDebounce = 0 :=
  have hload : (getSystemPower loadReadings).power > (initialStats 0)._systemPeakPower := by
    norm_num [getSystemPower, loadReadings, initialStats]
  have hidle : ¬ (getSystemPower idleReadings).power > (initialStats 0)._systemPeakPower := by
    norm_num [getSystemPower, idleReadings, initialStats]
  ⟨(system_peak_debounce (initialStats 0) ⟨1000, loadReadings⟩ ⟨2000, loadReadings⟩
      ⟨3000, idleReadings⟩ ⟨4000, loadReadings⟩ ⟨5000, loadReadings⟩).2.2.2.2
      rfl hload hload hidle hload hload,
    ((system_peak_debounce (initialStats 0) ⟨1000, loadReadings⟩ ⟨2000, loadReadings⟩
      ⟨3000, idleReadings⟩ ⟨4000, loadReadings⟩ ⟨5000, loadReadings⟩).2.2.2.1 rfl).1,
    ((system_peak_debounce (initialStats 0) ⟨3000, idleReadings⟩ ⟨2000, loadReadings⟩
      ⟨3000, idleReadings⟩ ⟨4000, loadReadings⟩ ⟨5000, loadReadings⟩).2.2.1 hidle).1⟩

/-- C17. Battery charge and discharge ledgers are disjoint: in one tick with
battery current `i`, battery power `p = vbat * i` and elapsed hours `dt`, if
`i > 0` then `total_energy_wh += p*dt`, `amp_hours_charge += i*dt`,
`peak_charge_amps = max(old, i)` and the four discharge-side members are
unchanged; if `i < 0` then `watt_hours_discharge += (-p)*dt`,
`amp_hours_discharge += (-i)*dt`, `peak_discharge_amps = max(old, -i)`,
`peak_discharge_power = max(old, -p)` and the three charge-side members are
unchanged; if `i = 0` none of the seven changes.  Each accumulator receives a
single increment. -/
theorem battery_ledgers_disjoint (s : Stats) (now : Nat) (adc : AdcReadings) :
    (adc.ibat > 0 →
      (updateStats s now adc)._batteryTotalEnergyWh =
        s._batteryTotalEnergyWh + (adc.vbat * adc.ibat) *
          (((ulongSub now s._lastStatsUpdateMs : Nat) : ℚ) / 3600000) ∧
      (updateStats s now adc)._batteryAmpHoursCharge =
        s._batteryAmpHoursCharge + adc.ibat *
          (((ulongSub now s._lastStatsUpdateMs : Nat) : ℚ) / 3600000) ∧
      (updateStats s now adc)._batteryPeakChargeAmps = max s._batteryPeakChargeAmps adc.ibat ∧
      (updateStats s now adc)._batteryWattHoursDischarge = s._batteryWattHoursDischarge ∧
      (updateStats s now adc)._batteryAmpHoursDischarge = s._batteryAmpHoursDischarge ∧
      (updateStats s now adc)._batteryPeakDischargeAmps = s._batteryPeakDischargeAmps ∧
      (updateStats s now adc)._batteryPeakDischargePower = s._batteryPeakDischargePower) ∧
    (adc.ibat < 0 →
      (updateStats s now adc)._batteryWattHoursDischarge =
        s._batteryWattHoursDischarge + (-(adc.vbat * adc.ibat)) *
          (((ulongSub now s._lastStatsUpdateMs : Nat) : ℚ) / 3600000) ∧
      (updateStats s now adc)._batteryAmpHoursDischarge =
        s._batteryAmpHoursDischarge + (-adc.ibat) *
          (((ulongSub now s._lastStatsUpdateMs : Nat) : ℚ) / 3600000) ∧
      (updateStats s now adc)._batteryPeakDischargeAmps =
        max s._batteryPeakDischargeAmps (-adc.ibat) ∧
      (updateStats s now adc)._batteryPeakDischargePower =
        max s._batteryPeakDischargePower (-(adc.vbat * adc.ibat)) ∧
      (updateStats s now adc)._batteryTotalEnergyWh = s._batteryTotalEnergyWh ∧
      (updateStats s now adc)._batteryAmpHoursCharge = s._batteryAmpHoursCharge ∧
      (updateStats s now adc)._batteryPeakChargeAmps = s._batteryPeakChargeAmps) ∧
    (adc.ibat = 0 →
      (updateStats s now adc)._batteryTotalEnergyWh = s._batteryTotalEnergyWh ∧
      (updateStats s now adc)._batteryAmpHoursCharge = s._batteryAmpHoursCharge ∧
      (updateStats s now adc)._batteryPeakChargeAmps = s._batteryPeakChargeAmps ∧
      (updateStats s now adc)._batteryWattHoursDischarge = s._batteryWattHoursDischarge ∧
      (updateStats s now adc)._batteryAmpHoursDischarge = s._batteryAmpHoursDischarge ∧
      (updateStats s now adc)._batteryPeakDischargeAmps = s._batteryPeakDischargeAmps ∧
      (updateStats s now adc)._batteryPeakDischargePower = s._batteryPeakDischargePower) := by
  refine ⟨fun hi => ?_, fun hi => ?_, fun hi => ?_⟩
  · have hn : ¬ adc.ibat < 0 := not_lt.mpr (le_of_lt hi)
    refine ⟨?_, ?_, ?_, ?_, ?_, ?_, ?_⟩
    · simp only [updateStats, getBatteryPower, hi, if_true]
    · simp only [updateStats, getBatteryPower, hi, if_true]
    · simp only [updateStats, getBatteryPower, hi, if_true]
      exact ite_gt_eq_max _ _
    · simp only [updateStats, getBatteryPower, hn, if_false]
    · simp only [updateStats, getBatteryPower, hi, if_true]
    · simp only [updateStats, getBatteryPower, hi, if_true]
    · simp only [updateStats, getBatteryPower, hn, if_false]
  · have hn : ¬ adc.ibat > 0 := not_lt.mpr (le_of_lt hi)
    refine ⟨?_, ?_, ?_, ?_, ?_, ?_, ?_⟩
    · simp only [updateStats, getBatteryPower, hi, if_true]
    · simp only [updateStats, getBatteryPower, hn, if_false, hi, if_true]
    · simp only [updateStats, getBatteryPower, hn, if_false, hi, if_true]
      exact ite_gt_eq_max _ _
    · simp only [updateStats, getBatteryPower, hi, if_true]
      exact ite_gt_eq_max _ _
    · simp only [updateStats, getBatteryPower, hn, if_false]
    · simp only [updateStats, getBatteryPower, hn, if_false]
    · simp only [updateStats, getBatteryPower, hn, if_false]
  · have h1 : ¬ adc.ibat > 0 := by rw [hi]; exact lt_irrefl _
    have h2 : ¬ adc.ibat < 0 := by rw [hi]; exact lt_irrefl _
    refine ⟨?_, ?_, ?_, ?_, ?_, ?_, ?_⟩ <;>
      simp only [updateStats, getBatteryPower, h1, h2, if_false]

/-- Witness of C17: a charging tick, a discharging tick and a tick with no
battery current. -/
theorem battery_ledgers_disjoint_witness :
    (updateStats (initialStats 0) 3600000 chargingReadings)._batteryWattHoursDischarge =
      (initialStats 0)._batteryWattHoursDischarge ∧
    (updateStats (initialStats 0) 3600000 dischargingReadings)._batteryTotalEnergyWh =
      (initialStats 0)._batteryTotalEnergyWh ∧
    (updateStats (initialStats 0) 3600000 idleReadings)._batteryAmpHoursCharge =
      (initialStats 0)._batteryAmpHoursCharge :=
  ⟨((battery_ledgers_disjoint (initialStats 0) 3600000 chargingReadings).1
      (by norm_num [chargingReadings])).2.2.2.1,
    ((battery_ledgers_disjoint (initialStats 0) 3600000 dischargingReadings).2.1
      (by norm_num [dischargingReadings])).2.2.2.2.1,
    ((battery_ledgers_disjoint (initialStats 0) 3600000 idleReadings).2.2 rfl).2.1⟩

/-- C18. Reset operations zero exactly their own group: `resetVin1Stats`,
`resetVin2Stats`, `resetVbusStats`, `resetBatteryStats` and `resetSystemStats`
each set that rail's `peak_power` and `total_energy_wh` to `0` and leave every
other statistics member unchanged; `resetBatteryAmpStats` zeroes exactly the
two peak-amps and the two amp-hours members; `resetBatteryDischargePowerStats`
zeroes exactly `peak_discharge_power` and `watt_hours_discharge`.  In particular
`resetBatteryStats` does not touch the amp or discharge-power statistics. -/
theorem reset_zeroes_own_group (s : Stats) :
    ((resetVin1Stats s)._vin1PeakPower = 0 ∧ (resetVin1Stats s)._vin1TotalEnergyWh = 0 ∧
      (resetVin1Stats s)._vin2PeakPower = s._vin2PeakPower ∧
      (resetVin1Stats s)._vin2TotalEnergyWh = s._vin2TotalEnergyWh ∧
      (resetVin1Stats s)._vbusPeakPower = s._vbusPeakPower ∧
      (resetVin1Stats s)._vbusTotalEnergyWh = s._vbusTotalEnergyWh ∧
      (resetVin1Stats s)._batteryPeakPower = s._batteryPeakPower ∧
      (resetVin1Stats s)._batteryTotalEnergyWh = s._batteryTotalEnergyWh ∧
      (resetVin1Stats s)._systemPeakPower = s._systemPeakPower ∧
      (resetVin1Stats s)._systemTotalEnergyWh = s._systemTotalEnergyWh ∧
      (resetVin1Stats s)._lastStatsUpdateMs = s._lastStatsUpdateMs ∧
      (resetVin1Stats s)._batteryPeakChargeAmps = s._batteryPeakChargeAmps ∧
      (resetVin1Stats s)._batteryPeakDischargeAmps = s._batteryPeakDischargeAmps ∧
      (resetVin1Stats s)._batteryAmpHoursCharge = s._batteryAmpHoursCharge ∧
      (resetVin1Stats s)._batteryAmpHoursDischarge = s._batteryAmpHoursDischarge ∧
      (resetVin1Stats s)._batteryPeakDischargePower = s._batteryPeakDischargePower ∧
      (resetVin1Stats s)._batteryWattHoursDischarge = s._batteryWattHoursDischarge ∧
      (resetVin1Stats s).sysPeakDebounce = s.sysPeakDebounce) ∧
    ((resetVin2Stats s)._vin1PeakPower = s._vin1PeakPower ∧
      (resetVin2Stats s)._vin1TotalEnergyWh = s._vin1TotalEnergyWh ∧
      (resetVin2Stats s)._vin2PeakPower = 0 ∧ (resetVin2Stats s)._vin2TotalEnergyWh = 0 ∧
      (resetVin2Stats s)._vbusPeakPower = s._vbusPeakPower ∧
      (resetVin2Stats s)._vbusTotalEnergyWh = s._vbusTotalEnergyWh ∧
      (resetVin2Stats s)._batteryPeakPower = s._batteryPeakPower ∧
      (resetVin2Stats s)._batteryTotalEnergyWh = s._batteryTotalEnergyWh ∧
      (resetVin2Stats s)._systemPeakPower = s._systemPeakPower ∧
      (resetVin2Stats s)._systemTotalEnergyWh = s._systemTotalEnergyWh ∧
      (resetVin2Stats s)._lastStatsUpdateMs = s._lastStatsUpdateMs ∧
      (resetVin2Stats s)._batteryPeakChargeAmps = s._batteryPeakChargeAmps ∧
      (resetVin2Stats s)._batteryPeakDischargeAmps = s._batteryPeakDischargeAmps ∧
      (resetVin2Stats s)._batteryAmpHoursCharge = s._batteryAmpHoursCharge ∧
      (resetVin2Stats s)._batteryAmpHoursDischarge = s._batteryAmpHoursDischarge ∧
      (resetVin2Stats s)._batteryPeakDischargePower = s._batteryPeakDischargePower ∧
      (resetVin2Stats s)._batteryWattHoursDischarge = s._batteryWattHoursDischarge ∧
      (resetVin2Stats s).sysPeakDebounce = s.sysPeakDebounce) ∧
    ((resetVbusStats s)._vin1PeakPower = s._vin1PeakPower ∧
      (resetVbusStats s)._vin1TotalEnergyWh = s._vin1TotalEnergyWh ∧
      (resetVbusStats s)._vin2PeakPower = s._vin2PeakPower ∧
      (resetVbusStats s)._vin2TotalEnergyWh = s._vin2TotalEnergyWh ∧
      (resetVbusStats s)._vbusPeakPower = 0 ∧ (resetVbusStats s)._vbusTotalEnergyWh = 0 ∧
      (resetVbusStats s)._batteryPeakPower = s._batteryPeakPower ∧
      (resetVbusStats s)._batteryTotalEnergyWh = s._batteryTotalEnergyWh ∧
      (resetVbusStats s)._systemPeakPower = s._systemPeakPower ∧
      (resetVbusStats s)._systemTotalEnergyWh = s._systemTotalEnergyWh ∧
      (resetVbusStats s)._lastStatsUpdateMs = s._lastStatsUpdateMs ∧
      (resetVbusStats s)._batteryPeakChargeAmps = s._batteryPeakChargeAmps ∧
      (resetVbusStats s)._batteryPeakDischargeAmps = s._batteryPeakDischargeAmps ∧
      (resetVbusStats s)._batteryAmpHoursCharge = s._batteryAmpHoursCharge ∧
      (resetVbusStats s)._batteryAmpHoursDischarge = s._batteryAmpHoursDischarge ∧
      (resetVbusStats s)._batteryPeakDischargePower = s._batteryPeakDischargePower ∧
      (resetVbusStats s)._batteryWattHoursDischarge = s._batteryWattHoursDischarge ∧
      (resetVbusStats s).sysPeakDebounce = s.sysPeakDebounce) ∧
    ((resetBatteryStats s)._vin1PeakPower = s._vin1PeakPower ∧
      (resetBatteryStats s)._vin1TotalEnergyWh = s._vin1TotalEnergyWh ∧
      (resetBatteryStats s)._vin2PeakPower = s._vin2PeakPower ∧
      (resetBatteryStats s)._vin2TotalEnergyWh = s._vin2TotalEnergyWh ∧
      (resetBatteryStats s)._vbusPeakPower = s._vbusPeakPower ∧
      (resetBatteryStats s)._vbusTotalEnergyWh = s._vbusTotalEnergyWh ∧
      (resetBatteryStats s)._batteryPeakPower = 0 ∧
      (resetBatteryStats s)._batteryTotalEnergyWh = 0 ∧
      (resetBatteryStats s)._systemPeakPower = s._systemPeakPower ∧
      (resetBatteryStats s)._systemTotalEnergyWh = s._systemTotalEnergyWh ∧
      (resetBatteryStats s)._lastStatsUpdateMs = s._lastStatsUpdateMs ∧
      (resetBatteryStats s)._batteryPeakChargeAmps = s._batteryPeakChargeAmps ∧
      (resetBatteryStats s)._batteryPeakDischargeAmps = s._batteryPeakDischargeAmps ∧
      (resetBatteryStats s)._batteryAmpHoursCharge = s._batteryAmpHoursCharge ∧
      (resetBatteryStats s)._batteryAmpHoursDischarge = s._batteryAmpHoursDischarge ∧
      (resetBatteryStats s)._batteryPeakDischargePower = s._batteryPeakDischargePower ∧
      (resetBatteryStats s)._batteryWattHoursDischarge = s._batteryWattHoursDischarge ∧
      (resetBatteryStats s).sysPeakDebounce = s.sysPeakDebounce) ∧
    ((resetSystemStats s)._vin1PeakPower = s._vin1PeakPower ∧
      (resetSystemStats s)._vin1TotalEnergyWh = s._vin1TotalEnergyWh ∧
      (resetSystemStats s)._vin2PeakPower = s._vin2PeakPower ∧
      (resetSystemStats s)._vin2TotalEnergyWh = s._vin2TotalEnergyWh ∧
      (resetSystemStats s)._vbusPeakPower = s._vbusPeakPower ∧
      (resetSystemStats s)._vbusTotalEnergyWh = s._vbusTotalEnergyWh ∧
      (resetSystemStats s)._batteryPeakPower = s._batteryPeakPower ∧
      (resetSystemStats s)._batteryTotalEnergyWh = s._batteryTotalEnergyWh ∧
      (resetSystemStats s)._systemPeakPower = 0 ∧ (resetSystemStats s)._systemTotalEnergyWh = 0 ∧
      (resetSystemStats s)._lastStatsUpdateMs = s._lastStatsUpdateMs ∧
      (resetSystemStats s)._batteryPeakChargeAmps = s._batteryPeakChargeAmps ∧
      (resetSystemStats s)._batteryPeakDischargeAmps = s._batteryPeakDischargeAmps ∧
      (resetSystemStats s)._batteryAmpHoursCharge = s._batteryAmpHoursCharge ∧
      (resetSystemStats s)._batteryAmpHoursDischarge = s._batteryAmpHoursDischarge ∧
      (resetSystemStats s)._batteryPeakDischargePower = s._batteryPeakDischargePower ∧
      (resetSystemStats s)._batteryWattHoursDischarge = s._batteryWattHoursDischarge ∧
      (resetSystemStats s).sysPeakDebounce = s.sysPeakDebounce) ∧
    ((resetBatteryAmpStats s)._vin1PeakPower = s._vin1PeakPower ∧
      (resetBatteryAmpStats s)._vin1TotalEnergyWh = s._vin1TotalEnergyWh ∧
      (resetBatteryAmpStats s)._vin2PeakPower = s._vin2PeakPower ∧
      (resetBatteryAmpStats s)._vin2TotalEnergyWh = s._vin2TotalEnergyWh ∧
      (resetBatteryAmpStats s)._vbusPeakPower = s._vbusPeakPower ∧
      (resetBatteryAmpStats s)._vbusTotalEnergyWh = s._vbusTotalEnergyWh ∧
      (resetBatteryAmpStats s)._batteryPeakPower = s._batteryPeakPower ∧
      (resetBatteryAmpStats s)._batteryTotalEnergyWh = s._batteryTotalEnergyWh ∧
      (resetBatteryAmpStats s)._systemPeakPower = s._systemPeakPower ∧
      (resetBatteryAmpStats s)._systemTotalEnergyWh = s._systemTotalEnergyWh ∧
      (resetBatteryAmpStats s)._lastStatsUpdateMs = s._lastStatsUpdateMs ∧
      (resetBatteryAmpStats s)._batteryPeakChargeAmps = 0 ∧
      (resetBatteryAmpStats s)._batteryPeakDischargeAmps = 0 ∧
      (resetBatteryAmpStats s)._batteryAmpHoursCharge = 0 ∧
      (resetBatteryAmpStats s)._batteryAmpHoursDischarge = 0 ∧
      (resetBatteryAmpStats s)._batteryPeakDischargePower = s._batteryPeakDischargePower ∧
      (resetBatteryAmpStats s)._batteryWattHoursDischarge = s._batteryWattHoursDischarge ∧
      (resetBatteryAmpStats s).sysPeakDebounce = s.sysPeakDebounce) ∧
    ((resetBatteryDischargePowerStats s)._vin1PeakPower = s._vin1PeakPower ∧
      (resetBatteryDischargePowerStats s)._vin1TotalEnergyWh = s._vin1TotalEnergyWh ∧
      (resetBatteryDischargePowerStats s)._vin2PeakPower = s._vin2PeakPower ∧
      (resetBatteryDischargePowerStats s)._vin2TotalEnergyWh = s._vin2TotalEnergyWh ∧
      (resetBatteryDischargePowerStats s)._vbusPeakPower = s._vbusPeakPower ∧
      (resetBatteryDischargePowerStats s)._vbusTotalEnergyWh = s._vbusTotalEnergyWh ∧
      (resetBatteryDischargePowerStats s)._batteryPeakPower = s._batteryPeakPower ∧
      (resetBatteryDischargePowerStats s)._batteryTotalEnergyWh = s._batteryTotalEnergyWh ∧
      (resetBatteryDischargePowerStats s)._systemPeakPower = s._systemPeakPower ∧
      (resetBatteryDischargePowerStats s)._systemTotalEnergyWh = s._systemTotalEnergyWh ∧
      (resetBatteryDischargePowerStats s)._lastStatsUpdateMs = s._lastStatsUpdateMs ∧
      (resetBatteryDischargePowerStats s)._batteryPeakChargeAmps = s._batteryPeakChargeAmps ∧
      (resetBatteryDischargePowerStats s)._batteryPeakDischargeAmps = s._batteryPeakDischargeAmps ∧
      (resetBatteryDischargePowerStats s)._batteryAmpHoursCharge = s._batteryAmpHoursCharge ∧
      (resetBatteryDischargePowerStats s)._batteryAmpHoursDischarge = s._batteryAmpHoursDischarge ∧
      (resetBatteryDischargePowerStats s)._batteryPeakDischargePower = 0 ∧
      (resetBatteryDischargePowerStats s)._batteryWattHoursDischarge = 0 ∧
      (resetBatteryDischargePowerStats s).sysPeakDebounce = s.sysPeakDebounce) :=
  ⟨⟨rfl, rfl, rfl, rfl, rfl, rfl, rfl, rfl, rfl, rfl, rfl, rfl, rfl, rfl, rfl, rfl, rfl, rfl⟩,
    ⟨rfl, rfl, rfl, rfl, rfl, rfl, rfl, rfl, rfl, rfl, rfl, rfl, rfl, rfl, rfl, rfl, rfl, rfl⟩,
    ⟨rfl, rfl, rfl, rfl, rfl, rfl, rfl, rfl, rfl, rfl, rfl, rfl, rfl, rfl, rfl, rfl, rfl, rfl⟩,
    ⟨rfl, rfl, rfl, rfl, rfl, rfl, rfl, rfl, rfl, rfl, rfl, rfl, rfl, rfl, rfl, rfl, rfl, rfl⟩,
    ⟨rfl, rfl, rfl, rfl, rfl, rfl, rfl, rfl, rfl, rfl, rfl, rfl, rfl, rfl, rfl, rfl, rfl, rfl⟩,
    ⟨rfl, rfl, rfl, rfl, rfl, rfl, rfl, rfl, rfl, rfl, rfl, rfl, rfl, rfl, rfl, rfl, rfl, rfl⟩,
    ⟨rfl, rfl, rfl, rfl, rfl, rfl, rfl, rfl, rfl, rfl, rfl, rfl, rfl, rfl, rfl, rfl, rfl, rfl⟩⟩

/-- The setters whose range test is the one of `validateConfig` (or narrower)
refuse every argument that `validateConfig` rejects for their field and leave
the configuration as it was. -/
theorem config_setters_reject (c : ModbeeMpptConfig) (x y : ℚ) (n k : Nat)
    (type : modbee_battery_type_t) (write_ok : Bool) :
    (n < 1 ∨ n > 4 → c.setBatteryType type n = (false, c)) ∧
    (x < 3 ∨ x > 94/5 → c.setChargeVoltage x = (false, c)) ∧
    (x < 1/10 ∨ x > 5 → c.setChargeCurrent x = (false, c)) ∧
    (x < 1/25 ∨ x > 1 → c.setTerminationCurrent x = (false, c)) ∧
    (x < 1/20 ∨ x > 4/5 → c.setRechargeThreshold x = (false, c)) ∧
    (x < 1/25 ∨ x > 2 → c.setPrechargeCurrent x = (false, c)) ∧
    ((x < 18/5 ∨ x > 22) ∨ (y < 1/10 ∨ y > 13/4) → c.setInputLimits x y = (false, c)) ∧
    (x < 6 ∨ x > 26 → c.setVACOVP x = (false, c)) ∧
    ((n < 1000 ∨ n > 300000) ∨ (k < 5000 ∨ k > 600000) →
      c.setLoopIntervals n k = (false, c)) ∧
    (x < 1/10 ∨ x > 5 → c.updateChargeCurrent x write_ok = (false, c)) ∧
    (x < 1/25 ∨ x > 1 → c.updateTerminationCurrent x write_ok = (false, c)) ∧
    (n < 1000 ∨ n > 300000 → c.updateBatteryCheckInterval n write_ok = (false, c)) ∧
    (n < 5000 ∨ n > 600000 → c.updateSOCCheckInterval n write_ok = (false, c)) ∧
    (n < 1000 ∨ n > 600000 → c.updateConfigApplyInterval n write_ok = (false, c)) := by
  refine ⟨fun h => ?_, fun h => ?_, fun h => ?_, fun h => ?_, fun h => ?_, fun h => ?_,
    fun h => ?_, fun h => ?_, fun h => ?_, fun h => ?_, fun h => ?_, fun h => ?_, fun h => ?_,
    fun h => ?_⟩
  · simp only [ModbeeMpptConfig.setBatteryType, h, if_true]
  · simp only [ModbeeMpptConfig.setChargeVoltage, h, if_true]
  · simp only [ModbeeMpptConfig.setChargeCurrent, h, if_true]
  · simp only [ModbeeMpptConfig.setTerminationCurrent, h, if_true]
  · simp only [ModbeeMpptConfig.setRechargeThreshold, h, if_true]
  · simp only [ModbeeMpptConfig.setPrechargeCurrent, h, if_true]
  · unfold ModbeeMpptConfig.setInputLimits
    rcases h with h | h
    · rw [if_pos h]
    · split_ifs <;> rfl
  · simp only [ModbeeMpptConfig.setVACOVP, h, if_true]
  · unfold ModbeeMpptConfig.setLoopIntervals
    rcases h with h | h
    · rw [if_pos h]
    · split_ifs <;> rfl
  · simp only [ModbeeMpptConfig.updateChargeCurrent, h, if_true]
  · have h' : x < 1/20 ∨ x > 1 := by
      rcases h with h | h
      · left; exact lt_trans h (by norm_num)
      · right; exact h
    simp only [ModbeeMpptConfig.updateTerminationCurrent, h', if_true]
  · simp only [ModbeeMpptConfig.updateBatteryCheckInterval, h, if_true]
  · simp only [ModbeeMpptConfig.updateSOCCheckInterval, h, if_true]
  · simp only [ModbeeMpptConfig.updateConfigApplyInterval, h, if_true]

/-- C20 fails on the code for `updateChargeVoltage` and `updateInputCurrentLimit`.
On the valid default configuration `updateChargeVoltage(20.0)` (a value
`validateConfig` rejects, and `setChargeVoltage` refuses) stores 20.0 in
`charge_voltage` before `saveConfig` rejects the now invalid configuration, and
`updateInputCurrentLimit(4.0)` likewise stores 4.0 in `input_current_limit`:
both return false with the stored configuration changed and invalid. -/
theorem update_setters_store_rejected_values :
    validateConfig defaultConfig.data = true ∧
    defaultConfig.setChargeVoltage 20 = (false, defaultConfig) ∧
    (defaultConfig.updateChargeVoltage 20 true).1 = false ∧
    (defaultConfig.updateChargeVoltage 20 true).2.data.charge_voltage = 20 ∧
    (defaultConfig.updateChargeVoltage 20 true).2 ≠ defaultConfig ∧
    validateConfig (defaultConfig.updateChargeVoltage 20 true).2.data = false ∧
    (defaultConfig.updateInputCurrentLimit 4 true).1 = false ∧
    (defaultConfig.updateInputCurrentLimit 4 true).2.data.input_current_limit = 4 ∧
    (defaultConfig.updateInputCurrentLimit 4 true).2 ≠ defaultConfig ∧
    validateConfig (defaultConfig.updateInputCurrentLimit 4 true).2.data = false := by
  have hv : (defaultConfig.updateChargeVoltage 20 true).2.data.charge_voltage = 20 := by
    norm_num [ModbeeMpptConfig.updateChargeVoltage]
  have hi : (defaultConfig.updateInputCurrentLimit 4 true).2.data.input_current_limit = 4 := by
    norm_num [ModbeeMpptConfig.updateInputCurrentLimit]
  refine ⟨?_, ?_, ?_, hv, ?_, ?_, ?_, hi, ?_, ?_⟩
  · norm_num [validateConfig, validateBatteryConfig, validateChargingConfig, validateInputConfig,
      validateTimerConfig, validateIntervalConfig, defaultConfig, setDefaults]
  · norm_num [ModbeeMpptConfig.setChargeVoltage]
  · norm_num [ModbeeMpptConfig.updateChargeVoltage, saveConfig, validateConfig,
      validateBatteryConfig, defaultConfig, setDefaults]
  · intro h
    rw [h] at hv
    norm_num [defaultConfig, setDefaults] at hv
  · norm_num [ModbeeMpptConfig.updateChargeVoltage, validateConfig,
      validateBatteryConfig, defaultConfig, setDefaults]
  · norm_num [ModbeeMpptConfig.updateInputCurrentLimit, saveConfig, validateConfig,
      validateBatteryConfig, validateChargingConfig, validateInputConfig, defaultConfig,
      setDefaults]
  · intro h
    rw [h] at hi
    norm_num [defaultConfig, setDefaults] at hi
  · norm_num [ModbeeMpptConfig.updateInputCurrentLimit, validateConfig,
      validateBatteryConfig, validateChargingConfig, validateInputConfig, defaultConfig,
      setDefaults]

/-- The blocks of `loop()` before the low-power-boot arbitration leave the flag
and the threshold alone; only the SOC refresh writes the cached SOC. -/
theorem loop_blocks_before_frame (m : ModbeeMPPT) (inp : LoopInput) :
    ((loop_statsAndUpdate m inp)._lowPowerBootMode = m._lowPowerBootMode ∧
      (loop_statsAndUpdate m inp)._lowPowerSocThreshold = m._lowPowerSocThreshold ∧
      (loop_statsAndUpdate m inp)._cachedSOC = m._cachedSOC) ∧
    ((loop_batteryCheck m inp)._lowPowerBootMode = m._lowPowerBootMode ∧
      (loop_batteryCheck m inp)._lowPowerSocThreshold = m._lowPowerSocThreshold ∧
      (loop_batteryCheck m inp)._cachedSOC = m._cachedSOC) ∧
    ((loop_socCheck m inp)._lowPowerBootMode = m._lowPowerBootMode ∧
      (loop_socCheck m inp)._lowPowerSocThreshold = m._lowPowerSocThreshold) ∧
    ((loop_ledUpdate m inp)._lowPowerBootMode = m._lowPowerBootMode ∧
      (loop_ledUpdate m inp)._lowPowerSocThreshold = m._lowPowerSocThreshold ∧
      (loop_ledUpdate m inp)._cachedSOC = m._cachedSOC) := by
  refine ⟨⟨?_, ?_, ?_⟩, ⟨?_, ?_, ?_⟩, ⟨?_, ?_⟩, ⟨?_, ?_, ?_⟩⟩
  · simp only [loop_statsAndUpdate]; split_ifs <;> rfl
  · simp only [loop_statsAndUpdate]; split_ifs <;> rfl
  · simp only [loop_statsAndUpdate]; split_ifs <;> rfl
  · simp only [loop_batteryCheck]; split_ifs <;> rfl
  · simp only [loop_batteryCheck]; split_ifs <;> rfl
  · simp only [loop_batteryCheck]; split_ifs <;> rfl
  · simp only [loop_socCheck]; split_ifs <;> rfl
  · simp only [loop_socCheck]; split_ifs <;> rfl
  · simp only [loop_ledUpdate]; split_ifs <;> rfl
  · simp only [loop_ledUpdate]; split_ifs <;> rfl
  · simp only [loop_ledUpdate]; split_ifs <;> rfl

/-- The blocks of `loop()` after the low-power-boot arbitration leave the flag,
the threshold and the cached SOC alone. -/
theorem loop_blocks_after_frame (m : ModbeeMPPT) (inp : LoopInput) :
    ((loop_criticalSettings m inp)._lowPowerBootMode = m._lowPowerBootMode ∧
      (loop_criticalSettings m inp)._lowPowerSocThreshold = m._lowPowerSocThreshold ∧
      (loop_criticalSettings m inp)._cachedSOC = m._cachedSOC) ∧
    ((loop_configApply m inp)._lowPowerBootMode = m._lowPowerBootMode ∧
      (loop_configApply m inp)._lowPowerSocThreshold = m._lowPowerSocThreshold ∧
      (loop_configApply m inp)._cachedSOC = m._cachedSOC) ∧
    ((loop_statsSave m inp)._lowPowerBootMode = m._lowPowerBootMode ∧
      (loop_statsSave m inp)._lowPowerSocThreshold = m._lowPowerSocThreshold ∧
      (loop_statsSave m inp)._cachedSOC = m._cachedSOC) := by
  refine ⟨⟨?_, ?_, ?_⟩, ⟨?_, ?_, ?_⟩, ⟨?_, ?_, ?_⟩⟩
  · simp only [loop_criticalSettings]; split_ifs <;> rfl
  · simp only [loop_criticalSettings]; split_ifs <;> rfl
  · simp only [loop_criticalSettings]; split_ifs <;> rfl
  · simp only [loop_configApply, applyToMPPT]; split_ifs <;> rfl
  · simp only [loop_configApply, applyToMPPT]; split_ifs <;> rfl
  · simp only [loop_configApply, applyToMPPT]; split_ifs <;> rfl
  · simp only [loop_statsSave]; split_ifs <;> rfl
  · simp only [loop_statsSave]; split_ifs <;> rfl
  · simp only [loop_statsSave]; split_ifs <;> rfl

/-- The low-power-boot arbitration block on its own. -/
theorem loop_lowPowerBoot_spec (m : ModbeeMPPT) (inp : LoopInput) :
    ((loop_lowPowerBoot m inp)._lowPowerBootMode = true ↔
      (m._lowPowerBootMode = true ∧
        ¬ (isCharging inp.status1 = true ∧ m._cachedSOC > m._lowPowerSocThreshold + 3))) ∧
    (loop_lowPowerBoot m inp)._lowPowerSocThreshold = m._lowPowerSocThreshold ∧
    (loop_lowPowerBoot m inp)._cachedSOC = m._cachedSOC := by
  refine ⟨?_, ?_, ?_⟩
  · unfold loop_lowPowerBoot
    split_ifs with h1 h2 h3
    · constructor
      · intro h; exact absurd h (by simp)
      · intro h; exact absurd ⟨h2, h3⟩ h.2
    · exact ⟨fun _ => ⟨h1, fun h => h3 h.2⟩, fun _ => h1⟩
    · exact ⟨fun _ => ⟨h1, fun h => h2 h.1⟩, fun _ => h1⟩
    · exact ⟨fun h => absurd h h1, fun h => absurd h.1 h1⟩
  · simp only [loop_lowPowerBoot]; split_ifs <;> rfl
  · simp only [loop_lowPowerBoot]; split_ifs <;> rfl

/-- The web-server block writes none of the scheduler members, the configuration,
the charge-enable bit or the TBV state. -/
theorem loop_webServer_frame (y : ModbeeMPPT) (inp : LoopInput) :
    (loop_webServer y inp)._lowPowerBootMode = y._lowPowerBootMode ∧
    (loop_webServer y inp)._lowPowerSocThreshold = y._lowPowerSocThreshold ∧
    (loop_webServer y inp)._cachedSOC = y._cachedSOC ∧
    (loop_webServer y inp).hw_charge_enable = y.hw_charge_enable ∧
    (loop_webServer y inp).lastSOCCheck = y.lastSOCCheck ∧
    (loop_webServer y inp)._socCheckInterval = y._socCheckInterval ∧
    (loop_webServer y inp).lastBatteryCheck = y.lastBatteryCheck ∧
    (loop_webServer y inp)._batteryCheckInterval = y._batteryCheckInterval ∧
    (loop_webServer y inp)._configApplyInterval = y._configApplyInterval ∧
    (loop_webServer y inp).lastConfigApply = y.lastConfigApply ∧
    (loop_webServer y inp).config = y.config ∧
    (loop_webServer y inp).tbv._tbv_state = y.tbv._tbv_state := by
  simp only [loop_webServer, detectBatteryConnected]
  split_ifs <;> exact ⟨rfl, rfl, rfl, rfl, rfl, rfl, rfl, rfl, rfl, rfl, rfl, rfl⟩

/-- The web-server block and the forced-discharge bit: a broadcast to at least
one client ends with the bit cleared, otherwise the TBV members are untouched. -/
theorem loop_webServer_bits (y : ModbeeMPPT) (inp : LoopInput) :
    (loop_webServer y inp).tbv.hw_force_batt_discharge =
      (if inp.webServerRuns = true ∧ ulongSub inp.broadcastMillis y.lastBroadcast > 1000 ∧
          inp.webSocketCount > 0 then false
      else y.tbv.hw_force_batt_discharge) ∧
    (¬ (inp.webServerRuns = true ∧ ulongSub inp.broadcastMillis y.lastBroadcast > 1000 ∧
          inp.webSocketCount > 0) → (loop_webServer y inp).tbv = y.tbv) ∧
    (inp.webServerRuns = false → loop_webServer y inp = y) := by
  refine ⟨?_, ?_, ?_⟩
  · simp only [loop_webServer, detectBatteryConnected]
    split_ifs with h1 h2 h3 h4 h5 h6 <;> first | rfl | (exfalso; tauto)
  · intro h
    simp only [loop_webServer, detectBatteryConnected]
    split_ifs with h1 h2 h3 <;> first | rfl | (exfalso; exact h ⟨h1, h2, h3⟩)
  · intro h
    simp only [loop_webServer, h, Bool.false_eq_true, if_false]

/-- The flag, the threshold and the cached SOC after a whole pass, in terms of
the state that reaches the low-power-boot block. -/
theorem loop_lowPower_fields (m : ModbeeMPPT) (inp : LoopInput) :
    ((loop m inp)._lowPowerBootMode = true ↔
      (m._lowPowerBootMode = true ∧
        ¬ (isCharging inp.status1 = true ∧
          (loop m inp)._cachedSOC > m._lowPowerSocThreshold + 3))) ∧
    (loop m inp)._lowPowerSocThreshold = m._lowPowerSocThreshold ∧
    (loop m inp)._cachedSOC =
      (loop_socCheck (loop_batteryCheck (loop_statsAndUpdate m inp) inp) inp)._cachedSOC := by
  obtain ⟨⟨a1, a2, _⟩, _, _, _⟩ := loop_blocks_before_frame m inp
  obtain ⟨_, ⟨b1, b2, _⟩, _, _⟩ := loop_blocks_before_frame (loop_statsAndUpdate m inp) inp
  obtain ⟨_, _, ⟨c1, c2⟩, _⟩ :=
    loop_blocks_before_frame (loop_batteryCheck (loop_statsAndUpdate m inp) inp) inp
  obtain ⟨_, _, _, ⟨d1, d2, d3⟩⟩ := loop_blocks_before_frame
    (loop_socCheck (loop_batteryCheck (loop_statsAndUpdate m inp) inp) inp) inp
  obtain ⟨e1, e2, e3⟩ := loop_lowPowerBoot_spec (loop_ledUpdate
    (loop_socCheck (loop_batteryCheck (loop_statsAndUpdate m inp) inp) inp) inp) inp
  obtain ⟨⟨f1, f2, f3⟩, _, _⟩ := loop_blocks_after_frame (loop_lowPowerBoot (loop_ledUpdate
    (loop_socCheck (loop_batteryCheck (loop_statsAndUpdate m inp) inp) inp) inp) inp) inp
  obtain ⟨_, ⟨g1, g2, g3⟩, _⟩ := loop_blocks_after_frame (loop_criticalSettings
    (loop_lowPowerBoot (loop_ledUpdate
      (loop_socCheck (loop_batteryCheck (loop_statsAndUpdate m inp) inp) inp) inp) inp)
    inp) inp
  obtain ⟨_, _, ⟨h1, h2, h3⟩⟩ := loop_blocks_after_frame (loop_configApply
    (loop_criticalSettings (loop_lowPowerBoot (loop_ledUpdate
      (loop_socCheck (loop_batteryCheck (loop_statsAndUpdate m inp) inp) inp) inp) inp)
    inp) inp) inp
  have hflag : (loop m inp)._lowPowerBootMode = (loop_lowPowerBoot (loop_ledUpdate
      (loop_socCheck (loop_batteryCheck (loop_statsAndUpdate m inp) inp) inp) inp)
      inp)._lowPowerBootMode := by
    show (loop_webServer (loop_statsSave _ inp) inp)._lowPowerBootMode = _
    rw [(loop_webServer_frame _ inp).1, h1, g1, f1]
  have hthr : (loop m inp)._lowPowerSocThreshold = m._lowPowerSocThreshold := by
    show (loop_webServer (loop_statsSave _ inp) inp)._lowPowerSocThreshold = _
    rw [(loop_webServer_frame _ inp).2.1, h2, g2, f2, e2, d2, c2, b2, a2]
  have hsoc : (loop m inp)._cachedSOC =
      (loop_socCheck (loop_batteryCheck (loop_statsAndUpdate m inp) inp) inp)._cachedSOC := by
    show (loop_webServer (loop_statsSave _ inp) inp)._cachedSOC = _
    rw [(loop_webServer_frame _ inp).2.2.1, h3, g3, f3, e3, d3]
  refine ⟨?_, hthr, hsoc⟩
  rw [hflag, hsoc, e1, d1, d2, d3, c1, c2, b1, b2, a1, a2]

/-- Two passes in a row. -/
theorem runLoop_cons (m : ModbeeMPPT) (i : LoopInput) (inps : List LoopInput) :
    runLoop m (i :: inps) = runLoop (loop m i) inps := by
  simp only [runLoop, List.foldl_cons]

/-- C19. Low-power-boot exit with hysteresis: after every loop pass the flag is
true iff it was true before the pass and not (`isCharging()` and cached SOC >
threshold + 3), the cached SOC being the one left by the pass; the loop never
sets the flag, so once cleared it stays cleared over any sequence of passes;
with threshold 5 and charging throughout, passes that leave the cached SOC at 3,
then 6, then 9 keep the mode active at 3 and at 6 and clear it at 9. -/
theorem low_power_boot_exit (m : ModbeeMPPT) (inp i1 i2 i3 : LoopInput)
    (inps : List LoopInput) :
    ((loop m inp)._lowPowerBootMode = true ↔
      (m._lowPowerBootMode = true ∧
        ¬ (isCharging inp.status1 = true ∧
          (loop m inp)._cachedSOC > m._lowPowerSocThreshold + 3))) ∧
    (m._lowPowerBootMode = false → (runLoop m inps)._lowPowerBootMode = false) ∧
    (m._lowPowerBootMode = true → m._lowPowerSocThreshold = 5 →
      isCharging i1.status1 = true → isCharging i2.status1 = true →
      isCharging i3.status1 = true →
      (runLoop m [i1])._cachedSOC = 3 → (runLoop m [i1, i2])._cachedSOC = 6 →
      (runLoop m [i1, i2, i3])._cachedSOC = 9 →
      (runLoop m [i1])._lowPowerBootMode = true ∧
      (runLoop m [i1, i2])._lowPowerBootMode = true ∧
      (runLoop m [i1, i2, i3])._lowPowerBootMode = false) := by
  refine ⟨(loop_lowPower_fields m inp).1, ?_, ?_⟩
  · intro h0
    have hseq : ∀ (l : List LoopInput) (t : ModbeeMPPT),
        t._lowPowerBootMode = false → (runLoop t l)._lowPowerBootMode = false := by
      intro l
      induction l with
      | nil => intro t ht; exact ht
      | cons i l ih =>
        intro t ht
        rw [runLoop_cons]
        apply ih
        by_contra hne
        have htrue : (loop t i)._lowPowerBootMode = true := by
          cases hb : (loop t i)._lowPowerBootMode
          · exact absurd hb hne
          · rfl
        have := ((loop_lowPower_fields t i).1.mp htrue).1
        rw [ht] at this
        exact Bool.false_ne_true this
    exact hseq inps m h0
  · intro hf ht c1 c2 c3 s1 s2 s3
    have r1 : runLoop m [i1] = loop m i1 := by
      simp only [runLoop, List.foldl_cons, List.foldl_nil]
    have r2 : runLoop m [i1, i2] = loop (loop m i1) i2 := by
      simp only [runLoop, List.foldl_cons, List.foldl_nil]
    have r3 : runLoop m [i1, i2, i3] = loop (loop (loop m i1) i2) i3 := by
      simp only [runLoop, List.foldl_cons, List.foldl_nil]
    rw [r1] at s1
    rw [r2] at s2
    rw [r3] at s3
    rw [r1, r2, r3]
    have t1 := (loop_lowPower_fields m i1).2.1
    have t2 := (loop_lowPower_fields (loop m i1) i2).2.1
    have f1 : (loop m i1)._lowPowerBootMode = true := by
      apply (loop_lowPower_fields m i1).1.mpr
      refine ⟨hf, fun h => ?_⟩
      have := h.2
      rw [s1, ht] at this
      norm_num at this
    have f2 : (loop (loop m i1) i2)._lowPowerBootMode = true := by
      apply (loop_lowPower_fields (loop m i1) i2).1.mpr
      refine ⟨f1, fun h => ?_⟩
      have := h.2
      rw [s2, t1, ht] at this
      norm_num at this
    refine ⟨f1, f2, ?_⟩
    cases hb : (loop (loop (loop m i1) i2) i3)._lowPowerBootMode
    · rfl
    · exfalso
      have := ((loop_lowPower_fields (loop (loop m i1) i2) i3).1.mp hb).2
      apply this
      refine ⟨c3, ?_⟩
      rw [s3, t2, t1, ht]
      norm_num

/-- Witness of C19: the controller in low-power boot (threshold 5, cached SOC 3)
while fast charging.  The pass at 1 s leaves the cached SOC at 3; the SOC tick
at 60 s refreshes it to 6 from the stored reading of 10.276 V; the SOC tick at
120 s follows the ReadVoltage step that stored 10.414 V and refreshes it to 9,
which clears the mode. -/
theorem low_power_boot_exit_witness :
    (runLoop lowPowerController [chargingPass 1000 12])._lowPowerBootMode = true ∧
    (runLoop lowPowerController
      [chargingPass 1000 12, chargingPass 60000 12])._lowPowerBootMode = true ∧
    (runLoop lowPowerController
      [chargingPass 1000 12, chargingPass 60000 12,
        chargingPass 120000 (5207/500)])._lowPowerBootMode = false :=
  have n1 : ¬ TBVS_READ_VOLTAGE = TBVS_IDLE := by decide
  have n2 : ¬ TBVS_WAIT_BEFORE_RESTORE = TBVS_IDLE := by decide
  have hc : isCharging 96 = true := by decide
  have s1 : (runLoop lowPowerController [chargingPass 1000 12])._cachedSOC = 3 := by
    simp only [runLoop, List.foldl_cons, List.foldl_nil]
    rw [(loop_lowPower_fields _ _).2.2]
    simp [loop_socCheck, loop_batteryCheck, loop_statsAndUpdate, lowPowerController,
      chargingPass, ulongSub]
  have s2 : (runLoop lowPowerController
      [chargingPass 1000 12, chargingPass 60000 12])._cachedSOC = 6 := by
    simp only [runLoop, List.foldl_cons, List.foldl_nil]
    rw [(loop_lowPower_fields _ _).2.2]
    simp [loop, loop_socCheck, loop_batteryCheck, loop_statsAndUpdate, loop_ledUpdate,
      loop_lowPowerBoot, loop_criticalSettings, loop_configApply, loop_statsSave,
      loop_webServer, lowPowerController, chargingPass, ulongSub, update, updateTrueBatteryVoltage,
      getActualBatterySOC, getTrueBatteryVoltage, calculateBatterySOC, defaultRange, isCharging,
      getStatus1_charge_state, n1]
    norm_num [n1]
  have s3 : (runLoop lowPowerController
      [chargingPass 1000 12, chargingPass 60000 12,
        chargingPass 120000 (5207/500)])._cachedSOC = 9 := by
    simp only [runLoop, List.foldl_cons, List.foldl_nil]
    rw [(loop_lowPower_fields _ _).2.2]
    simp [loop, loop_socCheck, loop_batteryCheck, loop_statsAndUpdate, loop_ledUpdate,
      loop_lowPowerBoot, loop_criticalSettings, loop_configApply, loop_statsSave,
      loop_webServer, lowPowerController, chargingPass, ulongSub, update, updateTrueBatteryVoltage,
      getActualBatterySOC, getTrueBatteryVoltage, calculateBatterySOC, defaultRange, isCharging,
      getStatus1_charge_state, n1, n2]
    norm_num [n1, n2]
  (low_power_boot_exit lowPowerController (chargingPass 1000 12) (chargingPass 1000 12)
    (chargingPass 60000 12) (chargingPass 120000 (5207/500)) []).2.2 rfl rfl hc hc hc s1 s2 s3

/-- The power of a VAC sample while the inference is active: the VBUS power
scaled by the square of the voltage ratio. -/
theorem vacPower_power_formula (v_ac : ℚ) (adc : AdcReadings) (hv : v_ac > 1/10)
    (hb : adc.vbus > 1/10 ∧ adc.ibus > 1/1000) :
    (vacPower v_ac adc).power = adc.vbus * adc.ibus * (v_ac / adc.vbus) ^ 2 := by
  have hne : adc.vbus ≠ 0 := by
    intro h0
    have := hb.1
    rw [h0] at this
    norm_num at this
  rw [vacPower_of_inferred v_ac adc hv hb]
  show v_ac * (adc.ibus * (v_ac / adc.vbus)) = adc.vbus * adc.ibus * (v_ac / adc.vbus) ^ 2
  field_simp
  ring

/-- A value of at least 100 is clamped to 100. -/
theorem clampValue_of_ge (x : ℚ) (h : 100 ≤ x) : clampValue x 0 100 = 100 := by
  unfold clampValue
  have h0 : ¬ x < 0 := not_lt.mpr (le_trans (by norm_num) h)
  rw [if_neg h0]
  split_ifs with h1
  · rfl
  · exact le_antisymm (not_lt.mp h1) h

/-- C26. Reported efficiency is constant: for every snapshot with input power
`vbus*ibus > 0.1` and `vsys > 0.1`, `getEfficiency` returns exactly `100`,
whatever the battery voltage and the sign and size of the battery current. -/
theorem getEfficiency_constant (adc : AdcReadings) (hin : adc.vbus * adc.ibus > 1/10)
    (hv : adc.vsys > 1/10) : getEfficiency adc = 100 := by
  have hI : (0 : ℚ) < adc.vbus * adc.ibus := lt_trans (by norm_num) hin
  have hs : (0 : ℚ) < adc.vsys := lt_trans (by norm_num) hv
  rw [getEfficiency_of_input adc (not_le.mpr hin)]
  apply clampValue_of_ge
  have htot : adc.vbus * adc.ibus ≤
      (getSystemPower adc).power + max (adc.vbat * adc.ibat) 0 := by
    by_cases hc : (adc.ibus * adc.vbus - adc.ibat * adc.vbat) / adc.vsys < 0
    · rw [getSystemPower_of_negative adc hv hc]
      have hav : adc.ibus * adc.vbus - adc.ibat * adc.vbat < 0 := by
        by_contra hn
        exact absurd hc (not_lt.mpr (div_nonneg (not_lt.mp hn) (le_of_lt hs)))
      have hB : adc.vbus * adc.ibus ≤ adc.vbat * adc.ibat := by nlinarith
      show adc.vbus * adc.ibus ≤ 0 + max (adc.vbat * adc.ibat) 0
      rw [zero_add]
      exact le_trans hB (le_max_left _ _)
    · rw [getSystemPower_of_nonneg adc hv hc]
      show adc.vbus * adc.ibus ≤
        (adc.ibus * adc.vbus - adc.ibat * adc.vbat) / adc.vsys * adc.vsys +
          max (adc.vbat * adc.ibat) 0
      rw [div_mul_cancel₀ _ (ne_of_gt hs)]
      have := le_max_left (adc.vbat * adc.ibat) 0
      nlinarith
  have hq : 1 ≤ ((getSystemPower adc).power + max (adc.vbat * adc.ibat) 0) /
      (adc.vbus * adc.ibus) := (one_le_div hI).mpr htot
  nlinarith

/-- Witness of C26: the power-balance scenario (charging battery) and the same
snapshot with the battery discharging at 3 A. -/
theorem getEfficiency_constant_witness :
    getEfficiency scenarioReadings = 100 ∧
    getEfficiency { scenarioReadings with ibat := -3 } = 100 :=
  ⟨getEfficiency_constant scenarioReadings (by norm_num [scenarioReadings])
      (by norm_num [scenarioReadings]),
    getEfficiency_constant { scenarioReadings with ibat := -3 }
      (by norm_num [scenarioReadings]) (by norm_num [scenarioReadings])⟩

/-- The debounce counter stays in `0..2` over one tick. -/
theorem updateStats_debounce_range (s : Stats) (now : Nat) (adc : AdcReadings)
    (h0 : 0 ≤ s.sysPeakDebounce) :
    0 ≤ (updateStats s now adc).sysPeakDebounce ∧ (updateStats s now adc).sysPeakDebounce ≤ 2 := by
  by_cases he : (getSystemPower adc).power > s._systemPeakPower
  · by_cases hd : s.sysPeakDebounce + 1 ≥ 3
    · rw [(updateStats_system_exceed_commit s now adc he hd).1]
      exact ⟨le_refl _, by norm_num⟩
    · rw [(updateStats_system_exceed_pending s now adc he hd).1]
      constructor <;> omega
  · rw [(updateStats_system_no_exceed s now adc he).1]
    exact ⟨le_refl _, by norm_num⟩

/-- C30. What the system-rail debounce commits: when the third consecutive
above-peak tick occurs the new system `peak_power` is that tick's system power,
not the largest of the three candidates (samples 10, 8, 3 above a peak of 0
commit 3); the debounce counter is 0, 1 or 2 after every tick, is reset to 0 by
a commit, and is not reset by `resetSystemStats` or `setSystemPeakPower`. -/
theorem system_debounce_commits_third (s : Stats) (a b c : StatsTick)
    (ticks : List StatsTick) (p : ℚ) :
    ((getSystemPower a.adc).power > s._systemPeakPower → s.sysPeakDebounce + 1 ≥ 3 →
      (updateStats s a.now a.adc)._systemPeakPower = (getSystemPower a.adc).power ∧
      (updateStats s a.now a.adc).sysPeakDebounce = 0) ∧
    (s.sysPeakDebounce = 0 → s._systemPeakPower = 0 →
      (getSystemPower a.adc).power = 10 → (getSystemPower b.adc).power = 8 →
      (getSystemPower c.adc).power = 3 →
      (runStats s [a, b])._systemPeakPower = 0 ∧
      (runStats s [a, b, c])._systemPeakPower = 3 ∧
      (runStats s [a, b, c]).sysPeakDebounce = 0) ∧
    (0 ≤ s.sysPeakDebounce → s.sysPeakDebounce ≤ 2 →
      0 ≤ (runStats s ticks).sysPeakDebounce ∧ (runStats s ticks).sysPeakDebounce ≤ 2) ∧
    ((updateStats s a.now a.adc)._systemPeakPower ≠ s._systemPeakPower →
      (updateStats s a.now a.adc).sysPeakDebounce = 0) ∧
    (resetSystemStats s).sysPeakDebounce = s.sysPeakDebounce ∧
    (setSystemPeakPower s p).sysPeakDebounce = s.sysPeakDebounce := by
  refine ⟨fun he hd => ?_, fun h0 hp ha hb hc => ?_, fun h0 h2 => ?_, fun h => ?_, rfl, rfl⟩
  · obtain ⟨h1, h2⟩ := updateStats_system_exceed_commit s a.now a.adc he hd
    exact ⟨h2, h1⟩
  · obtain ⟨d1, p1⟩ := updateStats_system_exceed_pending s a.now a.adc
      (by rw [ha, hp]; norm_num) (by omega)
    obtain ⟨d2, p2⟩ := updateStats_system_exceed_pending (updateStats s a.now a.adc)
      b.now b.adc (by rw [hb, p1, hp]; norm_num) (by omega)
    obtain ⟨d3, p3⟩ := updateStats_system_exceed_commit
      (updateStats (updateStats s a.now a.adc) b.now b.adc) c.now c.adc
      (by rw [hc, p2, p1, hp]; norm_num) (by omega)
    refine ⟨?_, ?_, ?_⟩
    · rw [runStats_two, p2, p1, hp]
    · show (updateStats (updateStats (updateStats s a.now a.adc) b.now b.adc)
        c.now c.adc)._systemPeakPower = 3
      rw [p3, hc]
    · exact d3
  · have hseq : ∀ (l : List StatsTick) (t : Stats),
        0 ≤ t.sysPeakDebounce → t.sysPeakDebounce ≤ 2 →
        0 ≤ (runStats t l).sysPeakDebounce ∧ (runStats t l).sysPeakDebounce ≤ 2 := by
      intro l
      induction l with
      | nil => intro t a1 a2; exact ⟨a1, a2⟩
      | cons x l ih =>
        intro t a1 _
        have hrun : runStats t (x :: l) = runStats (updateStats t x.now x.adc) l := by
          simp only [runStats, List.foldl_cons]
        rw [hrun]
        obtain ⟨b1, b2⟩ := updateStats_debounce_range t x.now x.adc a1
        exact ih _ b1 b2
    exact hseq ticks s h0 h2
  · exact (updateStats_system_changed s a.now a.adc h).2.2.1

/-- Witness of C30: from the constructed statistics, ticks with system power 10,
8 and 3 W commit 3 W. -/
theorem system_debounce_commits_third_witness :
    (runStats (initialStats 0)
      [⟨1000, systemPowerReadings 10⟩, ⟨2000, systemPowerReadings 8⟩,
        ⟨3000, systemPowerReadings 3⟩])._systemPeakPower = 3 ∧
    0 ≤ (runStats (initialStats 0) [⟨1000, systemPowerReadings 10⟩]).sysPeakDebounce :=
  have h10 : (getSystemPower (systemPowerReadings 10)).power = 10 := by
    norm_num [getSystemPower, systemPowerReadings]
  have h8 : (getSystemPower (systemPowerReadings 8)).power = 8 := by
    norm_num [getSystemPower, systemPowerReadings]
  have h3 : (getSystemPower (systemPowerReadings 3)).power = 3 := by
    norm_num [getSystemPower, systemPowerReadings]
  ⟨((system_debounce_commits_third (initialStats 0) ⟨1000, systemPowerReadings 10⟩
      ⟨2000, systemPowerReadings 8⟩ ⟨3000, systemPowerReadings 3⟩ [] 0).2.1
      rfl rfl h10 h8 h3).2.1,
    ((system_debounce_commits_third (initialStats 0) ⟨1000, systemPowerReadings 10⟩
      ⟨2000, systemPowerReadings 8⟩ ⟨3000, systemPowerReadings 3⟩
      [⟨1000, systemPowerReadings 10⟩] 0).2.2.1 (le_refl _) (by decide)).1⟩

/-- The `unsigned long` difference recovers the elapsed time across a wrap of the
counter. -/
theorem ulongSub_wrap (t d : Nat) (ht : t < 4294967296) (hd : d < 4294967296) :
    ulongSub ((t + d) % 4294967296) t = d := by
  unfold ulongSub
  omega

/-- The `unsigned long` difference of ordered in-range values is the ordinary
one. -/
theorem ulongSub_of_le (a b : Nat) (h : b ≤ a) (ha : a < 4294967296) :
    ulongSub a b = a - b := by
  unfold ulongSub
  omega

/-- One `update()` call brings the machine at most one transition closer to
Idle. -/
theorem stepsToIdle_update (m : TbvMachine) (now : Nat) (v : ℚ) :
    stepsToIdle m._tbv_state ≤ stepsToIdle (update m now v)._tbv_state + 1 := by
  cases h : m._tbv_state
  · simp only [update, h, stepsToIdle]; omega
  · simp only [update, h, stepsToIdle]; omega
  · by_cases ht : ulongSub now m._tbv_timer ≥ 50
    · simp only [update, h, ht, if_true, stepsToIdle]; omega
    · simp only [update, h, ht, if_false, stepsToIdle]; omega
  · simp only [update, h, stepsToIdle]; omega
  · by_cases ht : ulongSub now m._tbv_timer ≥ 400
    · simp only [update, h, ht, if_true, stepsToIdle]; omega
    · simp only [update, h, ht, if_false, stepsToIdle]; omega
  · simp only [update, h, stepsToIdle]; omega
  · by_cases ht : ulongSub now m._tbv_timer ≥ 50
    · simp only [update, h, ht, if_true, stepsToIdle]; omega
    · simp only [update, h, ht, if_false, stepsToIdle]; omega
  · simp only [update, h, stepsToIdle]; omega

/-- A sequence of `update()` calls brings the machine at most its length closer
to Idle. -/
theorem stepsToIdle_runUpdates (calls : List UpdateCall) (m : TbvMachine) :
    stepsToIdle m._tbv_state ≤ stepsToIdle (runUpdates m calls)._tbv_state + calls.length := by
  induction calls generalizing m with
  | nil => exact Nat.le_refl _
  | cons c l ih =>
    rw [runUpdates_cons, List.length_cons]
    have h1 := stepsToIdle_update m c.now c.adcvbat
    have h2 := ih (update m c.now c.adcvbat)
    omega

/-- A state with no transition left is Idle. -/
theorem stepsToIdle_eq_zero (st : TrueBatteryVoltageState) (h : stepsToIdle st = 0) :
    st = TBVS_IDLE := by
  cases st <;> simp only [stepsToIdle] at h <;> first | rfl | omega

/-- The call made 400 ms after the timer advances every non-Idle state and
leaves an in-range timer. -/
theorem update_advancingCall (m : TbvMachine) (ht : m._tbv_timer < 4294967296) (n : Nat)
    (hn : stepsToIdle m._tbv_state = n + 1) :
    stepsToIdle (update m (advancingCall m).now (advancingCall m).adcvbat)._tbv_state = n ∧
    (update m (advancingCall m).now (advancingCall m).adcvbat)._tbv_timer < 4294967296 := by
  have hw : ulongSub ((m._tbv_timer + 400) % 4294967296) m._tbv_timer = 400 :=
    ulongSub_wrap m._tbv_timer 400 ht (by norm_num)
  have hlt : (m._tbv_timer + 400) % 4294967296 < 4294967296 := Nat.mod_lt _ (by norm_num)
  have h50 : ulongSub ((m._tbv_timer + 400) % 4294967296) m._tbv_timer ≥ 50 := by
    rw [hw]; norm_num
  have h400 : ulongSub ((m._tbv_timer + 400) % 4294967296) m._tbv_timer ≥ 400 := by
    rw [hw]
  cases h : m._tbv_state
  · rw [h] at hn; simp only [stepsToIdle] at hn; omega
  all_goals
    rw [h] at hn
    simp only [stepsToIdle] at hn
    simp only [update, advancingCall, h, h50, h400, if_true, stepsToIdle]
    refine ⟨by omega, ?_⟩
    first | exact hlt | exact ht

/-- The completion calls reach Idle and carry in-range clock values. -/
theorem completionCalls_reach_idle (n : Nat) (m : TbvMachine)
    (ht : m._tbv_timer < 4294967296) (hn : stepsToIdle m._tbv_state = n) :
    (runUpdates m (completionCalls n m))._tbv_state = TBVS_IDLE ∧
    (∀ c ∈ completionCalls n m, c.now < 4294967296) := by
  induction n generalizing m with
  | zero =>
    refine ⟨stepsToIdle_eq_zero _ hn, ?_⟩
    intro c hc
    simp only [completionCalls, List.not_mem_nil] at hc
  | succ k ih =>
    obtain ⟨h1, h2⟩ := update_advancingCall m ht k hn
    obtain ⟨i1, i2⟩ := ih (update m (advancingCall m).now (advancingCall m).adcvbat) h2 h1
    refine ⟨?_, ?_⟩
    · simp only [completionCalls, runUpdates_cons]
      exact i1
    · intro c hc
      simp only [completionCalls, List.mem_cons] at hc
      rcases hc with hc | hc
      · rw [hc]; exact Nat.mod_lt _ (by norm_num)
      · exact i2 c hc

/-- The forced-discharge invariant is kept by every `update()` call. -/
theorem dischargeInvariant_update (hw0 : Bool) (m : TbvMachine) (now : Nat) (v : ℚ)
    (h : dischargeInvariant hw0 m) : dischargeInvariant hw0 (update m now v) := by
  unfold dischargeInvariant at h ⊢
  cases hs : m._tbv_state <;> rw [hs] at h <;> simp only at h
  · simp only [update, hs]; exact h
  · simp only [update, hs]; exact ⟨h, h⟩
  · by_cases ht : ulongSub now m._tbv_timer ≥ 50
    · simp only [update, hs, ht, if_true]; exact h
    · simp only [update, hs, ht, if_false]; exact h
  · simp only [update, hs]; exact ⟨trivial, h.2⟩
  · by_cases ht : ulongSub now m._tbv_timer ≥ 400
    · simp only [update, hs, ht, if_true]; exact h
    · simp only [update, hs, ht, if_false]; exact h
  · simp only [update, hs]; exact h
  · by_cases ht : ulongSub now m._tbv_timer ≥ 50
    · simp only [update, hs, ht, if_true]; exact h
    · simp only [update, hs, ht, if_false]; exact h
  · simp only [update, hs]; exact h.2

/-- The forced-discharge invariant is kept by every sequence of calls. -/
theorem dischargeInvariant_runUpdates (hw0 : Bool) (calls : List UpdateCall) (m : TbvMachine)
    (h : dischargeInvariant hw0 m) : dischargeInvariant hw0 (runUpdates m calls) := by
  induction calls generalizing m with
  | nil => exact h
  | cons c l ih =>
    rw [runUpdates_cons]
    exact ih _ (dischargeInvariant_update hw0 m c.now c.adcvbat h)

/-- C27. Exact TBV cycle schedule: starting in DisableCharging the machine is
never back in Idle after fewer than 7 `update()` calls, whatever their
timestamps; for 7 calls at non-decreasing times `t1..t7` it is in Idle with
`reading_valid = true` after the 7th call iff `t2 - t1 >= 50`,
`t4 - t3 >= 400` and `t6 - t5 >= 50`; from every non-Idle state some finite
sequence of calls reaches Idle; and forced discharge is asserted in hardware
from the ForceDischarge step (the 3rd step) until the Restore step, which puts
the captured value back. -/
theorem tbv_exact_schedule (m : TbvMachine) (calls : List UpdateCall)
    (c1 c2 c3 c4 c5 c6 c7 : UpdateCall) :
    (m._tbv_state = TBVS_DISABLE_CHARGING → calls.length < 7 →
      (runUpdates m calls)._tbv_state ≠ TBVS_IDLE) ∧
    (m._tbv_state = TBVS_DISABLE_CHARGING →
      c1.now ≤ c2.now → c2.now ≤ c3.now → c3.now ≤ c4.now → c4.now ≤ c5.now →
      c5.now ≤ c6.now → c6.now ≤ c7.now → c7.now < 4294967296 →
      (((runUpdates m [c1, c2, c3, c4, c5, c6, c7])._tbv_state = TBVS_IDLE ∧
          (runUpdates m [c1, c2, c3, c4, c5, c6, c7])._tbv_reading_valid = true) ↔
        (c2.now - c1.now ≥ 50 ∧ c4.now - c3.now ≥ 400 ∧ c6.now - c5.now ≥ 50))) ∧
    (m._tbv_state ≠ TBVS_IDLE → m._tbv_timer < 4294967296 →
      ∃ l : List UpdateCall, (∀ c ∈ l, c.now < 4294967296) ∧
        (runUpdates m l)._tbv_state = TBVS_IDLE) ∧
    (m._tbv_state = TBVS_DISABLE_CHARGING →
      ((runUpdates m calls)._tbv_state = TBVS_WAIT_STABILIZE ∨
        (runUpdates m calls)._tbv_state = TBVS_READ_VOLTAGE ∨
        (runUpdates m calls)._tbv_state = TBVS_WAIT_BEFORE_RESTORE ∨
        (runUpdates m calls)._tbv_state = TBVS_RESTORE →
        (runUpdates m calls).hw_force_batt_discharge = true) ∧
      ((runUpdates m calls)._tbv_state = TBVS_DISABLE_CHARGING ∨
        (runUpdates m calls)._tbv_state = TBVS_WAIT_CHARGE_STOP ∨
        (runUpdates m calls)._tbv_state = TBVS_FORCE_DISCHARGE ∨
        (runUpdates m calls)._tbv_state = TBVS_IDLE →
        (runUpdates m calls).hw_force_batt_discharge = m.hw_force_batt_discharge)) := by
  refine ⟨fun hs hl => ?_, fun hs h12 h23 h34 h45 h56 h67 h7 => ?_, fun hs ht => ?_,
    fun hs => ?_⟩
  · intro hidle
    have h := stepsToIdle_runUpdates calls m
    rw [hs, hidle] at h
    simp only [stepsToIdle] at h
    omega
  · -- the three waits, as the machine tests them
    have e1 : ulongSub c2.now c1.now = c2.now - c1.now :=
      ulongSub_of_le _ _ h12 (by omega)
    have e2 : ulongSub c4.now c3.now = c4.now - c3.now :=
      ulongSub_of_le _ _ h34 (by omega)
    have e3 : ulongSub c6.now c5.now = c6.now - c5.now :=
      ulongSub_of_le _ _ h56 (by omega)
    rw [← e1, ← e2, ← e3]
    by_cases w1 : ulongSub c2.now c1.now ≥ 50
    · by_cases w2 : ulongSub c4.now c3.now ≥ 400
      · by_cases w3 : ulongSub c6.now c5.now ≥ 50
        · constructor
          · intro _; exact ⟨w1, w2, w3⟩
          · intro _
            simp only [runUpdates, List.foldl_cons, List.foldl_nil, update, hs, w1, w2, w3,
              if_true, and_self]
        · constructor
          · intro hidle
            exfalso
            have hst : (runUpdates m [c1, c2, c3, c4, c5, c6])._tbv_state =
                TBVS_WAIT_BEFORE_RESTORE := by
              simp only [runUpdates, List.foldl_cons, List.foldl_nil, update, hs, w1, w2, w3,
                if_true, if_false]
            have hsplit : runUpdates m [c1, c2, c3, c4, c5, c6, c7] =
                runUpdates (runUpdates m [c1, c2, c3, c4, c5, c6]) [c7] := by
              simp only [runUpdates, List.foldl_cons, List.foldl_nil]
            have h := stepsToIdle_runUpdates [c7] (runUpdates m [c1, c2, c3, c4, c5, c6])
            rw [← hsplit, hidle.1, hst] at h
            simp only [stepsToIdle, List.length_cons, List.length_nil] at h
            omega
          · intro h; exact absurd h.2.2 w3
      · constructor
        · intro hidle
          exfalso
          have hst : (runUpdates m [c1, c2, c3, c4])._tbv_state = TBVS_WAIT_STABILIZE := by
            simp only [runUpdates, List.foldl_cons, List.foldl_nil, update, hs, w1, w2,
              if_true, if_false]
          have hsplit : runUpdates m [c1, c2, c3, c4, c5, c6, c7] =
              runUpdates (runUpdates m [c1, c2, c3, c4]) [c5, c6, c7] := by
            simp only [runUpdates, List.foldl_cons, List.foldl_nil]
          have h := stepsToIdle_runUpdates [c5, c6, c7] (runUpdates m [c1, c2, c3, c4])
          rw [← hsplit, hidle.1, hst] at h
          simp only [stepsToIdle, List.length_cons, List.length_nil] at h
          omega
        · intro h; exact absurd h.2.1 w2
    · constructor
      · intro hidle
        exfalso
        have hst : (runUpdates m [c1, c2])._tbv_state = TBVS_WAIT_CHARGE_STOP := by
          simp only [runUpdates, List.foldl_cons, List.foldl_nil, update, hs, w1, if_false]
        have hsplit : runUpdates m [c1, c2, c3, c4, c5, c6, c7] =
            runUpdates (runUpdates m [c1, c2]) [c3, c4, c5, c6, c7] := by
          simp only [runUpdates, List.foldl_cons, List.foldl_nil]
        have h := stepsToIdle_runUpdates [c3, c4, c5, c6, c7] (runUpdates m [c1, c2])
        rw [← hsplit, hidle.1, hst] at h
        simp only [stepsToIdle, List.length_cons, List.length_nil] at h
        omega
      · intro h; exact absurd h.1 w1
  · obtain ⟨h1, h2⟩ := completionCalls_reach_idle (stepsToIdle m._tbv_state) m ht rfl
    exact ⟨completionCalls (stepsToIdle m._tbv_state) m, h2, h1⟩
  · have hinv0 : dischargeInvariant m.hw_force_batt_discharge m := by
      unfold dischargeInvariant
      rw [hs]
    have hinv := dischargeInvariant_runUpdates m.hw_force_batt_discharge calls m hinv0
    unfold dischargeInvariant at hinv
    constructor
    · intro hst
      rcases hst with hst | hst | hst | hst <;> rw [hst] at hinv <;> exact hinv.1
    · intro hst
      rcases hst with hst | hst | hst | hst <;> rw [hst] at hinv
      · exact hinv
      · exact hinv.1
      · exact hinv.1
      · exact hinv

/-- Witness of C27: six calls are too few; the seven prompt calls complete the
cycle; the waiting machine can be brought to Idle; after three calls forced
discharge is asserted. -/
theorem tbv_exact_schedule_witness :
    (runUpdates (updateTrueBatteryVoltage (initialTbv false) 0)
      [⟨0, 13⟩, ⟨50, 13⟩, ⟨51, 13⟩, ⟨451, 13⟩, ⟨452, 13⟩, ⟨502, 13⟩])._tbv_state ≠ TBVS_IDLE ∧
    ((runUpdates (updateTrueBatteryVoltage (initialTbv false) 0) promptCalls)._tbv_state
        = TBVS_IDLE ∧
      (runUpdates (updateTrueBatteryVoltage (initialTbv false) 0)
        promptCalls)._tbv_reading_valid = true) ∧
    (∃ l : List UpdateCall, (∀ c ∈ l, c.now < 4294967296) ∧
      (runUpdates waitingMachine l)._tbv_state = TBVS_IDLE) :=
  ⟨(tbv_exact_schedule (updateTrueBatteryVoltage (initialTbv false) 0)
      [⟨0, 13⟩, ⟨50, 13⟩, ⟨51, 13⟩, ⟨451, 13⟩, ⟨452, 13⟩, ⟨502, 13⟩]
      ⟨0, 13⟩ ⟨50, 13⟩ ⟨51, 13⟩ ⟨451, 13⟩ ⟨452, 64/5⟩ ⟨502, 13⟩ ⟨503, 13⟩).1 rfl (by decide),
    ((tbv_exact_schedule (updateTrueBatteryVoltage (initialTbv false) 0) []
      ⟨0, 13⟩ ⟨50, 13⟩ ⟨51, 13⟩ ⟨451, 13⟩ ⟨452, 64/5⟩ ⟨502, 13⟩ ⟨503, 13⟩).2.1 rfl
      (by decide) (by decide) (by decide) (by decide) (by decide) (by decide) (by decide)).mpr
      ⟨by decide, by decide, by decide⟩,
    (tbv_exact_schedule waitingMachine []
      ⟨0, 13⟩ ⟨50, 13⟩ ⟨51, 13⟩ ⟨451, 13⟩ ⟨452, 64/5⟩ ⟨502, 13⟩ ⟨503, 13⟩).2.2.1
      (by simp [waitingMachine]) (by simp [waitingMachine])⟩

/-- C28. Elapsed-time checks survive millisecond-counter wraparound: for a wait
started at time `t` each interval test, evaluated at `now = (t + d) mod 2^32`,
sees the elapsed time `d`, so it succeeds for every `d` with
`threshold <= d < 2^32` and fails for every `d < threshold`, also when `t + d`
overflows the 32-bit counter.  This holds for the three waits of the TBV state
machine, the seven gates of `loop()` and the elapsed time of `updateStats`. -/
theorem elapsed_checks_survive_wraparound (t d : Nat) (m : TbvMachine) (v : ℚ)
    (s : ModbeeMPPT) (inp : LoopInput) (st : Stats) (adc : AdcReadings)
    (ht : t < 4294967296) (hd : d < 4294967296) :
    ulongSub ((t + d) % 4294967296) t = d ∧
    (m._tbv_timer = t →
      (m._tbv_state = TBVS_WAIT_CHARGE_STOP →
        (d ≥ 50 → (update m ((t + d) % 4294967296) v)._tbv_state = TBVS_FORCE_DISCHARGE) ∧
        (d < 50 → update m ((t + d) % 4294967296) v = m)) ∧
      (m._tbv_state = TBVS_WAIT_STABILIZE →
        (d ≥ 400 → (update m ((t + d) % 4294967296) v)._tbv_state = TBVS_READ_VOLTAGE) ∧
        (d < 400 → update m ((t + d) % 4294967296) v = m)) ∧
      (m._tbv_state = TBVS_WAIT_BEFORE_RESTORE →
        (d ≥ 50 → (update m ((t + d) % 4294967296) v)._tbv_state = TBVS_RESTORE) ∧
        (d < 50 → update m ((t + d) % 4294967296) v = m))) ∧
    (inp.currentTime = (t + d) % 4294967296 →
      (s.lastStatsUpdate = t →
        (d ≥ 1000 →
          (loop_statsAndUpdate s inp).lastStatsUpdate = inp.currentTime ∧
          (loop_statsAndUpdate s inp).stats = updateStats s.stats inp.statsMillis inp.adc) ∧
        (d < 1000 →
          (loop_statsAndUpdate s inp).lastStatsUpdate = s.lastStatsUpdate ∧
          (loop_statsAndUpdate s inp).stats = s.stats)) ∧
      (s.lastBatteryCheck = t →
        (d ≥ s._batteryCheckInterval → (loop_batteryCheck s inp).lastBatteryCheck = inp.currentTime) ∧
        (d < s._batteryCheckInterval → loop_batteryCheck s inp = s)) ∧
      (s.lastSOCCheck = t →
        (d ≥ s._socCheckInterval → (loop_socCheck s inp).lastSOCCheck = inp.currentTime) ∧
        (d < s._socCheckInterval → loop_socCheck s inp = s)) ∧
      (s.lastLEDUpdate = t →
        (d ≥ s._ledUpdateInterval → (loop_ledUpdate s inp).lastLEDUpdate = inp.currentTime) ∧
        (d < s._ledUpdateInterval → loop_ledUpdate s inp = s)) ∧
      (s.lastCriticalSettingsUpdate = t →
        (d ≥ s._criticalSettingsUpdateInterval → (loop_criticalSettings s inp).lastCriticalSettingsUpdate = inp.currentTime) ∧
        (d < s._criticalSettingsUpdateInterval → loop_criticalSettings s inp = s)) ∧
      (s.lastConfigApply = t →
        (d ≥ s._configApplyInterval → (loop_configApply s inp).lastConfigApply = inp.currentTime) ∧
        (d < s._configApplyInterval → loop_configApply s inp = s)) ∧
      (s.lastStatsSave = t →
        (d ≥ 300000 → (loop_statsSave s inp).lastStatsSave = inp.currentTime) ∧
        (d < 300000 → loop_statsSave s inp = s))) ∧
    (st._lastStatsUpdateMs = t →
      (updateStats st ((t + d) % 4294967296) adc)._vbusTotalEnergyWh =
        st._vbusTotalEnergyWh + (getVbusPower adc).power * ((d : ℚ) / 3600000)) := by
  have hw : ulongSub ((t + d) % 4294967296) t = d := ulongSub_wrap t d ht hd
  refine ⟨hw, fun hm => ⟨fun hs => ⟨fun hge => ?_, fun hlt => ?_⟩,
    fun hs => ⟨fun hge => ?_, fun hlt => ?_⟩, fun hs => ⟨fun hge => ?_, fun hlt => ?_⟩⟩,
    fun hc => ⟨?_, ?_, ?_, ?_, ?_, ?_, ?_⟩, fun hl => ?_⟩
  · have hdue : ulongSub ((t + d) % 4294967296) m._tbv_timer ≥ 50 := by rw [hm, hw]; exact hge
    simp only [update, hs, hdue, if_true]
  · have hdue : ¬ ulongSub ((t + d) % 4294967296) m._tbv_timer ≥ 50 := by
      rw [hm, hw]; exact not_le.mpr hlt
    simp only [update, hs, hdue, if_false]
  · have hdue : ulongSub ((t + d) % 4294967296) m._tbv_timer ≥ 400 := by rw [hm, hw]; exact hge
    simp only [update, hs, hdue, if_true]
  · have hdue : ¬ ulongSub ((t + d) % 4294967296) m._tbv_timer ≥ 400 := by
      rw [hm, hw]; exact not_le.mpr hlt
    simp only [update, hs, hdue, if_false]
  · have hdue : ulongSub ((t + d) % 4294967296) m._tbv_timer ≥ 50 := by rw [hm, hw]; exact hge
    simp only [update, hs, hdue, if_true]
  · have hdue : ¬ ulongSub ((t + d) % 4294967296) m._tbv_timer ≥ 50 := by
      rw [hm, hw]; exact not_le.mpr hlt
    simp only [update, hs, hdue, if_false]
  · intro hl
    have hsub : ulongSub inp.currentTime s.lastStatsUpdate = d := by
      rw [hc, hl]; exact hw
    constructor
    · intro hge
      have hdue : ulongSub inp.currentTime s.lastStatsUpdate ≥ 1000 := by
        rw [hsub]; exact hge
      simp only [loop_statsAndUpdate, hdue, if_true, and_self]
    · intro hlt
      have hdue : ¬ ulongSub inp.currentTime s.lastStatsUpdate ≥ 1000 := by
        rw [hsub]; exact not_le.mpr hlt
      simp only [loop_statsAndUpdate, hdue, if_false, and_self]
  · intro hl
    have hsub : ulongSub inp.currentTime s.lastBatteryCheck = d := by
      rw [hc, hl]; exact hw
    constructor
    · intro hge
      have hdue : ulongSub inp.currentTime s.lastBatteryCheck ≥ s._batteryCheckInterval := by
        rw [hsub]; exact hge
      simp only [loop_batteryCheck, hdue, if_true]
      split_ifs <;> rfl
    · intro hlt
      have hdue : ¬ ulongSub inp.currentTime s.lastBatteryCheck ≥ s._batteryCheckInterval := by
        rw [hsub]; exact not_le.mpr hlt
      simp only [loop_batteryCheck, hdue, if_false]
  · intro hl
    have hsub : ulongSub inp.currentTime s.lastSOCCheck = d := by
      rw [hc, hl]; exact hw
    constructor
    · intro hge
      have hdue : ulongSub inp.currentTime s.lastSOCCheck ≥ s._socCheckInterval := by
        rw [hsub]; exact hge
      simp only [loop_socCheck, hdue, if_true]
      split_ifs <;> rfl
    · intro hlt
      have hdue : ¬ ulongSub inp.currentTime s.lastSOCCheck ≥ s._socCheckInterval := by
        rw [hsub]; exact not_le.mpr hlt
      simp only [loop_socCheck, hdue, if_false]
  · intro hl
    have hsub : ulongSub inp.currentTime s.lastLEDUpdate = d := by
      rw [hc, hl]; exact hw
    constructor
    · intro hge
      have hdue : ulongSub inp.currentTime s.lastLEDUpdate ≥ s._ledUpdateInterval := by
        rw [hsub]; exact hge
      simp only [loop_ledUpdate, hdue, if_true]
    · intro hlt
      have hdue : ¬ ulongSub inp.currentTime s.lastLEDUpdate ≥ s._ledUpdateInterval := by
        rw [hsub]; exact not_le.mpr hlt
      simp only [loop_ledUpdate, hdue, if_false]
  · intro hl
    have hsub : ulongSub inp.currentTime s.lastCriticalSettingsUpdate = d := by
      rw [hc, hl]; exact hw
    constructor
    · intro hge
      have hdue : ulongSub inp.currentTime s.lastCriticalSettingsUpdate ≥ s._criticalSettingsUpdateInterval := by
        rw [hsub]; exact hge
      simp only [loop_criticalSettings, hdue, if_true]
    · intro hlt
      have hdue : ¬ ulongSub inp.currentTime s.lastCriticalSettingsUpdate ≥ s._criticalSettingsUpdateInterval := by
        rw [hsub]; exact not_le.mpr hlt
      simp only [loop_criticalSettings, hdue, if_false]
  · intro hl
    have hsub : ulongSub inp.currentTime s.lastConfigApply = d := by
      rw [hc, hl]; exact hw
    constructor
    · intro hge
      have hdue : ulongSub inp.currentTime s.lastConfigApply ≥ s._configApplyInterval := by
        rw [hsub]; exact hge
      simp only [loop_configApply, applyToMPPT, hdue, if_true]
      split_ifs <;> rfl
    · intro hlt
      have hdue : ¬ ulongSub inp.currentTime s.lastConfigApply ≥ s._configApplyInterval := by
        rw [hsub]; exact not_le.mpr hlt
      simp only [loop_configApply, hdue, if_false]
  · intro hl
    have hsub : ulongSub inp.currentTime s.lastStatsSave = d := by
      rw [hc, hl]; exact hw
    constructor
    · intro hge
      have hdue : ulongSub inp.currentTime s.lastStatsSave ≥ 300000 := by
        rw [hsub]; exact hge
      simp only [loop_statsSave, hdue, if_true]
    · intro hlt
      have hdue : ¬ ulongSub inp.currentTime s.lastStatsSave ≥ 300000 := by
        rw [hsub]; exact not_le.mpr hlt
      simp only [loop_statsSave, hdue, if_false]
  · show st._vbusTotalEnergyWh + (getVbusPower adc).power *
      (((ulongSub ((t + d) % 4294967296) st._lastStatsUpdateMs : Nat) : ℚ) / 3600000) = _
    rw [hl, hw]

/-- Witness of C28: a wait started 6 ms before the counter wraps, tested 56 ms
later at clock value 50, has elapsed. -/
theorem elapsed_checks_survive_wraparound_witness :
    ulongSub ((4294967290 + 56) % 4294967296) 4294967290 = 56 ∧
    (update wrappingMachine ((4294967290 + 56) % 4294967296) 12)._tbv_state
      = TBVS_FORCE_DISCHARGE :=
  have h := elapsed_checks_survive_wraparound 4294967290 56 wrappingMachine 12
    lowPowerController (chargingPass 50 12) (initialStats 0) chargingReadings
    (by decide) (by decide)
  ⟨h.1, ((h.2.1 rfl).1 rfl).1 (by decide)⟩

/-- The reading invariant is kept by every `update()` call. -/
theorem readingInvariant_update (prev : ℚ) (m : TbvMachine) (now : Nat) (v : ℚ)
    (h : readingInvariant prev m) : readingInvariant prev (update m now v) := by
  unfold readingInvariant at h ⊢
  cases hs : m._tbv_state <;> rw [hs] at h <;> simp only at h
  · simp only [update, hs]; exact h
  · simp only [update, hs]; exact h
  · by_cases ht : ulongSub now m._tbv_timer ≥ 50
    · simp only [update, hs, ht, if_true]; exact h
    · simp only [update, hs, ht, if_false]; exact h
  · simp only [update, hs]; exact h
  · by_cases ht : ulongSub now m._tbv_timer ≥ 400
    · simp only [update, hs, ht, if_true]; exact h
    · simp only [update, hs, ht, if_false]; exact h
  · simp only [update, hs]
  · by_cases ht : ulongSub now m._tbv_timer ≥ 50
    · simp only [update, hs, ht, if_true]; exact h
    · simp only [update, hs, ht, if_false]; exact h
  · simp only [update, hs]; exact h

/-- The reading invariant holds throughout a cycle requested from Idle. -/
theorem readingInvariant_cycle (m : TbvMachine) (start : Nat) (calls : List UpdateCall)
    (hidle : m._tbv_state = TBVS_IDLE) :
    readingInvariant m._tbv_last_reading
      (runUpdates (updateTrueBatteryVoltage m start) calls) := by
  have h0 : readingInvariant m._tbv_last_reading (updateTrueBatteryVoltage m start) := by
    simp only [readingInvariant, updateTrueBatteryVoltage, hidle, if_true, and_self]
  have hseq : ∀ (l : List UpdateCall) (t : TbvMachine),
      readingInvariant m._tbv_last_reading t →
      readingInvariant m._tbv_last_reading (runUpdates t l) := by
    intro l
    induction l with
    | nil => intro t ht; exact ht
    | cons c l ih =>
      intro t ht
      rw [runUpdates_cons]
      exact ih _ (readingInvariant_update _ t c.now c.adcvbat ht)
  exact hseq calls _ h0

/-- While the reading is marked invalid during a cycle requested from Idle, the
stored reading is the one from before the request. -/
theorem last_reading_while_invalid (m : TbvMachine) (start : Nat) (calls : List UpdateCall)
    (hidle : m._tbv_state = TBVS_IDLE)
    (hv : (runUpdates (updateTrueBatteryVoltage m start) calls)._tbv_reading_valid = false) :
    (runUpdates (updateTrueBatteryVoltage m start) calls)._tbv_last_reading =
      m._tbv_last_reading := by
  have h := readingInvariant_cycle m start calls hidle
  unfold readingInvariant at h
  cases hs : (runUpdates (updateTrueBatteryVoltage m start) calls)._tbv_state <;>
    rw [hs] at h <;> simp only at h
  · rw [hv] at h; exact absurd h (by decide)
  · exact h.1
  · exact h.1
  · exact h.1
  · exact h.1
  · exact h.1
  · rw [hv] at h; exact absurd h (by decide)
  · rw [hv] at h; exact absurd h (by decide)

/-- C29 as stated fails: five calls into the first cycle after construction the
machine is in WaitBeforeRestore, so the cycle has not completed and is still in
flight, yet while charging `getTrueBatteryVoltage` returns the 12.8 V just read
at the ReadVoltage step, not the initial (previous) reading `0.0`. -/
theorem reading_changes_before_cycle_completes :
    (initialTbv false)._tbv_state = TBVS_IDLE ∧
    (initialTbv false)._tbv_last_reading = 0 ∧
    (runUpdates (updateTrueBatteryVoltage (initialTbv false) 0) firstFiveCalls)._tbv_state
      = TBVS_WAIT_BEFORE_RESTORE ∧
    isCharging 96 = true ∧
    (getTrueBatteryVoltage
      (runUpdates (updateTrueBatteryVoltage (initialTbv false) 0) firstFiveCalls) 96 13).1
      = 64/5 := by
  have hc : isCharging 96 = true := by decide
  refine ⟨rfl, rfl, ?_, hc, ?_⟩
  · simp [runUpdates, firstFiveCalls, update, updateTrueBatteryVoltage, initialTbv, ulongSub]
  · simp [getTrueBatteryVoltage, hc, runUpdates, firstFiveCalls, update,
      updateTrueBatteryVoltage, initialTbv, ulongSub]

/-- C29 (amended). `reading_valid` is never consulted: `getTrueBatteryVoltage`,
`getActualBatterySOC` and `getUsableBatterySOC` give the same result whatever
`reading_valid` is.  Consequently, while charging and until the ReadVoltage
step of the first TBV cycle has run (`reading_valid` still false),
`getTrueBatteryVoltage` returns the initial `last_reading` `0.0` and
`getActualBatterySOC` returns `0` for any range with `min_voltage > 0`; and
while a new cycle is in flight and has not yet run its ReadVoltage step, the
reading from before the request is returned.  During a cycle `reading_valid` is
false exactly in the states DisableCharging .. ReadVoltage. -/
theorem reading_valid_never_consulted (m : TbvMachine) (b hw : Bool) (status1 : Nat)
    (adcvbat : ℚ) (cfg : BatteryRange) (min_system_voltage charge_voltage : ℚ) (start : Nat)
    (calls : List UpdateCall) :
    ((getTrueBatteryVoltage { m with _tbv_reading_valid := b } status1 adcvbat).1 =
        (getTrueBatteryVoltage m status1 adcvbat).1 ∧
      getActualBatterySOC cfg { m with _tbv_reading_valid := b } status1 adcvbat =
        getActualBatterySOC cfg m status1 adcvbat ∧
      getUsableBatterySOC { m with _tbv_reading_valid := b } status1 adcvbat
          min_system_voltage charge_voltage =
        getUsableBatterySOC m status1 adcvbat min_system_voltage charge_voltage) ∧
    (isCharging status1 = true →
      (runUpdates (updateTrueBatteryVoltage (initialTbv hw) start) calls)._tbv_reading_valid
        = false →
      (getTrueBatteryVoltage
        (runUpdates (updateTrueBatteryVoltage (initialTbv hw) start) calls) status1 adcvbat).1
        = 0 ∧
      (0 < cfg._battery_min_voltage →
        getActualBatterySOC cfg
          (runUpdates (updateTrueBatteryVoltage (initialTbv hw) start) calls) status1 adcvbat
          = 0)) ∧
    (m._tbv_state = TBVS_IDLE → isCharging status1 = true →
      (runUpdates (updateTrueBatteryVoltage m start) calls)._tbv_reading_valid = false →
      (getTrueBatteryVoltage (runUpdates (updateTrueBatteryVoltage m start) calls)
        status1 adcvbat).1 = m._tbv_last_reading) ∧
    (m._tbv_state = TBVS_IDLE →
      ((runUpdates (updateTrueBatteryVoltage m start) calls)._tbv_reading_valid = false ↔
        ((runUpdates (updateTrueBatteryVoltage m start) calls)._tbv_state
            = TBVS_DISABLE_CHARGING ∨
          (runUpdates (updateTrueBatteryVoltage m start) calls)._tbv_state
            = TBVS_WAIT_CHARGE_STOP ∨
          (runUpdates (updateTrueBatteryVoltage m start) calls)._tbv_state
            = TBVS_FORCE_DISCHARGE ∨
          (runUpdates (updateTrueBatteryVoltage m start) calls)._tbv_state
            = TBVS_WAIT_STABILIZE ∨
          (runUpdates (updateTrueBatteryVoltage m start) calls)._tbv_state
            = TBVS_READ_VOLTAGE))) := by
  have htrue : ∀ (t : TbvMachine), isCharging status1 = true →
      (getTrueBatteryVoltage t status1 adcvbat).1 = t._tbv_last_reading := by
    intro t hc
    simp only [getTrueBatteryVoltage, hc, if_true]
  have hsame : (getTrueBatteryVoltage { m with _tbv_reading_valid := b } status1 adcvbat).1 =
      (getTrueBatteryVoltage m status1 adcvbat).1 := by
    unfold getTrueBatteryVoltage
    split_ifs <;> rfl
  refine ⟨⟨hsame, ?_, ?_⟩, fun hc hv => ?_, fun hidle hc hv => ?_, fun hidle => ?_⟩
  · simp only [getActualBatterySOC, hsame]
  · simp only [getUsableBatterySOC, hsame]
  · have hl := last_reading_while_invalid (initialTbv hw) start calls rfl hv
    have h0 : (getTrueBatteryVoltage
        (runUpdates (updateTrueBatteryVoltage (initialTbv hw) start) calls) status1 adcvbat).1
        = 0 := by
      rw [htrue _ hc, hl]
      rfl
    refine ⟨h0, fun hmin => ?_⟩
    simp only [getActualBatterySOC, h0, calculateBatterySOC, hmin, if_true]
  · rw [htrue _ hc]
    exact last_reading_while_invalid m start calls hidle hv
  · have h := readingInvariant_cycle m start calls hidle
    unfold readingInvariant at h
    cases hs : (runUpdates (updateTrueBatteryVoltage m start) calls)._tbv_state <;>
      rw [hs] at h <;> simp only at h
    · simp [h]
    · simp [h.2]
    · simp [h.2]
    · simp [h.2]
    · simp [h.2]
    · simp [h.2]
    · simp [h]
    · simp [h]

/-- Witness of C29 (amended): two calls into the first cycle, while charging, the
reading is still the initial `0.0`. -/
theorem reading_valid_never_consulted_witness :
    (getTrueBatteryVoltage
      (runUpdates (updateTrueBatteryVoltage (initialTbv false) 0) [⟨0, 13⟩, ⟨50, 13⟩])
      96 13).1 = 0 ∧
    getActualBatterySOC defaultRange
      (runUpdates (updateTrueBatteryVoltage (initialTbv false) 0) [⟨0, 13⟩, ⟨50, 13⟩])
      96 13 = 0 :=
  have hv : (runUpdates (updateTrueBatteryVoltage (initialTbv false) 0)
      [⟨0, 13⟩, ⟨50, 13⟩])._tbv_reading_valid = false := by
    simp [runUpdates, update, updateTrueBatteryVoltage, initialTbv, ulongSub]
  have h := (reading_valid_never_consulted (initialTbv false) true false 96 13 defaultRange
    10 (73/5) 0 [⟨0, 13⟩, ⟨50, 13⟩]).2.1 (by decide) hv
  ⟨h.1, h.2 (by norm_num [defaultRange])⟩

/-- The blocks of `loop()` in source order. -/
theorem loop_eq_blocks (m : ModbeeMPPT) (inp : LoopInput) :
    loop m inp =
      loop_webServer (loop_statsSave (loop_configApply (loop_criticalSettings
        (loop_lowPowerBoot (loop_ledUpdate (loop_socCheck (loop_batteryCheck
          (loop_statsAndUpdate m inp) inp) inp) inp) inp) inp) inp) inp) inp := by
  simp only [loop]

/-- The blocks of `loop()` after the SOC refresh touch neither the TBV members
and the charger bits nor the interval members and the timestamps of the battery
check and the SOC refresh. -/
theorem loop_tail_frame (x : ModbeeMPPT) (inp : LoopInput) :
    (loop_statsSave (loop_configApply (loop_criticalSettings (loop_lowPowerBoot
      (loop_ledUpdate x inp) inp) inp) inp) inp).tbv = x.tbv ∧
    (loop_statsSave (loop_configApply (loop_criticalSettings (loop_lowPowerBoot
      (loop_ledUpdate x inp) inp) inp) inp) inp).hw_charge_enable = x.hw_charge_enable ∧
    (loop_statsSave (loop_configApply (loop_criticalSettings (loop_lowPowerBoot
      (loop_ledUpdate x inp) inp) inp) inp) inp).lastSOCCheck = x.lastSOCCheck ∧
    (loop_statsSave (loop_configApply (loop_criticalSettings (loop_lowPowerBoot
      (loop_ledUpdate x inp) inp) inp) inp) inp)._socCheckInterval = x._socCheckInterval ∧
    (loop_statsSave (loop_configApply (loop_criticalSettings (loop_lowPowerBoot
      (loop_ledUpdate x inp) inp) inp) inp) inp).lastBatteryCheck = x.lastBatteryCheck ∧
    (loop_statsSave (loop_configApply (loop_criticalSettings (loop_lowPowerBoot
      (loop_ledUpdate x inp) inp) inp) inp) inp)._batteryCheckInterval
      = x._batteryCheckInterval ∧
    (loop_statsSave (loop_configApply (loop_criticalSettings (loop_lowPowerBoot
      (loop_ledUpdate x inp) inp) inp) inp) inp)._configApplyInterval
      = x._configApplyInterval := by
  have f1 : ∀ y : ModbeeMPPT, (loop_ledUpdate y inp).tbv = y.tbv ∧
      (loop_ledUpdate y inp).hw_charge_enable = y.hw_charge_enable ∧
      (loop_ledUpdate y inp).lastSOCCheck = y.lastSOCCheck ∧
      (loop_ledUpdate y inp)._socCheckInterval = y._socCheckInterval ∧
      (loop_ledUpdate y inp).lastBatteryCheck = y.lastBatteryCheck ∧
      (loop_ledUpdate y inp)._batteryCheckInterval = y._batteryCheckInterval ∧
      (loop_ledUpdate y inp)._configApplyInterval = y._configApplyInterval := by
    intro y; simp only [loop_ledUpdate]; split_ifs <;> exact ⟨rfl, rfl, rfl, rfl, rfl, rfl, rfl⟩
  have f2 : ∀ y : ModbeeMPPT, (loop_lowPowerBoot y inp).tbv = y.tbv ∧
      (loop_lowPowerBoot y inp).hw_charge_enable = y.hw_charge_enable ∧
      (loop_lowPowerBoot y inp).lastSOCCheck = y.lastSOCCheck ∧
      (loop_lowPowerBoot y inp)._socCheckInterval = y._socCheckInterval ∧
      (loop_lowPowerBoot y inp).lastBatteryCheck = y.lastBatteryCheck ∧
      (loop_lowPowerBoot y inp)._batteryCheckInterval = y._batteryCheckInterval ∧
      (loop_lowPowerBoot y inp)._configApplyInterval = y._configApplyInterval := by
    intro y; simp only [loop_lowPowerBoot]
    split_ifs <;> exact ⟨rfl, rfl, rfl, rfl, rfl, rfl, rfl⟩
  have f3 : ∀ y : ModbeeMPPT, (loop_criticalSettings y inp).tbv = y.tbv ∧
      (loop_criticalSettings y inp).hw_charge_enable = y.hw_charge_enable ∧
      (loop_criticalSettings y inp).lastSOCCheck = y.lastSOCCheck ∧
      (loop_criticalSettings y inp)._socCheckInterval = y._socCheckInterval ∧
      (loop_criticalSettings y inp).lastBatteryCheck = y.lastBatteryCheck ∧
      (loop_criticalSettings y inp)._batteryCheckInterval = y._batteryCheckInterval ∧
      (loop_criticalSettings y inp)._configApplyInterval = y._configApplyInterval := by
    intro y; simp only [loop_criticalSettings]
    split_ifs <;> exact ⟨rfl, rfl, rfl, rfl, rfl, rfl, rfl⟩
  have f4 : ∀ y : ModbeeMPPT, (loop_configApply y inp).tbv = y.tbv ∧
      (loop_configApply y inp).hw_charge_enable = y.hw_charge_enable ∧
      (loop_configApply y inp).lastSOCCheck = y.lastSOCCheck ∧
      (loop_configApply y inp)._socCheckInterval = y._socCheckInterval ∧
      (loop_configApply y inp).lastBatteryCheck = y.lastBatteryCheck ∧
      (loop_configApply y inp)._batteryCheckInterval = y._batteryCheckInterval ∧
      (loop_configApply y inp)._configApplyInterval = y._configApplyInterval := by
    intro y; simp only [loop_configApply, applyToMPPT]
    split_ifs <;> exact ⟨rfl, rfl, rfl, rfl, rfl, rfl, rfl⟩
  have f5 : ∀ y : ModbeeMPPT, (loop_statsSave y inp).tbv = y.tbv ∧
      (loop_statsSave y inp).hw_charge_enable = y.hw_charge_enable ∧
      (loop_statsSave y inp).lastSOCCheck = y.lastSOCCheck ∧
      (loop_statsSave y inp)._socCheckInterval = y._socCheckInterval ∧
      (loop_statsSave y inp).lastBatteryCheck = y.lastBatteryCheck ∧
      (loop_statsSave y inp)._batteryCheckInterval = y._batteryCheckInterval ∧
      (loop_statsSave y inp)._configApplyInterval = y._configApplyInterval := by
    intro y; simp only [loop_statsSave]
    split_ifs <;> exact ⟨rfl, rfl, rfl, rfl, rfl, rfl, rfl⟩
  obtain ⟨a1, a2, a3, a4, a5, a6, a7⟩ := f1 x
  obtain ⟨b1, b2, b3, b4, b5, b6, b7⟩ := f2 (loop_ledUpdate x inp)
  obtain ⟨c1, c2, c3, c4, c5, c6, c7⟩ := f3 (loop_lowPowerBoot (loop_ledUpdate x inp) inp)
  obtain ⟨d1, d2, d3, d4, d5, d6, d7⟩ := f4 (loop_criticalSettings (loop_lowPowerBoot
    (loop_ledUpdate x inp) inp) inp)
  obtain ⟨e1, e2, e3, e4, e5, e6, e7⟩ := f5 (loop_configApply (loop_criticalSettings
    (loop_lowPowerBoot (loop_ledUpdate x inp) inp) inp) inp)
  exact ⟨by rw [e1, d1, c1, b1, a1], by rw [e2, d2, c2, b2, a2], by rw [e3, d3, c3, b3, a3],
    by rw [e4, d4, c4, b4, a4], by rw [e5, d5, c5, b5, a5], by rw [e6, d6, c6, b6, a6],
    by rw [e7, d7, c7, b7, a7]⟩

/-- A pass made while the charger reports charging, the SOC refresh is not due
and the web server is not running: the TBV members see one `update()` call and
nothing else, charge enable is untouched, and the SOC gate is as before. -/
theorem loop_quiet_charging_pass (m : ModbeeMPPT) (inp : LoopInput)
    (hc : isCharging inp.status1 = true)
    (hsoc : ¬ ulongSub inp.currentTime m.lastSOCCheck ≥ m._socCheckInterval)
    (hweb : inp.webServerRuns = false) :
    (loop m inp).tbv = update m.tbv inp.updateMillis inp.adc.vbat ∧
    (loop m inp).hw_charge_enable = m.hw_charge_enable ∧
    (loop m inp).lastSOCCheck = m.lastSOCCheck ∧
    (loop m inp)._socCheckInterval = m._socCheckInterval := by
  obtain ⟨t1, t2, t3, t4, _, _, _⟩ :=
    loop_tail_frame (loop_socCheck (loop_batteryCheck (loop_statsAndUpdate m inp) inp) inp) inp
  rw [loop_eq_blocks, (loop_webServer_bits _ inp).2.2 hweb, t1, t2, t3, t4]
  have hnc : (!isCharging inp.status1) = false := by rw [hc]; rfl
  have s1 : (loop_statsAndUpdate m inp).lastSOCCheck = m.lastSOCCheck ∧
      (loop_statsAndUpdate m inp)._socCheckInterval = m._socCheckInterval ∧
      (loop_statsAndUpdate m inp).hw_charge_enable = m.hw_charge_enable ∧
      (loop_statsAndUpdate m inp).tbv = update m.tbv inp.updateMillis inp.adc.vbat := by
    simp only [loop_statsAndUpdate]; split_ifs <;> exact ⟨rfl, rfl, rfl, rfl⟩
  have s2 : ∀ y : ModbeeMPPT, (loop_batteryCheck y inp).lastSOCCheck = y.lastSOCCheck ∧
      (loop_batteryCheck y inp)._socCheckInterval = y._socCheckInterval ∧
      (loop_batteryCheck y inp).hw_charge_enable = y.hw_charge_enable ∧
      (loop_batteryCheck y inp).tbv = y.tbv := by
    intro y
    simp only [loop_batteryCheck, hnc, Bool.false_eq_true, if_false]
    split_ifs <;> exact ⟨rfl, rfl, rfl, rfl⟩
  obtain ⟨a1, a2, a3, a4⟩ := s1
  obtain ⟨b1, b2, b3, b4⟩ := s2 (loop_statsAndUpdate m inp)
  have hsoc' : ¬ ulongSub inp.currentTime
      (loop_batteryCheck (loop_statsAndUpdate m inp) inp).lastSOCCheck ≥
      (loop_batteryCheck (loop_statsAndUpdate m inp) inp)._socCheckInterval := by
    rw [b1, b2, a1, a2]; exact hsoc
  have s3 : loop_socCheck (loop_batteryCheck (loop_statsAndUpdate m inp) inp) inp =
      loop_batteryCheck (loop_statsAndUpdate m inp) inp := by
    simp only [loop_socCheck, hsoc', if_false]
  rw [s3, b1, b2, b3, b4, a1, a2, a3, a4]
  exact ⟨rfl, rfl, rfl, rfl⟩

/-- C22 fails on the code: the TBV steps of `update()` never write the
charge-enable bit (the `setChargeEnable` calls are commented out).  On a
charging controller with charge enable set, three passes after the cycle start
forced discharge is asserted (state WaitStabilize) while charge enable is still
set, and `_tbv_original_charge_state` has not been captured. -/
theorem tbv_cycle_keeps_charge_enable :
    (∀ (m : ModbeeMPPT) (inp : LoopInput),
      (loop_statsAndUpdate m inp).hw_charge_enable = m.hw_charge_enable) ∧
    chargingController.hw_charge_enable = true ∧
    chargingController.tbv._tbv_state = TBVS_DISABLE_CHARGING ∧
    (runLoop chargingController
      [chargingPass 10 12, chargingPass 60 12, chargingPass 61 12]).tbv._tbv_state
      = TBVS_WAIT_STABILIZE ∧
    (runLoop chargingController
      [chargingPass 10 12, chargingPass 60 12, chargingPass 61 12]).tbv.hw_force_batt_discharge
      = true ∧
    (runLoop chargingController
      [chargingPass 10 12, chargingPass 60 12, chargingPass 61 12]).hw_charge_enable = true ∧
    (runLoop chargingController
      [chargingPass 10 12, chargingPass 60 12,
        chargingPass 61 12]).tbv._tbv_original_charge_state = false := by
  have hc : ∀ (t : Nat) (v : ℚ), isCharging (chargingPass t v).status1 = true := by
    intro t v
    have h96 : isCharging 96 = true := by decide
    exact h96
  have h0 : chargingController.lastSOCCheck = 0 ∧ chargingController._socCheckInterval = 60000 ∧
      chargingController.hw_charge_enable = true ∧
      chargingController.tbv = updateTrueBatteryVoltage (initialTbv false) 0 :=
    ⟨rfl, rfl, rfl, rfl⟩
  obtain ⟨l0, i0, e0, t0⟩ := h0
  obtain ⟨t1, e1, l1, i1⟩ := loop_quiet_charging_pass chargingController (chargingPass 10 12)
    (hc 10 12) (by rw [l0, i0]; decide) rfl
  obtain ⟨t2, e2, l2, i2⟩ := loop_quiet_charging_pass
    (loop chargingController (chargingPass 10 12)) (chargingPass 60 12)
    (hc 60 12) (by rw [l1, i1, l0, i0]; decide) rfl
  obtain ⟨t3, e3, _, _⟩ := loop_quiet_charging_pass
    (loop (loop chargingController (chargingPass 10 12)) (chargingPass 60 12))
    (chargingPass 61 12) (hc 61 12) (by rw [l2, i2, l1, i1, l0, i0]; decide) rfl
  have hrun : runLoop chargingController
      [chargingPass 10 12, chargingPass 60 12, chargingPass 61 12] =
      loop (loop (loop chargingController (chargingPass 10 12)) (chargingPass 60 12))
        (chargingPass 61 12) := by
    simp only [runLoop, List.foldl_cons, List.foldl_nil]
  have htbv : (runLoop chargingController
      [chargingPass 10 12, chargingPass 60 12, chargingPass 61 12]).tbv =
      { _tbv_state := TBVS_WAIT_STABILIZE
        _tbv_timer := 61
        _tbv_original_charge_state := false
        _tbv_original_discharge_state := false
        _tbv_last_reading := 0
        _tbv_reading_valid := false
        hw_force_batt_discharge := true } := by
    rw [hrun, t3, t2, t1, t0]
    simp [chargingPass, update, updateTrueBatteryVoltage, initialTbv, ulongSub]
  refine ⟨fun m inp => ?_, rfl, ?_, ?_, ?_, ?_, ?_⟩
  · simp only [loop_statsAndUpdate]; split_ifs <;> rfl
  · rw [t0]; simp [updateTrueBatteryVoltage, initialTbv]
  · rw [htbv]
  · rw [htbv]
  · rw [hrun, e3, e2, e1, e0]
  · rw [htbv]

/-- What `begin()` does to the interval members: the battery-check and SOC
intervals are loaded from the configuration, the config-apply interval and its
timestamp keep the values they had, and the configuration object is the one
`config.begin()` left. -/
theorem begin_intervals (m : ModbeeMPPT) (inp : BeginInput) (h : inp.bq_begin_ok = true) :
    (begin m inp).1 = true ∧
    (begin m inp).2.config = inp.configAfterBegin ∧
    (begin m inp).2._batteryCheckInterval = inp.configAfterBegin.data.battery_check_interval ∧
    (begin m inp).2._socCheckInterval = inp.configAfterBegin.data.soc_check_interval ∧
    (begin m inp).2._configApplyInterval = m._configApplyInterval ∧
    (begin m inp).2.lastConfigApply = m.lastConfigApply ∧
    (begin m inp).2.lastBatteryCheck = m.lastBatteryCheck ∧
    (begin m inp).2.lastSOCCheck = m.lastSOCCheck := by
  simp only [begin, h, Bool.not_true, Bool.false_eq_true, if_false, applyToMPPT]
  split_ifs <;> exact ⟨trivial, rfl, rfl, rfl, rfl, rfl, rfl, rfl⟩

/-- The gate of the configuration re-apply in one pass of `loop()`: the task
runs iff the wrapped difference between the clock and its timestamp reaches the
member `_configApplyInterval` as it stood before the pass; no block writes that
member or the configuration object. -/
theorem loop_configApply_gate (m : ModbeeMPPT) (inp : LoopInput) :
    (loop m inp).lastConfigApply =
      (if ulongSub inp.currentTime m.lastConfigApply ≥ m._configApplyInterval then
        inp.currentTime else m.lastConfigApply) ∧
    (loop m inp)._configApplyInterval = m._configApplyInterval ∧
    (loop m inp).config = m.config := by
  have f1 : ∀ y : ModbeeMPPT, (loop_statsAndUpdate y inp).lastConfigApply = y.lastConfigApply ∧
      (loop_statsAndUpdate y inp)._configApplyInterval = y._configApplyInterval ∧
      (loop_statsAndUpdate y inp).config = y.config := by
    intro y; simp only [loop_statsAndUpdate]; split_ifs <;> exact ⟨rfl, rfl, rfl⟩
  have f2 : ∀ y : ModbeeMPPT, (loop_batteryCheck y inp).lastConfigApply = y.lastConfigApply ∧
      (loop_batteryCheck y inp)._configApplyInterval = y._configApplyInterval ∧
      (loop_batteryCheck y inp).config = y.config := by
    intro y; simp only [loop_batteryCheck]; split_ifs <;> exact ⟨rfl, rfl, rfl⟩
  have f3 : ∀ y : ModbeeMPPT, (loop_socCheck y inp).lastConfigApply = y.lastConfigApply ∧
      (loop_socCheck y inp)._configApplyInterval = y._configApplyInterval ∧
      (loop_socCheck y inp).config = y.config := by
    intro y; simp only [loop_socCheck]; split_ifs <;> exact ⟨rfl, rfl, rfl⟩
  have f4 : ∀ y : ModbeeMPPT, (loop_ledUpdate y inp).lastConfigApply = y.lastConfigApply ∧
      (loop_ledUpdate y inp)._configApplyInterval = y._configApplyInterval ∧
      (loop_ledUpdate y inp).config = y.config := by
    intro y; simp only [loop_ledUpdate]; split_ifs <;> exact ⟨rfl, rfl, rfl⟩
  have f5 : ∀ y : ModbeeMPPT, (loop_lowPowerBoot y inp).lastConfigApply = y.lastConfigApply ∧
      (loop_lowPowerBoot y inp)._configApplyInterval = y._configApplyInterval ∧
      (loop_lowPowerBoot y inp).config = y.config := by
    intro y; simp only [loop_lowPowerBoot]; split_ifs <;> exact ⟨rfl, rfl, rfl⟩
  have f6 : ∀ y : ModbeeMPPT, (loop_criticalSettings y inp).lastConfigApply = y.lastConfigApply ∧
      (loop_criticalSettings y inp)._configApplyInterval = y._configApplyInterval ∧
      (loop_criticalSettings y inp).config = y.config := by
    intro y; simp only [loop_criticalSettings]; split_ifs <;> exact ⟨rfl, rfl, rfl⟩
  have f7 : ∀ y : ModbeeMPPT, (loop_configApply y inp).lastConfigApply =
        (if ulongSub inp.currentTime y.lastConfigApply ≥ y._configApplyInterval then
          inp.currentTime else y.lastConfigApply) ∧
      (loop_configApply y inp)._configApplyInterval = y._configApplyInterval ∧
      (loop_configApply y inp).config = y.config := by
    intro y; simp only [loop_configApply, applyToMPPT]; split_ifs <;> exact ⟨rfl, rfl, rfl⟩
  have f8 : ∀ y : ModbeeMPPT, (loop_statsSave y inp).lastConfigApply = y.lastConfigApply ∧
      (loop_statsSave y inp)._configApplyInterval = y._configApplyInterval ∧
      (loop_statsSave y inp).config = y.config := by
    intro y; simp only [loop_statsSave]; split_ifs <;> exact ⟨rfl, rfl, rfl⟩
  rw [loop_eq_blocks]
  obtain ⟨a1, a2, a3⟩ := f1 m
  obtain ⟨b1, b2, b3⟩ := f2 (loop_statsAndUpdate m inp)
  obtain ⟨c1, c2, c3⟩ := f3 (loop_batteryCheck (loop_statsAndUpdate m inp) inp)
  obtain ⟨d1, d2, d3⟩ := f4 (loop_socCheck (loop_batteryCheck (loop_statsAndUpdate m inp) inp) inp)
  obtain ⟨e1, e2, e3⟩ := f5 (loop_ledUpdate (loop_socCheck (loop_batteryCheck
    (loop_statsAndUpdate m inp) inp) inp) inp)
  obtain ⟨g1, g2, g3⟩ := f6 (loop_lowPowerBoot (loop_ledUpdate (loop_socCheck
    (loop_batteryCheck (loop_statsAndUpdate m inp) inp) inp) inp) inp)
  obtain ⟨h1, h2, h3⟩ := f7 (loop_criticalSettings (loop_lowPowerBoot (loop_ledUpdate
    (loop_socCheck (loop_batteryCheck (loop_statsAndUpdate m inp) inp) inp) inp) inp) inp)
  obtain ⟨i1, i2, i3⟩ := f8 (loop_configApply (loop_criticalSettings (loop_lowPowerBoot
    (loop_ledUpdate (loop_socCheck (loop_batteryCheck (loop_statsAndUpdate m inp) inp) inp)
      inp) inp) inp) inp)
  obtain ⟨_, _, _, _, _, _, _, _, w9, w10, w11, _⟩ := loop_webServer_frame
    (loop_statsSave (loop_configApply (loop_criticalSettings (loop_lowPowerBoot
      (loop_ledUpdate (loop_socCheck (loop_batteryCheck (loop_statsAndUpdate m inp) inp) inp)
        inp) inp) inp) inp) inp) inp
  rw [g1, g2, e1, e2, d1, d2, c1, c2, b1, b2, a1, a2] at h1
  exact ⟨by rw [w10, i1, h1],
    by rw [w9, i2, h2, g2, e2, d2, c2, b2, a2],
    by rw [w11, i3, h3, g3, e3, d3, c3, b3, a3]⟩

/-- C24 fails on the code: `begin()` loads the battery-check and SOC intervals from
the configuration but never the config-apply interval. With a valid configuration
asking for a re-apply every 60 s, the member that gates the task is still the
constructor's 300000 ms after `begin()`, so the pass at 60000 ms (60000 ms after
the last run) does not run the task, and the pass at 300000 ms does. -/
theorem config_apply_interval_never_loaded :
    validateConfig fastIntervalsBoot.configAfterBegin.data = true ∧
    (begin (constructed false false 0) fastIntervalsBoot).1 = true ∧
    (begin (constructed false false 0) fastIntervalsBoot).2.config.data.battery_check_interval
      = 10000 ∧
    (begin (constructed false false 0) fastIntervalsBoot).2._batteryCheckInterval = 10000 ∧
    (begin (constructed false false 0) fastIntervalsBoot).2.config.data.soc_check_interval
      = 20000 ∧
    (begin (constructed false false 0) fastIntervalsBoot).2._socCheckInterval = 20000 ∧
    (begin (constructed false false 0) fastIntervalsBoot).2.config.data.config_apply_interval
      = 60000 ∧
    (begin (constructed false false 0) fastIntervalsBoot).2._configApplyInterval = 300000 ∧
    (begin (constructed false false 0) fastIntervalsBoot).2.lastConfigApply = 0 ∧
    (loop (begin (constructed false false 0) fastIntervalsBoot).2
      (notChargingPass 60000 13)).lastConfigApply = 0 ∧
    (loop (begin (constructed false false 0) fastIntervalsBoot).2
      (notChargingPass 300000 13)).lastConfigApply = 300000 := by
  obtain ⟨b1, b2, b3, b4, b5, b6, _, _⟩ :=
    begin_intervals (constructed false false 0) fastIntervalsBoot rfl
  obtain ⟨g1, _, _⟩ := loop_configApply_gate
    (begin (constructed false false 0) fastIntervalsBoot).2 (notChargingPass 60000 13)
  obtain ⟨k1, _, _⟩ := loop_configApply_gate
    (begin (constructed false false 0) fastIntervalsBoot).2 (notChargingPass 300000 13)
  rw [b5, b6] at g1 k1
  have hv : validateConfig fastIntervalsBoot.configAfterBegin.data = true := by
    norm_num [validateConfig, validateBatteryConfig, validateChargingConfig,
      validateInputConfig, validateTimerConfig, validateIntervalConfig, fastIntervalsBoot,
      fastIntervalsConfig, setDefaults]
  refine ⟨hv, b1, by rw [b2]; rfl, by rw [b3]; rfl, by rw [b2]; rfl, by rw [b4]; rfl,
    by rw [b2]; rfl, by rw [b5]; rfl, by rw [b6]; rfl, ?_, ?_⟩
  · rw [g1]; decide
  · rw [k1]; decide

/-- The result of `clampValue` lies between the bounds when they are ordered. -/
theorem clampValue_bounds (value lo hi : ℚ) (h : lo ≤ hi) :
    lo ≤ clampValue value lo hi ∧ clampValue value lo hi ≤ hi := by
  unfold clampValue
  split_ifs with h1 h2
  · exact ⟨le_refl _, h⟩
  · exact ⟨h, le_refl _⟩
  · exact ⟨not_lt.mp h1, not_lt.mp h2⟩

/-- Seven of the eight clamping setters clamp with the bounds of their driver
setter: the driver never refuses the clamped value, and the return value is the
outcome of the register write. -/
theorem clamping_setters_accept (v : ℚ) (write_ok : Bool) :
    (((setChargeVoltage v write_ok).2 ≠ none) ∧ (setChargeVoltage v write_ok).1 = write_ok) ∧
    (((setTerminationCurrent v write_ok).2 ≠ none) ∧ (setTerminationCurrent v write_ok).1 = write_ok) ∧
    (((setRechargeThreshold v write_ok).2 ≠ none) ∧ (setRechargeThreshold v write_ok).1 = write_ok) ∧
    (((setPrechargeCurrent v write_ok).2 ≠ none) ∧ (setPrechargeCurrent v write_ok).1 = write_ok) ∧
    (((setInputCurrentLimit v write_ok).2 ≠ none) ∧ (setInputCurrentLimit v write_ok).1 = write_ok) ∧
    (((setMinSystemVoltage v write_ok).2 ≠ none) ∧ (setMinSystemVoltage v write_ok).1 = write_ok) ∧
    (((setInputVoltageLimit v write_ok).2 ≠ none) ∧ (setInputVoltageLimit v write_ok).1 = write_ok) := by
  refine ⟨?_, ?_, ?_, ?_, ?_, ?_, ?_⟩
  · have hb := clampValue_bounds v MODBEE_MIN_CHARGE_VOLTAGE MODBEE_MAX_CHARGE_VOLTAGE (by norm_num [ MODBEE_MIN_CHARGE_VOLTAGE, MODBEE_MAX_CHARGE_VOLTAGE])
    simp only [setChargeVoltage]
    generalize clampValue v MODBEE_MIN_CHARGE_VOLTAGE MODBEE_MAX_CHARGE_VOLTAGE = x at hb
    simp only [BQ25798.setChargeLimitV]
    rw [if_neg (by
      rintro (h | h)
      · exact absurd h (not_lt.mpr hb.1)
      · exact absurd h (not_lt.mpr hb.2))]
    exact ⟨fun h => Option.noConfusion h, rfl⟩
  · have hb := clampValue_bounds v (1/25) 1 (by norm_num)
    simp only [setTerminationCurrent]
    generalize clampValue v (1/25) 1 = x at hb
    simp only [BQ25798.setTerminationA]
    rw [if_neg (by
      rintro (h | h)
      · exact absurd h (not_lt.mpr hb.1)
      · exact absurd h (not_lt.mpr hb.2))]
    exact ⟨fun h => Option.noConfusion h, rfl⟩
  · have hb := clampValue_bounds v (1/20) (4/5) (by norm_num)
    simp only [setRechargeThreshold]
    generalize clampValue v (1/20) (4/5) = x at hb
    simp only [BQ25798.setRechargeThreshOffsetV]
    rw [if_neg (by
      rintro (h | h)
      · exact absurd h (not_lt.mpr hb.1)
      · exact absurd h (not_lt.mpr hb.2))]
    exact ⟨fun h => Option.noConfusion h, rfl⟩
  · have hb := clampValue_bounds v (1/25) 2 (by norm_num)
    simp only [setPrechargeCurrent]
    generalize clampValue v (1/25) 2 = x at hb
    simp only [BQ25798.setPrechargeLimitA]
    rw [if_neg (by
      rintro (h | h)
      · exact absurd h (not_lt.mpr hb.1)
      · exact absurd h (not_lt.mpr hb.2))]
    exact ⟨fun h => Option.noConfusion h, rfl⟩
  · have hb := clampValue_bounds v (1/10) (33/10) (by norm_num)
    simp only [setInputCurrentLimit]
    generalize clampValue v (1/10) (33/10) = x at hb
    simp only [BQ25798.setInputLimitA]
    rw [if_neg (by
      rintro (h | h)
      · exact absurd h (not_lt.mpr hb.1)
      · exact absurd h (not_lt.mpr hb.2))]
    exact ⟨fun h => Option.noConfusion h, rfl⟩
  · have hb := clampValue_bounds v (5/2) 16 (by norm_num)
    simp only [setMinSystemVoltage]
    generalize clampValue v (5/2) 16 = x at hb
    simp only [BQ25798.setMinSystemV]
    rw [if_neg (by
      rintro (h | h)
      · exact absurd h (not_lt.mpr hb.1)
      · exact absurd h (not_lt.mpr hb.2))]
    exact ⟨fun h => Option.noConfusion h, rfl⟩
  · have hb := clampValue_bounds v MODBEE_MIN_INPUT_VOLTAGE MODBEE_MAX_INPUT_VOLTAGE (by norm_num [ MODBEE_MIN_INPUT_VOLTAGE, MODBEE_MAX_INPUT_VOLTAGE])
    simp only [setInputVoltageLimit]
    generalize clampValue v MODBEE_MIN_INPUT_VOLTAGE MODBEE_MAX_INPUT_VOLTAGE = x at hb
    simp only [BQ25798.setInputLimitV]
    rw [if_neg (by
      rintro (h | h)
      · exact absurd h (not_lt.mpr hb.1)
      · exact absurd h (not_lt.mpr hb.2))]
    exact ⟨fun h => Option.noConfusion h, rfl⟩

/-- C25 fails on the code: `setChargeCurrent` clamps to 0.0 .. 5.0 A
(`MODBEE_MIN_CHARGE_CURRENT` is `0.0f`) while the driver's `setChargeLimitA`
refuses everything below 0.05 A, so `setChargeCurrent(0.02)`, `setChargeCurrent(0)`
and every negative input reach the driver's rejection: the call returns false
with no register write, although the I2C write would succeed.  The API setter is
refused exactly for the inputs below 0.05 A. -/
theorem setChargeCurrent_reaches_driver_rejection :
    MODBEE_MIN_CHARGE_CURRENT = 0 ∧
    clampValue (1/50) MODBEE_MIN_CHARGE_CURRENT MODBEE_MAX_CHARGE_CURRENT = 1/50 ∧
    BQ25798.setChargeLimitA (1/50) true = (false, none) ∧
    setChargeCurrent (1/50) true = (false, none) ∧
    setChargeCurrent 0 true = (false, none) ∧
    setChargeCurrent (-1) true = (false, none) ∧
    setChargeCurrent (1/20) true = (true, some 5) ∧
    (∀ (c : ℚ) (write_ok : Bool), (setChargeCurrent c write_ok).2 = none ↔ c < 1/20) := by
  refine ⟨rfl, ?_, ?_, ?_, ?_, ?_, ?_, ?_⟩
  · norm_num [clampValue, MODBEE_MIN_CHARGE_CURRENT, MODBEE_MAX_CHARGE_CURRENT]
  · norm_num [BQ25798.setChargeLimitA]
  · norm_num [setChargeCurrent, clampValue, MODBEE_MIN_CHARGE_CURRENT,
      MODBEE_MAX_CHARGE_CURRENT, BQ25798.setChargeLimitA]
  · norm_num [setChargeCurrent, clampValue, MODBEE_MIN_CHARGE_CURRENT,
      MODBEE_MAX_CHARGE_CURRENT, BQ25798.setChargeLimitA]
  · norm_num [setChargeCurrent, clampValue, MODBEE_MIN_CHARGE_CURRENT,
      MODBEE_MAX_CHARGE_CURRENT, BQ25798.setChargeLimitA]
  · norm_num [setChargeCurrent, clampValue, MODBEE_MIN_CHARGE_CURRENT,
      MODBEE_MAX_CHARGE_CURRENT, BQ25798.setChargeLimitA]
    decide
  · intro c write_ok
    have hb := clampValue_bounds c MODBEE_MIN_CHARGE_CURRENT MODBEE_MAX_CHARGE_CURRENT
      (by norm_num [ MODBEE_MIN_CHARGE_CURRENT, MODBEE_MAX_CHARGE_CURRENT])
    have hmax : MODBEE_MAX_CHARGE_CURRENT = 5 := rfl
    have hmin : MODBEE_MIN_CHARGE_CURRENT = 0 := rfl
    rw [hmax] at hb
    constructor
    · intro h
      by_contra hc
      have hc' : (1 : ℚ) / 20 ≤ c := not_lt.mp hc
      have hge : (1 : ℚ) / 20 ≤ clampValue c MODBEE_MIN_CHARGE_CURRENT
          MODBEE_MAX_CHARGE_CURRENT := by
        unfold clampValue
        rw [hmin, hmax]
        split_ifs with h1 h2
        · linarith
        · norm_num
        · exact hc'
      have hno : ¬ (clampValue c MODBEE_MIN_CHARGE_CURRENT MODBEE_MAX_CHARGE_CURRENT < 1/20 ∨
          clampValue c MODBEE_MIN_CHARGE_CURRENT MODBEE_MAX_CHARGE_CURRENT > 5) := by
        rintro (h1 | h1)
        · exact absurd h1 (not_lt.mpr hge)
        · exact absurd h1 (not_lt.mpr hb.2)
      simp only [setChargeCurrent, BQ25798.setChargeLimitA, if_neg hno] at h
      exact Option.noConfusion h
    · intro hc
      have hlt : clampValue c MODBEE_MIN_CHARGE_CURRENT MODBEE_MAX_CHARGE_CURRENT < 1/20 := by
        unfold clampValue
        rw [hmin, hmax]
        split_ifs with h1 h2
        · norm_num
        · linarith
        · exact hc
      simp only [setChargeCurrent, BQ25798.setChargeLimitA, if_pos (Or.inl hlt)]

end ModbeeMppt
